import Mathlib

/-!
M5Stack Screen-Capture: a shallow embedding of `src/main.cpp`.

The firmware captures the display framebuffer as a BMP or PPM byte stream
(to a file or to a network client), serves a small HTTP interface and runs
a gauge animation in a cooperative event loop.

Conventions of the embedding.

* A byte (`unsigned char`, `char`) is a natural number; every C array is a
  map from indices to bytes (`Mem`), so a freshly declared local array is an
  arbitrary map (its uninitialised contents are a parameter `stack`).
* `image_width` and `image_height` are the non-negative values returned by
  the display driver (the size of the panel, a few hundred pixels each); C
  `int` arithmetic on them stays far from the limits of `int` and is taken
  exactly, while the `uint filesize` field is reduced modulo `2^32`.
* A sink (`File`, `WiFiClient`) is the list of bytes written to it so far.
* Where the calls themselves matter, an encoder runs in a `World` that records
  every display read and every output call and lets output calls fail.
* The client loop of the web server is also given in time, on a sequence of
  observations (`Tick`) of the connection and of `millis()`.
* The needle geometry of `draw_gauge` is stated over the real numbers.
* Where the indices into `line_data` matter, the array is a `Buf`, which
  keeps its declared size and records every index read or written.
-/

set_option linter.unusedVariables false

namespace M5ScreenCapture

/-- One `unsigned char`. -/
abbrev Byte := Nat

/-- A C array of bytes, seen as the map from index to content. -/
abbrev Mem := Nat → Byte

/-- The colour of one pixel as the display reads it back (RGB888). -/
structure RGB where
  r : Byte
  g : Byte
  b : Byte
deriving DecidableEq, Repr

/-- The display: its size and the colour at column `x`, row `y`
(row 0 is the top row). -/
structure Lcd where
  width : Nat
  height : Nat
  pixel : Nat → Nat → RGB

/-- The loop `for (i = 0; i < n; i++) body(i)` acting on a state. -/
def forLoop {σ : Type} : Nat → (Nat → σ → σ) → σ → σ
  | 0, _, s => s
  | n + 1, body, s => body n (forLoop n body s)

/-- The loop `for (y = n; y > 0; y--) body(y)` acting on a state. -/
def downLoop {σ : Type} : Nat → (Nat → σ → σ) → σ → σ
  | 0, _, s => s
  | n + 1, body, s => downLoop n body (body (n + 1) s)

/-- The assignment `a[i] = v`. -/
def Mem.set (a : Mem) (i : Nat) (v : Byte) : Mem :=
  fun k => if k = i then v else a k

/-- An array initialiser `{ b0, b1, ... }`. -/
def Mem.ofList (l : List Byte) : Mem :=
  fun k => l.getD k 0

/-- The call `sink.write(buf, n)` on a sink that accepts every byte: the
first `n` bytes of `buf` are appended. -/
def write (sink : List Byte) (buf : Mem) (n : Nat) : List Byte :=
  sink ++ (List.range n).map buf

/-- Modelled from the spec: the display driver primitive
`M5.Lcd.readRectRGB(x, y, w, h, data)`, which is library code outside this
repository. It reads the `w` by `h` rectangle whose top-left corner is
`(x, y)` into `data`, row by row, three bytes per pixel in R, G, B order. -/
def readRectRGB (lcd : Lcd) (x y w h : Nat) (data : Mem) : Mem :=
  forLoop h (fun j d =>
    forLoop w (fun i d =>
      let p := lcd.pixel (x + i) (y + j)
      let o := 3 * (j * w + i)
      ((d.set o p.r).set (o + 1) p.g).set (o + 2) p.b) d) data

/-- The array initialiser of `header[54]` in both BMP emitters. -/
def bmpHeaderInit : List Byte :=
  [ 66, 77,
    0, 0, 0, 0,
    0, 0, 0, 0,
    54, 0, 0, 0,
    40, 0, 0, 0,
    0, 0, 0, 0,
    0, 0, 0, 0,
    1, 0,
    24, 0,
    0, 0, 0, 0,
    0, 0, 0, 0,
    0, 0, 0, 0,
    0, 0, 0, 0,
    0, 0, 0, 0,
    0, 0, 0, 0 ]

/-- The function `M5Screen2bmp(WiFiClient &client)`: the return value and the
bytes of the client sink afterwards. `stack` is the content of the
uninitialised array `line_data`. -/
def M5Screen2bmp_client (lcd : Lcd) (stack : Mem) (client : List Byte) :
    Bool × List Byte :=
  let image_height := lcd.height
  let image_width := lcd.width
  let pad := (4 - (3 * image_width) % 4) % 4
  let filesize := (54 + (3 * image_width + pad) * image_height) % 2 ^ 32
  let header := forLoop 4 (fun i (h : Mem) =>
    ((h.set (2 + i) ((filesize >>> (8 * i)) &&& 255)).set
      (18 + i) ((image_width >>> (8 * i)) &&& 255)).set
      (22 + i) ((image_height >>> (8 * i)) &&& 255)) (Mem.ofList bmpHeaderInit)
  let client := write client header 54
  let line_data := forLoop (image_width * 3 + pad - (image_width - 1) * 3)
    (fun k (d : Mem) => d.set ((image_width - 1) * 3 + k) 0) stack
  let st := downLoop image_height (fun y (st : Mem × List Byte) =>
    let line_data := readRectRGB lcd 0 (y - 1) image_width 1 st.1
    let line_data := forLoop image_width (fun x (d : Mem) =>
      let r_buff := d (x * 3)
      let d := d.set (x * 3) (d (x * 3 + 2))
      d.set (x * 3 + 2) r_buff) line_data
    (line_data, write st.2 line_data (image_width * 3 + pad))) (line_data, client)
  (true, st.2)

/-- The function `M5Screen2bmp(fs::FS &fs, const char *path)`: the return
value and the content of the file afterwards. `opens` tells whether
`fs.open(path, FILE_WRITE)` yields a file (which is then empty); when it does
not, nothing is written. `stack` is the content of the uninitialised array
`line_data`. -/
def M5Screen2bmp_fs (lcd : Lcd) (stack : Mem) (opens : Bool) :
    Bool × List Byte :=
  if opens then
    let file : List Byte := []
    let image_height := lcd.height
    let image_width := lcd.width
    let pad := (4 - (3 * image_width) % 4) % 4
    let filesize := (54 + (3 * image_width + pad) * image_height) % 2 ^ 32
    let header := forLoop 4 (fun i (h : Mem) =>
      ((h.set (2 + i) ((filesize >>> (8 * i)) &&& 255)).set
        (18 + i) ((image_width >>> (8 * i)) &&& 255)).set
        (22 + i) ((image_height >>> (8 * i)) &&& 255)) (Mem.ofList bmpHeaderInit)
    let file := write file header 54
    let line_data := forLoop (image_width * 3 + pad - (image_width - 1) * 3)
      (fun k (d : Mem) => d.set ((image_width - 1) * 3 + k) 0) stack
    let st := downLoop image_height (fun y (st : Mem × List Byte) =>
      let line_data := readRectRGB lcd 0 (y - 1) image_width 1 st.1
      let line_data := forLoop image_width (fun x (d : Mem) =>
        let r_buff := d (x * 3)
        let d := d.set (x * 3) (d (x * 3 + 2))
        d.set (x * 3 + 2) r_buff) line_data
      (line_data, write st.2 line_data (image_width * 3 + pad))) (line_data, file)
    (true, st.2)
  else
    (false, [])

/-- The text that `printf("%d", n)` prints for a non-negative `n`, as bytes. -/
def decimal (n : Nat) : List Byte :=
  (Nat.repr n).toList.map Char.toNat

/-- The bytes of an ASCII string literal. -/
def ascii (s : String) : List Byte :=
  s.toList.map Char.toNat

/-- The function `M5Screen2ppm(fs::FS &fs, const char *path)`: the return
value and the content of the file afterwards; `opens` and `stack` are as for
`M5Screen2bmp_fs`. -/
def M5Screen2ppm (lcd : Lcd) (stack : Mem) (opens : Bool) : Bool × List Byte :=
  if opens then
    let file : List Byte := []
    let image_height := lcd.height
    let image_width := lcd.width
    let file := file ++ (ascii "P6\n" ++ decimal image_width ++ ascii " " ++
      decimal image_height ++ ascii "\n255\n")
    let st := forLoop image_height (fun y (st : Mem × List Byte) =>
      let line_data := readRectRGB lcd 0 y image_width 1 st.1
      (line_data, write st.2 line_data (image_width * 3))) (stack, file)
    (true, st.2)
  else
    (false, [])

/-- A framebuffer given by its pixels in row-major order. -/
def Lcd.ofRows (w h : Nat) (px : List RGB) : Lcd :=
  { width := w, height := h, pixel := fun x y => px.getD (y * w + x) ⟨0, 0, 0⟩ }

/-- Byte `k` of the row that the BMP emitters write for display row `y`:
blue, green, red of pixel `k / 3` while `k < 3 * width`, zero in the padding. -/
def bmpRowByte (lcd : Lcd) (y k : Nat) : Byte :=
  if k < 3 * lcd.width then
    match k % 3 with
    | 0 => (lcd.pixel (k / 3) y).b
    | 1 => (lcd.pixel (k / 3) y).g
    | _ => (lcd.pixel (k / 3) y).r
  else 0

/-- Byte `k` of the row that the display hands out for row `y`. -/
def rgbRowByte (lcd : Lcd) (y k : Nat) : Byte :=
  match k % 3 with
  | 0 => (lcd.pixel (k / 3) y).r
  | 1 => (lcd.pixel (k / 3) y).g
  | _ => (lcd.pixel (k / 3) y).b

/-- The 54 header bytes for file size `F`, width `W` and height `H`. -/
def bmpHeader (F W H : Nat) : List Byte :=
  [ 66, 77,
    F % 256, F / 2 ^ 8 % 256, F / 2 ^ 16 % 256, F / 2 ^ 24 % 256,
    0, 0, 0, 0,
    54, 0, 0, 0,
    40, 0, 0, 0,
    W % 256, W / 2 ^ 8 % 256, W / 2 ^ 16 % 256, W / 2 ^ 24 % 256,
    H % 256, H / 2 ^ 8 % 256, H / 2 ^ 16 % 256, H / 2 ^ 24 % 256,
    1, 0,
    24, 0,
    0, 0, 0, 0,
    0, 0, 0, 0,
    0, 0, 0, 0,
    0, 0, 0, 0,
    0, 0, 0, 0,
    0, 0, 0, 0 ]

/-- Length in bytes of one emitted BMP row. -/
def bmpRowLen (W : Nat) : Nat :=
  3 * W + (4 - 3 * W % 4) % 4

/-- The byte stream of a BMP capture in closed form: the header, then the
rows from the bottom row of the display to the top row. -/
def bmpStream (lcd : Lcd) : List Byte :=
  bmpHeader ((54 + bmpRowLen lcd.width * lcd.height) % 2 ^ 32) lcd.width lcd.height ++
    (List.range (bmpRowLen lcd.width * lcd.height)).map
      (fun i => bmpRowByte lcd (lcd.height - 1 - i / bmpRowLen lcd.width)
        (i % bmpRowLen lcd.width))

/-- The four bytes of a 32-bit little-endian field holding `n`. -/
def le32 (n : Nat) : List Byte :=
  [n % 256, n / 2 ^ 8 % 256, n / 2 ^ 16 % 256, n / 2 ^ 24 % 256]

/-- The number that a little-endian byte string denotes. -/
def fromLE : List Byte → Nat
  | [] => 0
  | b :: bs => b + 256 * fromLE bs

/-- Reference decoder, after the words of the round-trip claim: a 32-bit
little-endian header field at offset `off`. -/
def refField (bytes : List Byte) (off : Nat) : Nat :=
  fromLE ((bytes.drop off).take 4)

/-- Reference decoder: the width, read from header bytes 18 to 21. -/
def refWidth (bytes : List Byte) : Nat :=
  refField bytes 18

/-- Reference decoder: the height, read from header bytes 22 to 25. -/
def refHeight (bytes : List Byte) : Nat :=
  refField bytes 22

/-- Reference decoder of a 24-bit BI_RGB bitmap: the pixel at column `x` of
row `y` (row 0 on top). The pixel array starts at offset 54, rows are stored
bottom-up, each padded to a multiple of four bytes, and a pixel is stored as
blue, green, red. -/
def refPixel (bytes : List Byte) (x y : Nat) : RGB :=
  let stride := (3 * refWidth bytes + 3) / 4 * 4
  let off := 54 + (refHeight bytes - 1 - y) * stride + 3 * x
  { r := bytes.getD (off + 2) 0, g := bytes.getD (off + 1) 0, b := bytes.getD off 0 }

/-- The 2 by 2 framebuffer of the screenshot scenario. -/
def lcd2x2 : Lcd :=
  Lcd.ofRows 2 2 [⟨1, 2, 3⟩, ⟨4, 5, 6⟩, ⟨7, 8, 9⟩, ⟨10, 11, 12⟩]

/-- The 1 by 1 framebuffer of the PPM scenario. -/
def lcd1x1 : Lcd :=
  Lcd.ofRows 1 1 [⟨255, 0, 128⟩]

/-- Some left-over stack content for the concrete scenarios. -/
def stack0 : Mem :=
  fun k => 170 + k % 7

/-- The pixels of display row `y`, left to right, three bytes each in
red, green, blue order. -/
def rgbRow (lcd : Lcd) (y : Nat) : List Byte :=
  (List.range lcd.width).flatMap
    (fun x => [(lcd.pixel x y).r, (lcd.pixel x y).g, (lcd.pixel x y).b])

/-! Global state, web server and event loop. -/

/-- The value of `GET_unknown`. -/
def GET_unknown : Nat := 0
/-- The value of `GET_index_page`. -/
def GET_index_page : Nat := 1
/-- The value of `GET_favicon`. -/
def GET_favicon : Nat := 2
/-- The value of `GET_logo`. -/
def GET_logo : Nat := 3
/-- The value of `GET_refresh_img`. -/
def GET_refresh_img : Nat := 4
/-- The value of `GET_button_img`. -/
def GET_button_img : Nat := 5
/-- The value of `GET_screenshot`. -/
def GET_screenshot : Nat := 6

/-- The global variables of the sketch that its functions read and write.
`gauge_val` is a C `float` that only ever holds integers of small magnitude
(0, 50, 100, or a previous value plus an integer between -5 and 5), on which
float arithmetic is exact; it is an integer here. `next_millis` is an
`unsigned long` of 32 bits. -/
structure Globals where
  html_get_request : Nat
  next_millis : Nat
  Control_A_pressed : Bool
  Control_B_pressed : Bool
  Control_C_pressed : Bool
  gauge_val : Int
deriving DecidableEq, Repr

/-- The static assets of the web page (`index.h`, `favicon.h`,
`electric_logo.h`, `refresh.h`, `button.h`): for each array its `sizeof`
bytes. The headers are not part of the sources at hand, so the contents are a
parameter. -/
structure Assets where
  index_html : List Byte
  electric_favicon : List Byte
  electric_logo : List Byte
  refresh_img : List Byte
  control_button_img : List Byte

/-- The call `currentLine.startsWith(s)` for a string literal `s`. -/
def startsWith (currentLine : List Byte) (s : String) : Bool :=
  (ascii s).isPrefixOf currentLine

/-- The call `client.println(s)`: the text followed by carriage return and
line feed. -/
def println (client : List Byte) (s : String) : List Byte :=
  client ++ ascii s ++ ascii "\r\n"

/-- The call `client.print(s)`. -/
def print (client : List Byte) (s : String) : List Byte :=
  client ++ ascii s

/-- The call `client.write_P(asset, sizeof(asset))`. -/
def write_P (client : List Byte) (asset : List Byte) : List Byte :=
  client ++ asset

/-- The analysis of a completed non-empty request line in `check_webserver`
(the `else` branch of the test for an empty line), up to the reset of
`currentLine`. -/
def analyzeLine (currentLine : List Byte) (g : Globals) : Globals :=
  if startsWith currentLine "GET /" then
    let g := { g with html_get_request := GET_unknown }
    let g := if startsWith currentLine "GET / " then
      { g with html_get_request := GET_index_page } else g
    let g := if startsWith currentLine "GET /electric-idea_100x100.jpg" then
      { g with html_get_request := GET_logo } else g
    let g := if startsWith currentLine "GET /favicon.ico" then
      { g with html_get_request := GET_favicon } else g
    let g := if startsWith currentLine "GET /screenshot.bmp" then
      { g with html_get_request := GET_screenshot } else g
    let g := if startsWith currentLine "GET /refresh-40x30.png" then
      { g with html_get_request := GET_refresh_img } else g
    let g := if startsWith currentLine "GET /button.png" then
      { g with html_get_request := GET_button_img } else g
    let g := if startsWith currentLine "GET /button-A" then
      { g with Control_A_pressed := true, html_get_request := GET_index_page } else g
    let g := if startsWith currentLine "GET /button-B" then
      { g with Control_B_pressed := true, html_get_request := GET_index_page } else g
    let g := if startsWith currentLine "GET /button-C" then
      { g with Control_C_pressed := true, html_get_request := GET_index_page } else g
    g
  else g

/-- The response written when the empty line that ends a request arrives: the
`switch (html_get_request)` of `check_webserver` and the `println` after it.
`lcd` is the display content at that moment and `stack` the left-over content
of the scanline array of `M5Screen2bmp(client)`. -/
def respond (assets : Assets) (lcd : Lcd) (stack : Mem) (html_get_request : Nat)
    (client : List Byte) : List Byte :=
  let client :=
    if html_get_request = GET_index_page then
      let client := println client "HTTP/1.1 200 OK"
      let client := println client "Content-type:text/html"
      let client := println client ""
      write_P client assets.index_html
    else if html_get_request = GET_favicon then
      let client := println client "HTTP/1.1 200 OK"
      let client := println client "Content-type:image/x-icon"
      let client := println client ""
      write_P client assets.electric_favicon
    else if html_get_request = GET_logo then
      let client := println client "HTTP/1.1 200 OK"
      let client := println client "Content-type:image/jpeg"
      let client := println client ""
      write_P client assets.electric_logo
    else if html_get_request = GET_screenshot then
      let client := println client "HTTP/1.1 200 OK"
      let client := println client "Content-type:image/bmp"
      let client := println client ""
      (M5Screen2bmp_client lcd stack client).2
    else if html_get_request = GET_refresh_img then
      let client := println client "HTTP/1.1 200 OK"
      let client := println client "Content-type:image/png"
      let client := println client ""
      write_P client assets.refresh_img
    else if html_get_request = GET_button_img then
      let client := println client "HTTP/1.1 200 OK"
      let client := println client "Content-type:image/png"
      let client := println client ""
      write_P client assets.control_button_img
    else
      let client := println client "HTTP/1.1 404 Not Found"
      let client := println client "Content-type:text/html"
      let client := println client ""
      print client "404 Page not found.<br>"
  println client ""

/-- The state of one pass through the `while (client.connected())` loop of
`check_webserver`: the globals, the line being accumulated, the bytes written
to the client so far, and whether the loop has been left through `break`. -/
structure Conn where
  g : Globals
  currentLine : List Byte
  client : List Byte
  responded : Bool

/-- The body of the `if (client.available())` block for the byte `c` just
read: a line feed either ends the request (empty line) or completes a line,
a carriage return is dropped, any other byte is appended to the line. -/
def readByte (assets : Assets) (lcd : Lcd) (stack : Mem) (c : Byte) (st : Conn) : Conn :=
  if c = '\n'.toNat then
    if st.currentLine.length = 0 then
      { st with client := respond assets lcd stack st.g.html_get_request st.client,
                responded := true }
    else
      { st with g := analyzeLine st.currentLine st.g, currentLine := [] }
  else if c ≠ '\r'.toNat then
    { st with currentLine := st.currentLine ++ [c] }
  else st

/-- The `while (client.connected())` loop on the bytes that the client
delivers before it goes away or is stopped: bytes are consumed one at a time
until a response has been written. -/
def clientLoop (assets : Assets) (lcd : Lcd) (stack : Mem) : List Byte → Conn → Conn
  | [], st => st
  | c :: cs, st =>
    let st := readByte assets lcd stack c st
    if st.responded then st else clientLoop assets lcd stack cs st

/-- The function `check_webserver`, given what the network delivers:
`incoming` is `none` when no client is pending (or WiFi is down) and
otherwise the bytes read from the accepted client. The result is the globals
afterwards and the bytes written to the client. -/
def check_webserver (assets : Assets) (lcd : Lcd) (stack : Mem)
    (incoming : Option (List Byte)) (g : Globals) : Globals × List Byte :=
  match incoming with
  | none => (g, [])
  | some bytes =>
    let st := clientLoop assets lcd stack bytes
      { g := g, currentLine := [], client := [], responded := false }
    (st.g, st.client)

/-- What the event loop does to the display and to the SD card. -/
inductive Effect where
  | draw_gauge (val_1 val_2 : Int)
  | M5Screen2bmp (path : String) (result : Bool)
deriving DecidableEq, Repr

/-- What one pass of `loop` takes from its environment: the button edges
reported by `wasPressed()` after `M5.update()`, the readings of `millis()`
(at the top of the loop and inside each branch that is taken), the value of
`random(0, 11)`, whether the SD file opens in each button branch, and for the
web server the display content, the left-over stack content and the incoming
request. -/
structure LoopInput where
  btnA : Bool
  btnB : Bool
  btnC : Bool
  current_millis : Nat
  millisA : Nat
  millisB : Nat
  millisC : Nat
  millisT : Nat
  rnd : Fin 11
  sdA : Bool
  sdB : Bool
  sdC : Bool
  lcd : Lcd
  stack : Mem
  incoming : Option (List Byte)

/-- The left button block of `loop`. -/
def buttonA (inp : LoopInput) (s : Globals × List Effect) : Globals × List Effect :=
  if inp.btnA || s.1.Control_A_pressed then
    let g := { s.1 with Control_A_pressed := false }
    let g := { g with gauge_val := 0 }
    let tr := s.2 ++ [Effect.draw_gauge g.gauge_val 50]
    let tr := tr ++ [Effect.M5Screen2bmp "/gauge_0.bmp" inp.sdA]
    ({ g with next_millis := (inp.millisA + 1000) % 2 ^ 32 }, tr)
  else s

/-- The centre button block of `loop`. -/
def buttonB (inp : LoopInput) (s : Globals × List Effect) : Globals × List Effect :=
  if inp.btnB || s.1.Control_B_pressed then
    let g := { s.1 with Control_B_pressed := false }
    let g := { g with gauge_val := 50 }
    let tr := s.2 ++ [Effect.draw_gauge g.gauge_val 50]
    let tr := tr ++ [Effect.M5Screen2bmp "/gauge_50.bmp" inp.sdB]
    ({ g with next_millis := (inp.millisB + 1000) % 2 ^ 32 }, tr)
  else s

/-- The right button block of `loop`. -/
def buttonC (inp : LoopInput) (s : Globals × List Effect) : Globals × List Effect :=
  if inp.btnC || s.1.Control_C_pressed then
    let g := { s.1 with Control_C_pressed := false }
    let g := { g with gauge_val := 100 }
    let tr := s.2 ++ [Effect.draw_gauge g.gauge_val 50]
    let tr := tr ++ [Effect.M5Screen2bmp "/gauge_100.bmp" inp.sdC]
    ({ g with next_millis := (inp.millisC + 1000) % 2 ^ 32 }, tr)
  else s

/-- The three button blocks of `loop` in program order, started with no
effects. -/
def buttonPhase (inp : LoopInput) (g : Globals) : Globals × List Effect :=
  buttonC inp (buttonB inp (buttonA inp (g, [])))

/-- The random movement block of `loop`. -/
def randomTick (inp : LoopInput) (s : Globals × List Effect) : Globals × List Effect :=
  if inp.current_millis > s.1.next_millis then
    let g := { s.1 with gauge_val := s.1.gauge_val + ((inp.rnd.val : Int) - 5) }
    let g := if g.gauge_val < 0 then { g with gauge_val := 0 } else g
    let g := if g.gauge_val > 100 then { g with gauge_val := 100 } else g
    let tr := s.2 ++ [Effect.draw_gauge g.gauge_val 50]
    ({ g with next_millis := (inp.millisT + 1000) % 2 ^ 32 }, tr)
  else s

/-- One pass of `loop`: the button blocks, the random movement, then the web
server. The result is the globals afterwards and the effects on the display
and the SD card, in order. -/
def loop (assets : Assets) (inp : LoopInput) (g : Globals) : Globals × List Effect :=
  let s := randomTick inp (buttonPhase inp g)
  ((check_webserver assets inp.lcd inp.stack inp.incoming s.1).1, s.2)

/-- The globals when `setup` returns, `millis0` being the reading of
`millis()` in its last statement. -/
def setup (millis0 : Nat) : Globals :=
  { html_get_request := 0
    next_millis := (millis0 + 20000) % 2 ^ 32
    Control_A_pressed := false
    Control_B_pressed := false
    Control_C_pressed := false
    gauge_val := 50 }

/-- The passes of `loop` for a sequence of inputs, with all effects. -/
def run (assets : Assets) : List LoopInput → Globals → Globals × List Effect
  | [], g => (g, [])
  | inp :: rest, g =>
    let r := loop assets inp g
    let r2 := run assets rest r.1
    (r2.1, r.2 ++ r2.2)

/-- The guard of the red arrow in `draw_gauge`: the arrow is drawn when
`val_1` lies between 0 and 100. -/
def redArrowDrawn (val_1 : Int) : Bool :=
  decide (0 ≤ val_1) && decide (val_1 ≤ 100)

/-- The number of BMP dumps to `path` among some effects. -/
def dumpsTo (path : String) (tr : List Effect) : Nat :=
  tr.countP (fun e => match e with
    | Effect.M5Screen2bmp p _ => p == path
    | _ => false)

/-- The number of gauge redraws with the red arrow at `v` among some effects. -/
def redrawsAt (v : Int) (tr : List Effect) : Nat :=
  tr.countP (fun e => match e with
    | Effect.draw_gauge v1 _ => v1 == v
    | _ => false)

/-- Small stand-ins for the static assets in the concrete scenarios. -/
def assets0 : Assets :=
  { index_html := ascii "<html>gauge</html>"
    electric_favicon := [0, 0, 1, 0]
    electric_logo := [255, 216, 255]
    refresh_img := [137, 80, 78, 71]
    control_button_img := [137, 80, 78, 71, 13] }

/-- Globals as after `setup`, but with a screenshot tag left behind. -/
def globals0 : Globals :=
  { setup 0 with html_get_request := GET_screenshot }

/-- A pass of `loop` in which no button is pressed, the timer has not run
out and no client is pending. -/
def idleInput : LoopInput :=
  { btnA := false, btnB := false, btnC := false
    current_millis := 100, millisA := 101, millisB := 102, millisC := 103, millisT := 104
    rnd := 7
    sdA := true, sdB := true, sdC := false
    lcd := lcd2x2, stack := stack0
    incoming := none }

/-- Every gauge redraw among the effects has its first argument between 0
and 100. -/
def DrawsInRange (tr : List Effect) : Prop :=
  ∀ v1 v2 : Int, Effect.draw_gauge v1 v2 ∈ tr → 0 ≤ v1 ∧ v1 ≤ 100

/-- A pass of `loop` in which the right button is pressed. -/
def pressC : LoopInput :=
  { idleInput with btnC := true }

/-- A pass of `loop` in which the timer has run out; the random value is 7. -/
def tickInput : LoopInput :=
  { idleInput with current_millis := 30000 }

/-- A connection on which nothing has been read yet. -/
def Conn.fresh (g : Globals) : Conn :=
  { g := g, currentLine := [], client := [], responded := false }

/-- The nine request-line prefixes that `check_webserver` tests for. -/
def routePrefixes : List String :=
  [ "GET / ", "GET /electric-idea_100x100.jpg", "GET /favicon.ico", "GET /screenshot.bmp",
    "GET /refresh-40x30.png", "GET /button.png", "GET /button-A", "GET /button-B",
    "GET /button-C" ]

/-- The value that the two clamping statements of the random movement block
leave in `gauge_val` when it held `v` before them. -/
def clampGauge (v : Int) : Int :=
  if v < 0 then 0 else if v > 100 then 100 else v

/-! Encoders on a sink whose writes may fail, with a record of every call. -/

/-- The surroundings of one encoder run: the display, the display rows read by
`readRectRGB` so far, the sink (`File` or `WiFiClient`) with the bytes it has
accepted, the data handed to each `write` or `printf` call on it so far, and
for each call number whether that call fails. -/
structure World where
  lcd : Lcd
  reads : List Nat
  fails : Nat → Bool
  writes : List (List Byte)
  stored : List Byte

/-- One output call on the sink with the bytes `data`: the call is recorded;
when it fails nothing is stored and the result is 0, otherwise the bytes are
stored and the result is their number. -/
def World.writeBytes (w : World) (data : List Byte) : World × Nat :=
  if w.fails w.writes.length then
    ({ w with writes := w.writes ++ [data] }, 0)
  else
    ({ w with writes := w.writes ++ [data], stored := w.stored ++ data }, data.length)

/-- The call `sink.write(buf, n)` on the sink of the world. -/
def World.write (w : World) (buf : Mem) (n : Nat) : World × Nat :=
  w.writeBytes ((List.range n).map buf)

/-- The call `M5.Lcd.readRectRGB(x, y, w, h, data)` in a world: the row is
recorded and the data are those of `readRectRGB`. -/
def World.readRectRGB (w : World) (x y width h : Nat) (data : Mem) : World × Mem :=
  ({ w with reads := w.reads ++ [y] }, M5ScreenCapture.readRectRGB w.lcd x y width h data)

/-- The function `M5Screen2bmp(WiFiClient &client)` in a world whose sink is
the client. The result of every `write` is dropped, as in the source. -/
def M5Screen2bmp_client_io (stack : Mem) (w : World) : Bool × World :=
  let image_height := w.lcd.height
  let image_width := w.lcd.width
  let pad := (4 - (3 * image_width) % 4) % 4
  let filesize := (54 + (3 * image_width + pad) * image_height) % 2 ^ 32
  let header := forLoop 4 (fun i (h : Mem) =>
    ((h.set (2 + i) ((filesize >>> (8 * i)) &&& 255)).set
      (18 + i) ((image_width >>> (8 * i)) &&& 255)).set
      (22 + i) ((image_height >>> (8 * i)) &&& 255)) (Mem.ofList bmpHeaderInit)
  let w := (w.write header 54).1
  let line_data := forLoop (image_width * 3 + pad - (image_width - 1) * 3)
    (fun k (d : Mem) => d.set ((image_width - 1) * 3 + k) 0) stack
  let st := downLoop image_height (fun y (st : Mem × World) =>
    let r := st.2.readRectRGB 0 (y - 1) image_width 1 st.1
    let line_data := forLoop image_width (fun x (d : Mem) =>
      let r_buff := d (x * 3)
      let d := d.set (x * 3) (d (x * 3 + 2))
      d.set (x * 3 + 2) r_buff) r.2
    (line_data, (r.1.write line_data (image_width * 3 + pad)).1)) (line_data, w)
  (true, st.2)

/-- The function `M5Screen2bmp(fs::FS &fs, const char *path)` in a world whose
sink is the file at `path`; `opens` tells whether `fs.open` yields a file,
which is then empty. The result of every `write` is dropped, as in the
source. -/
def M5Screen2bmp_fs_io (opens : Bool) (stack : Mem) (w : World) : Bool × World :=
  if opens then
    let w := { w with stored := [] }
    let image_height := w.lcd.height
    let image_width := w.lcd.width
    let pad := (4 - (3 * image_width) % 4) % 4
    let filesize := (54 + (3 * image_width + pad) * image_height) % 2 ^ 32
    let header := forLoop 4 (fun i (h : Mem) =>
      ((h.set (2 + i) ((filesize >>> (8 * i)) &&& 255)).set
        (18 + i) ((image_width >>> (8 * i)) &&& 255)).set
        (22 + i) ((image_height >>> (8 * i)) &&& 255)) (Mem.ofList bmpHeaderInit)
    let w := (w.write header 54).1
    let line_data := forLoop (image_width * 3 + pad - (image_width - 1) * 3)
      (fun k (d : Mem) => d.set ((image_width - 1) * 3 + k) 0) stack
    let st := downLoop image_height (fun y (st : Mem × World) =>
      let r := st.2.readRectRGB 0 (y - 1) image_width 1 st.1
      let line_data := forLoop image_width (fun x (d : Mem) =>
        let r_buff := d (x * 3)
        let d := d.set (x * 3) (d (x * 3 + 2))
        d.set (x * 3 + 2) r_buff) r.2
      (line_data, (r.1.write line_data (image_width * 3 + pad)).1)) (line_data, w)
    (true, st.2)
  else
    (false, w)

/-- The function `M5Screen2ppm(fs::FS &fs, const char *path)` in a world whose
sink is the file at `path`; `opens` is as for `M5Screen2bmp_fs_io`. The
results of `printf` and of every `write` are dropped, as in the source. -/
def M5Screen2ppm_io (opens : Bool) (stack : Mem) (w : World) : Bool × World :=
  if opens then
    let w := { w with stored := [] }
    let image_height := w.lcd.height
    let image_width := w.lcd.width
    let w := (w.writeBytes (ascii "P6\n" ++ decimal image_width ++ ascii " " ++
      decimal image_height ++ ascii "\n255\n")).1
    let st := forLoop image_height (fun y (st : Mem × World) =>
      let r := st.2.readRectRGB 0 y image_width 1 st.1
      (r.2, (r.1.write r.2 (image_width * 3)).1)) (stack, w)
    (true, st.2)
  else
    (false, w)

/-- The error policy of the specification for one encoder run that started
with no call on the sink: after a failed call no further call is issued. -/
def StopsAtFailure (w : World) : Prop :=
  ∀ k, k < w.writes.length → w.fails k = true → w.writes.length = k + 1

/-- A world with the 2 by 2 display and a sink on which the first call (the
header) fails and every later call succeeds. -/
def worldHeaderFails : World :=
  { lcd := lcd2x2, reads := [], fails := fun k => k == 0, writes := [], stored := [] }

/-- A world with the 2 by 2 display and a sink that accepts everything. -/
def worldSound : World :=
  { lcd := lcd2x2, reads := [], fails := fun _ => false, writes := [], stored := [] }

/-- One pass of the row loop of the BMP emitters in a world, for a display of
width `W` and padding `pad`. -/
def bmpRowStepIo (W pad : Nat) (y : Nat) (st : Mem × World) : Mem × World :=
  (forLoop W (fun x (d : Mem) => (d.set (x * 3) (d (x * 3 + 2))).set (x * 3 + 2) (d (x * 3)))
      (st.2.readRectRGB 0 (y - 1) W 1 st.1).2,
   ((st.2.readRectRGB 0 (y - 1) W 1 st.1).1.write
      (forLoop W (fun x (d : Mem) => (d.set (x * 3) (d (x * 3 + 2))).set (x * 3 + 2) (d (x * 3)))
        (st.2.readRectRGB 0 (y - 1) W 1 st.1).2) (W * 3 + pad)).1)

/-- One pass of the row loop of the PPM writer in a world. -/
def ppmRowStepIo (W : Nat) (y : Nat) (st : Mem × World) : Mem × World :=
  ((st.2.readRectRGB 0 y W 1 st.1).2,
   ((st.2.readRectRGB 0 y W 1 st.1).1.write (st.2.readRectRGB 0 y W 1 st.1).2 (W * 3)).1)

/-- Two worlds show the same display and have seen the same calls. -/
def SameCalls (a b : World) : Prop :=
  a.lcd = b.lcd ∧ a.reads = b.reads ∧ a.writes = b.writes

/-- An effect with the result of the SD dump left out of account. -/
def Effect.forgetResult : Effect → Effect
  | Effect.M5Screen2bmp path _ => Effect.M5Screen2bmp path true
  | e => e

/-! The client loop of the web server in time. -/

/-- What one pass of the `while (client.connected())` loop of
`check_webserver` observes: whether the peer is still connected at the loop
test, the reading of `millis()` at the timeout test, and the byte that
`client.read()` delivers when `client.available()` is non-zero. -/
structure Tick where
  connected : Bool
  millis : Nat
  incoming : Option Byte

/-- The state of the client loop with the clock: the state of `Conn` and
whether the server has called `client.stop()` inside the loop. -/
structure TimedConn where
  conn : Conn
  stopped : Bool

/-- The body of the `while (client.connected())` loop for one pass. Once the
server has stopped the client, `client.available()` is zero, so no byte is
read in that pass. -/
def whileBody (assets : Assets) (lcd : Lcd) (stack : Mem) (timeout_millis : Nat)
    (t : Tick) (st : TimedConn) : TimedConn :=
  let stopped := if t.millis > timeout_millis then true else st.stopped
  match (if stopped then none else t.incoming) with
  | some c => { conn := readByte assets lcd stack c st.conn, stopped := stopped }
  | none => { conn := st.conn, stopped := stopped }

/-- The `while (client.connected())` loop on a sequence of observations: it
ends when the client is no longer connected (the peer is gone or the server
has stopped it) or through `break` after a response. -/
def clientWhile (assets : Assets) (lcd : Lcd) (stack : Mem) (timeout_millis : Nat) :
    List Tick → TimedConn → TimedConn
  | [], st => st
  | t :: ts, st =>
    if st.stopped || !t.connected then st
    else
      let st := whileBody assets lcd stack timeout_millis t st
      if st.conn.responded then st else clientWhile assets lcd stack timeout_millis ts st

/-- The part of `check_webserver` that serves an accepted client, in time:
`accept_millis` is the reading of `millis()` when the client is accepted. The
result is the globals afterwards, the bytes written to the client, and
whether the server stopped the client inside the loop. -/
def serveClient (assets : Assets) (lcd : Lcd) (stack : Mem) (accept_millis : Nat)
    (ticks : List Tick) (g : Globals) : Globals × List Byte × Bool :=
  let timeout_millis := (accept_millis + 2000) % 2 ^ 32
  let st := clientWhile assets lcd stack timeout_millis ticks
    { conn := { g := g, currentLine := [], client := [], responded := false },
      stopped := false }
  (st.conn.g, st.conn.client, st.stopped)

/-- A silent client, accepted at time 0: connected, sending nothing, observed
at times 10, 2000 and 2001, and sending a line feed only after that. -/
def silentTicks : List Tick :=
  [ { connected := true, millis := 10, incoming := none },
    { connected := true, millis := 2000, incoming := none },
    { connected := true, millis := 2001, incoming := none },
    { connected := true, millis := 2002, incoming := some 10 } ]

/-- Whether an effect is a BMP dump to the SD card. -/
def Effect.isDump : Effect → Bool
  | Effect.M5Screen2bmp _ _ => true
  | _ => false

/-- The ordering that the specification asks of the effects of one pass of
`loop`: every gauge redraw is followed, later in the pass, by a BMP dump. -/
def everyRedrawDumped : List Effect → Bool
  | [] => true
  | Effect.draw_gauge _ _ :: rest => rest.any Effect.isDump && everyRedrawDumped rest
  | _ :: rest => everyRedrawDumped rest

/-- The file that belongs to the set-point `v` of a button channel. -/
def dumpFile (v : Int) : String :=
  if v = 0 then "/gauge_0.bmp" else if v = 50 then "/gauge_50.bmp" else "/gauge_100.bmp"

/-- The effects are a sequence of pairs: a gauge redraw at a set-point directly
followed by the BMP dump to the file of that set-point. -/
def redrawThenDump : List Effect → Bool
  | [] => true
  | Effect.draw_gauge v _ :: Effect.M5Screen2bmp path _ :: rest =>
    (path == dumpFile v) && redrawThenDump rest
  | _ => false

/-- A sequence of passes of `loop` from the globals `g` in which no button
edge is reported, no latch is set at the start of a pass, and every pass
starts at a time not after `deadline`. -/
def quietRun (assets : Assets) (deadline : Nat) : List LoopInput → Globals → Bool
  | [], _ => true
  | inp :: rest, g =>
    !inp.btnA && !inp.btnB && !inp.btnC &&
    !g.Control_A_pressed && !g.Control_B_pressed && !g.Control_C_pressed &&
    decide (inp.current_millis ≤ deadline) &&
    quietRun assets deadline rest (loop assets inp g).1

/-- Globals as after `setup` at time 0, with the latches A and C set. -/
def globalsAC : Globals :=
  { setup 0 with Control_A_pressed := true, Control_C_pressed := true }

/-! The needle geometry of `draw_gauge`, over the real numbers. The source
computes in floating point; here `float` and `double` values are real
numbers, `cos` and `sin` are the real functions and `roundf` rounds exactly. -/

/-- The C function `roundf` on real numbers: the nearest integer, halves away
from zero. -/
noncomputable def roundf (x : ℝ) : ℤ :=
  if 0 ≤ x then ⌊x + 1 / 2⌋ else ⌈x - 1 / 2⌉

/-- The constant `DEG2RAD`. -/
noncomputable def DEG2RAD : ℝ := 0.01745329251994

/-- The angle in degrees that `draw_gauge` assigns to the value `val`. -/
noncomputable def gaugeDegrees (val : ℝ) : ℝ :=
  239.0 - ((val / 100) * 298)

/-- The end point `(xpos2, ypos2)` of a needle in `draw_gauge` for the angle
`angle` in radians and the display centre `(xpos0, ypos0)`. -/
noncomputable def needleTip (xpos0 ypos0 : ℤ) (angle : ℝ) : ℤ × ℤ :=
  let xpos1 : ℝ := 80
  let ypos1 : ℝ := 0
  (roundf (xpos1 * Real.cos angle + ypos1 * Real.sin angle) + xpos0,
   roundf (-1.0 * xpos1 * Real.sin angle + ypos1 * Real.cos angle) + ypos0)

/-- The Euclidean distance of the point `p` from the centre `(cx, cy)`. -/
noncomputable def distFrom (cx cy : ℤ) (p : ℤ × ℤ) : ℝ :=
  Real.sqrt (((p.1 - cx : ℤ) : ℝ) ^ 2 + ((p.2 - cy : ℤ) : ℝ) ^ 2)

/-! The route table of the specification. -/

/-- The three control channels. -/
inductive Channel where
  | A
  | B
  | C
deriving DecidableEq, Repr

/-- One row of the route table of the specification: the request-line prefix,
the classification tag and the control flag to set, if any. -/
structure Route where
  pfx : String
  tag : Nat
  flag : Option Channel

/-- The route table of the specification, in its order. -/
def routeTable : List Route :=
  [ { pfx := "GET / ", tag := GET_index_page, flag := none },
    { pfx := "GET /favicon.ico", tag := GET_favicon, flag := none },
    { pfx := "GET /electric-idea_100x100.jpg", tag := GET_logo, flag := none },
    { pfx := "GET /refresh-40x30.png", tag := GET_refresh_img, flag := none },
    { pfx := "GET /button.png", tag := GET_button_img, flag := none },
    { pfx := "GET /screenshot.bmp", tag := GET_screenshot, flag := none },
    { pfx := "GET /button-A", tag := GET_index_page, flag := some Channel.A },
    { pfx := "GET /button-B", tag := GET_index_page, flag := some Channel.B },
    { pfx := "GET /button-C", tag := GET_index_page, flag := some Channel.C } ]

/-- The row of the route table whose prefix is the longest among those that
the line begins with, if there is one (the earlier row on equal length). -/
def longestMatch (line : List Byte) : Option Route :=
  (routeTable.filter (fun r => startsWith line r.pfx)).foldl
    (fun best r =>
      match best with
      | none => some r
      | some b => if b.pfx.length < r.pfx.length then some r else some b)
    none

/-- The effect of a route on the globals as the specification describes it:
the tag of the row is set, and its control flag if it has one; with no
matching row the tag is unknown. -/
def applyRoute (g : Globals) : Option Route → Globals
  | none => { g with html_get_request := GET_unknown }
  | some r =>
    match r.flag with
    | none => { g with html_get_request := r.tag }
    | some Channel.A => { g with html_get_request := r.tag, Control_A_pressed := true }
    | some Channel.B => { g with html_get_request := r.tag, Control_B_pressed := true }
    | some Channel.C => { g with html_get_request := r.tag, Control_C_pressed := true }

/-- The Classify state of the specification: a line that begins with `GET /`
is looked up in the route table, longest prefix first; any other line leaves
the globals alone. -/
def specClassify (line : List Byte) (g : Globals) : Globals :=
  if startsWith line "GET /" then applyRoute g (longestMatch line) else g

/-! The BMP encoder of the specification, generic over the sink. -/

/-- The header of the specification: the signature, the file size, the
reserved field, the pixel-array offset, the size of the DIB header, the width
and the height as 32-bit little-endian fields, the planes and the bits per
pixel as 16-bit fields, the compression mode, and 20 zero bytes. -/
def specBmpHeader (lcd : Lcd) : List Byte :=
  ascii "BM" ++ le32 (54 + (3 * lcd.width + (4 - 3 * lcd.width % 4) % 4) * lcd.height) ++
    le32 0 ++ le32 54 ++ le32 40 ++ le32 lcd.width ++ le32 lcd.height ++ [1, 0] ++ [24, 0] ++
    le32 0 ++ List.replicate 20 0

/-- One row of the specification: the pixels of display row `y` from left to
right, each as blue, green, red, then the padding of `P` zero bytes. -/
def specBmpRow (lcd : Lcd) (y : Nat) : List Byte :=
  (List.range lcd.width).flatMap
      (fun x => [(lcd.pixel x y).b, (lcd.pixel x y).g, (lcd.pixel x y).r]) ++
    List.replicate ((4 - 3 * lcd.width % 4) % 4) 0

/-- The single BMP encoder of the specification over any sink with an `emit`
operation: the header, then the rows `H - 1`, `H - 2`, ..., `0`. -/
def specBmpEncode {σ : Type} (emit : σ → List Byte → σ) (lcd : Lcd) (sink : σ) : σ :=
  (List.range lcd.height).reverse.foldl (fun s y => emit s (specBmpRow lcd y))
    (emit sink (specBmpHeader lcd))

/-! Carriage returns in a request. -/

/-- The lines that the client loop completes and hands to the line analysis,
in order, on the bytes that the client delivers. -/
def completedLines (assets : Assets) (lcd : Lcd) (stack : Mem) :
    List Byte → Conn → List (List Byte)
  | [], _ => []
  | c :: cs, st =>
    let done := if c = '\n'.toNat ∧ st.currentLine.length ≠ 0 then [st.currentLine] else []
    let st := readByte assets lcd stack c st
    if st.responded then done else done ++ completedLines assets lcd stack cs st

/-- A byte sequence with every carriage return removed. -/
def withoutCR (s : List Byte) : List Byte :=
  s.filter (fun c => decide (c ≠ '\r'.toNat))

/-- The request made of the given lines, each ended by CR LF. -/
def crlfRequest (lines : List (List Byte)) : List Byte :=
  lines.flatMap (fun l => l ++ ['\r'.toNat, '\n'.toNat])

/-- The request made of the given lines, each ended by a bare LF. -/
def lfRequest (lines : List (List Byte)) : List Byte :=
  lines.flatMap (fun l => l ++ ['\n'.toNat])

/-- The prefixes of the six routes that set no control flag. -/
def plainRoutePrefixes : List String :=
  [ "GET / ", "GET /favicon.ico", "GET /electric-idea_100x100.jpg", "GET /refresh-40x30.png",
    "GET /button.png", "GET /screenshot.bmp" ]

/-- The condition of the left button block of `loop`, on the globals at the
start of the pass. -/
def firesA (inp : LoopInput) (g : Globals) : Bool :=
  inp.btnA || g.Control_A_pressed

/-- The condition of the centre button block of `loop`, on the globals at the
start of the pass. -/
def firesB (inp : LoopInput) (g : Globals) : Bool :=
  inp.btnB || g.Control_B_pressed

/-- The condition of the right button block of `loop`, on the globals at the
start of the pass. -/
def firesC (inp : LoopInput) (g : Globals) : Bool :=
  inp.btnC || g.Control_C_pressed

/-- The last button block that fires in a pass of `loop`, in program order A,
B, C: the value it assigns to `gauge_val` and the reading of `millis()` in its
last statement; `none` if no block fires. -/
def lastFired (inp : LoopInput) (g : Globals) : Option (Int × Nat) :=
  if firesC inp g then some (100, inp.millisC)
  else if firesB inp g then some (50, inp.millisB)
  else if firesA inp g then some (0, inp.millisA)
  else none

/-- The number of calls of `draw_gauge` among some effects. -/
def redraws (tr : List Effect) : Nat :=
  tr.countP (fun e => match e with
    | Effect.draw_gauge _ _ => true
    | _ => false)

/-- A pass of `loop` in which the left and the right button are pressed and
the timer ran out long ago. -/
def pressAC : LoopInput :=
  { idleInput with btnA := true, btnC := true, current_millis := 30000,
                   millisA := 30001, millisC := 30003 }

/-! The scanline buffer with a record of its accesses. -/

/-- A local array together with its declared length and the record of the
indices at which it has been read or written so far, in program order. An
index is a C `int`. -/
structure Buf where
  size : Nat
  mem : Mem
  log : List Int

/-- The declaration `unsigned char a[n]`; `stack` is the uninitialised
content. -/
def Buf.declare (n : Nat) (stack : Mem) : Buf :=
  { size := n, mem := stack, log := [] }

/-- The assignment `a[i] = v`, recorded. -/
def Buf.set (a : Buf) (i : Int) (v : Byte) : Buf :=
  { a with mem := a.mem.set i.toNat v, log := a.log ++ [i] }

/-- The read `a[i]`, recorded. -/
def Buf.get (a : Buf) (i : Int) : Byte × Buf :=
  (a.mem i.toNat, { a with log := a.log ++ [i] })

/-- The call `sink.write(buf, n)`: it reads `buf[0]` to `buf[n-1]`. -/
def Buf.write (sink : List Byte) (buf : Buf) (n : Nat) : List Byte × Buf :=
  (M5ScreenCapture.write sink buf.mem n, { buf with log := buf.log ++ (List.range n).map Int.ofNat })

/-- Modelled from the spec: the display driver primitive
`M5.Lcd.readRectRGB(x, y, w, h, data)` as in `readRectRGB`, with every store
into `data` recorded. -/
def Buf.readRectRGB (lcd : Lcd) (x y w h : Nat) (data : Buf) : Buf :=
  forLoop h (fun j d =>
    forLoop w (fun i d =>
      let p := lcd.pixel (x + i) (y + j)
      let o : Int := 3 * (j * w + i)
      ((d.set o p.r).set (o + 1) p.g).set (o + 2) p.b) d) data

/-- The function `M5Screen2bmp(WiFiClient &client)` with the accesses to
`line_data` recorded: the return value, the bytes of the client sink and the
array afterwards. The index of the first loop starts at the `int`
`(image_width-1)*3`; its comparison with `image_width*3+pad` is unsigned, as
`pad` is. -/
def M5Screen2bmp_client_idx (lcd : Lcd) (stack : Mem) (client : List Byte) :
    Bool × List Byte × Buf :=
  let image_height := lcd.height
  let image_width := lcd.width
  let pad := (4 - (3 * image_width) % 4) % 4
  let filesize := (54 + (3 * image_width + pad) * image_height) % 2 ^ 32
  let header := forLoop 4 (fun i (h : Mem) =>
    ((h.set (2 + i) ((filesize >>> (8 * i)) &&& 255)).set
      (18 + i) ((image_width >>> (8 * i)) &&& 255)).set
      (22 + i) ((image_height >>> (8 * i)) &&& 255)) (Mem.ofList bmpHeaderInit)
  let client := write client header 54
  let line_data := Buf.declare (image_width * 3 + pad) stack
  let line_data := forLoop (image_width * 3 + pad - (image_width - 1) * 3)
    (fun k (d : Buf) => d.set (((image_width : Int) - 1) * 3 + k) 0) line_data
  let st := downLoop image_height (fun y (st : Buf × List Byte) =>
    let line_data := Buf.readRectRGB lcd 0 (y - 1) image_width 1 st.1
    let line_data := forLoop image_width (fun x (d : Buf) =>
      let r_buff := d.get ((x : Int) * 3)
      let b_buff := r_buff.2.get ((x : Int) * 3 + 2)
      let d := b_buff.2.set ((x : Int) * 3) b_buff.1
      d.set ((x : Int) * 3 + 2) r_buff.1) line_data
    let w := Buf.write st.2 line_data (image_width * 3 + pad)
    (w.2, w.1)) (line_data, client)
  (true, st.2, st.1)

/-- The function `M5Screen2bmp(fs::FS &fs, const char *path)` with the
accesses to `line_data` recorded; no array exists when the file does not
open. -/
def M5Screen2bmp_fs_idx (lcd : Lcd) (stack : Mem) (opens : Bool) :
    Bool × List Byte × Option Buf :=
  if opens then
    let file : List Byte := []
    let image_height := lcd.height
    let image_width := lcd.width
    let pad := (4 - (3 * image_width) % 4) % 4
    let filesize := (54 + (3 * image_width + pad) * image_height) % 2 ^ 32
    let header := forLoop 4 (fun i (h : Mem) =>
      ((h.set (2 + i) ((filesize >>> (8 * i)) &&& 255)).set
        (18 + i) ((image_width >>> (8 * i)) &&& 255)).set
        (22 + i) ((image_height >>> (8 * i)) &&& 255)) (Mem.ofList bmpHeaderInit)
    let file := write file header 54
    let line_data := Buf.declare (image_width * 3 + pad) stack
    let line_data := forLoop (image_width * 3 + pad - (image_width - 1) * 3)
      (fun k (d : Buf) => d.set (((image_width : Int) - 1) * 3 + k) 0) line_data
    let st := downLoop image_height (fun y (st : Buf × List Byte) =>
      let line_data := Buf.readRectRGB lcd 0 (y - 1) image_width 1 st.1
      let line_data := forLoop image_width (fun x (d : Buf) =>
        let r_buff := d.get ((x : Int) * 3)
        let b_buff := r_buff.2.get ((x : Int) * 3 + 2)
        let d := b_buff.2.set ((x : Int) * 3) b_buff.1
        d.set ((x : Int) * 3 + 2) r_buff.1) line_data
      let w := Buf.write st.2 line_data (image_width * 3 + pad)
      (w.2, w.1)) (line_data, file)
    (true, st.2, some st.1)
  else
    (false, [], none)

/-- The function `M5Screen2ppm(fs::FS &fs, const char *path)` with the
accesses to `line_data` recorded; no array exists when the file does not
open. -/
def M5Screen2ppm_idx (lcd : Lcd) (stack : Mem) (opens : Bool) :
    Bool × List Byte × Option Buf :=
  if opens then
    let file : List Byte := []
    let image_height := lcd.height
    let image_width := lcd.width
    let file := file ++ (ascii "P6\n" ++ decimal image_width ++ ascii " " ++
      decimal image_height ++ ascii "\n255\n")
    let line_data := Buf.declare (image_width * 3) stack
    let st := forLoop image_height (fun y (st : Buf × List Byte) =>
      let line_data := Buf.readRectRGB lcd 0 y image_width 1 st.1
      let w := Buf.write st.2 line_data (image_width * 3)
      (w.2, w.1)) (line_data, file)
    (true, st.2, some st.1)
  else
    (false, [], none)

/-- The indices from `(W-1)*3` to `3*W+P-1`, in increasing order. -/
def zeroLoopIndices (W P : Nat) : List Int :=
  (List.range (3 + P)).map (fun (k : Nat) => ((W : Int) - 1) * 3 + (k : Int))

/-- The indices from 0 to `3*W-1`, in increasing order. -/
def lineReadIndices (W : Nat) : List Int :=
  (List.range W).flatMap
    (fun (i : Nat) => [3 * (i : Int), 3 * (i : Int) + 1, 3 * (i : Int) + 2])

/-- The indices `x*3` and `x*3+2` for each `x < W`: both are read, then both
are written. -/
def swapIndices (W : Nat) : List Int :=
  (List.range W).flatMap
    (fun (x : Nat) => [(x : Int) * 3, (x : Int) * 3 + 2, (x : Int) * 3, (x : Int) * 3 + 2])

/-- The indices from 0 to `n-1`, in increasing order. -/
def writeIndices (n : Nat) : List Int :=
  (List.range n).map Int.ofNat

/-- The indices of one row of the BMP emitters: the line read, the swap of
red and blue, the write. -/
def bmpRowIndices (W P : Nat) : List Int :=
  lineReadIndices W ++ swapIndices W ++ writeIndices (3 * W + P)

/-- The indices of one row of the PPM emitter: the line read, the write. -/
def ppmRowIndices (W : Nat) : List Int :=
  lineReadIndices W ++ writeIndices (3 * W)

/-- Every recorded access of the array lies inside it. -/
def Buf.InBounds (a : Buf) : Prop :=
  ∀ i ∈ a.log, 0 ≤ i ∧ i < (a.size : Int)

/-- The value of `pad` in the BMP emitters for the width `image_width`. -/
def bmpPad (image_width : Nat) : Nat :=
  (4 - (3 * image_width) % 4) % 4

/-! Properties of the image encoders. -/

theorem Mem.set_apply (a : Mem) (i : Nat) (v : Byte) (k : Nat) :
    a.set i v k = if k = i then v else a k := rfl

theorem byte_extract (n i : Nat) : (n >>> (8 * i)) &&& 255 = n / 2 ^ (8 * i) % 256 := by
  rw [Nat.shiftRight_eq_div_pow]
  exact Nat.and_pow_two_sub_one_eq_mod _ 8

theorem rgbRowByte_at (lcd : Lcd) (y n : Nat) :
    rgbRowByte lcd y (3 * n) = (lcd.pixel n y).r ∧
    rgbRowByte lcd y (3 * n + 1) = (lcd.pixel n y).g ∧
    rgbRowByte lcd y (3 * n + 2) = (lcd.pixel n y).b := by
  have a0 : (3 * n) % 3 = 0 := by omega
  have a1 : (3 * n) / 3 = n := by omega
  have b0 : (3 * n + 1) % 3 = 1 := by omega
  have b1 : (3 * n + 1) / 3 = n := by omega
  have c0 : (3 * n + 2) % 3 = 2 := by omega
  have c1 : (3 * n + 2) / 3 = n := by omega
  refine ⟨?_, ?_, ?_⟩ <;> simp [rgbRowByte, a0, a1, b0, b1, c0, c1]

/-- After the line read, the first `3 * w` bytes hold the pixels of the row
and the rest of the array is untouched. -/
theorem readRectRGB_row (lcd : Lcd) (y w : Nat) (d : Mem) (k : Nat) :
    readRectRGB lcd 0 y w 1 d k = if k < 3 * w then rgbRowByte lcd y k else d k := by
  have inner : ∀ n : Nat, ∀ k : Nat,
      forLoop n (fun i (d : Mem) =>
        ((d.set (3 * i) (lcd.pixel i y).r).set (3 * i + 1) (lcd.pixel i y).g).set
          (3 * i + 2) (lcd.pixel i y).b) d k
        = if k < 3 * n then rgbRowByte lcd y k else d k := by
    intro n
    induction n with
    | zero => intro k; simp [forLoop]
    | succ n ih =>
      intro k
      obtain ⟨e0, e1, e2⟩ := rgbRowByte_at lcd y n
      simp only [forLoop, Mem.set_apply, ih]
      by_cases h2 : k = 3 * n + 2
      · subst h2
        rw [if_pos rfl, if_pos (by omega), e2]
      · by_cases h1 : k = 3 * n + 1
        · subst h1
          rw [if_neg h2, if_pos rfl, if_pos (by omega), e1]
        · by_cases h0 : k = 3 * n
          · subst h0
            rw [if_neg h2, if_neg h1, if_pos rfl, if_pos (by omega), e0]
          · rw [if_neg h2, if_neg h1, if_neg h0]
            by_cases hk : k < 3 * n
            · rw [if_pos hk, if_pos (by omega)]
            · rw [if_neg hk, if_neg (by omega)]
  simp only [readRectRGB, forLoop, Nat.zero_mul, Nat.zero_add, Nat.add_zero]
  exact inner w k

/-- The swap loop exchanges bytes 0 and 2 of each of the first `n` pixels and
touches nothing else. -/
theorem swapLoop_apply (n : Nat) (d : Mem) (k : Nat) :
    forLoop n (fun x (d : Mem) => (d.set (x * 3) (d (x * 3 + 2))).set (x * 3 + 2) (d (x * 3))) d k
      = if k < 3 * n then
          (if k % 3 = 0 then d (k + 2) else if k % 3 = 2 then d (k - 2) else d k)
        else d k := by
  induction n generalizing k with
  | zero => simp [forLoop]
  | succ n ih =>
    simp only [forLoop, Mem.set_apply, ih]
    split_ifs <;> first | rfl | omega | (congr 1; omega)

/-- One pass of the row body of the BMP emitters: the line read followed by
the swap yields the B, G, R bytes of the row and leaves the padding alone. -/
theorem bmpRow_apply (lcd : Lcd) (y : Nat) (d : Mem) (k : Nat) :
    forLoop lcd.width (fun x (d : Mem) =>
        (d.set (x * 3) (d (x * 3 + 2))).set (x * 3 + 2) (d (x * 3)))
      (readRectRGB lcd 0 y lcd.width 1 d) k
      = if k < 3 * lcd.width then bmpRowByte lcd y k else d k := by
  rw [swapLoop_apply]
  by_cases hk : k < 3 * lcd.width
  · simp only [if_pos hk, readRectRGB_row, bmpRowByte, rgbRowByte]
    have h3 : k % 3 = 0 ∨ k % 3 = 1 ∨ k % 3 = 2 := by omega
    rcases h3 with h | h | h
    · have e1 : (k + 2) % 3 = 2 := by omega
      have e2 : (k + 2) / 3 = k / 3 := by omega
      rw [if_pos h, if_pos (by omega)]
      simp only [h, e1, e2]
    · rw [if_neg (by omega), if_neg (by omega)]
      simp only [h]
    · have e1 : (k - 2) % 3 = 0 := by omega
      have e2 : (k - 2) / 3 = k / 3 := by omega
      rw [if_neg (by omega), if_pos h, if_pos (by omega)]
      simp only [h, e1, e2]
  · simp only [if_neg hk, readRectRGB_row]

/-- The zero-initialisation loop clears the indices from `base` up to
`base + cnt` and nothing else. -/
theorem zeroLoop_apply (base cnt : Nat) (d : Mem) (k : Nat) :
    forLoop cnt (fun i (d : Mem) => d.set (base + i) 0) d k
      = if base ≤ k ∧ k < base + cnt then 0 else d k := by
  induction cnt generalizing k with
  | zero =>
    simp only [forLoop]
    rw [if_neg (by omega)]
  | succ n ih =>
    simp only [forLoop, Mem.set_apply, ih]
    split_ifs <;> first | rfl | omega

/-- The header written by the emitters, in closed form. -/
theorem header_bytes (F W H : Nat) :
    (List.range 54).map (forLoop 4 (fun i (h : Mem) =>
      ((h.set (2 + i) ((F >>> (8 * i)) &&& 255)).set
        (18 + i) ((W >>> (8 * i)) &&& 255)).set
        (22 + i) ((H >>> (8 * i)) &&& 255)) (Mem.ofList bmpHeaderInit))
      = bmpHeader F W H := by
  simp only [byte_extract]
  have e : ∀ n : Nat, n / 2 ^ (8 * 0) % 256 = n % 256 := by intro n; simp
  rw [bmpHeader, ← e F, ← e W, ← e H]
  rfl

/-- The row loop of the BMP emitters, started with `n` rows to go on a
scanline array whose padding is zero, appends rows `n - 1`, ..., `0`. -/
theorem rowLoop_sink (lcd : Lcd) (pad : Nat) (n : Nat) (d : Mem) (sink : List Byte)
    (hz : ∀ k, 3 * lcd.width ≤ k → k < 3 * lcd.width + pad → d k = 0) :
    (downLoop n (fun y (st : Mem × List Byte) =>
      (forLoop lcd.width (fun x (d : Mem) =>
          (d.set (x * 3) (d (x * 3 + 2))).set (x * 3 + 2) (d (x * 3)))
        (readRectRGB lcd 0 (y - 1) lcd.width 1 st.1),
       write st.2 (forLoop lcd.width (fun x (d : Mem) =>
          (d.set (x * 3) (d (x * 3 + 2))).set (x * 3 + 2) (d (x * 3)))
        (readRectRGB lcd 0 (y - 1) lcd.width 1 st.1)) (lcd.width * 3 + pad)))
      (d, sink)).2
    = sink ++ (List.range ((3 * lcd.width + pad) * n)).map
        (fun i => bmpRowByte lcd (n - 1 - i / (3 * lcd.width + pad))
          (i % (3 * lcd.width + pad))) := by
  induction n generalizing d sink with
  | zero => simp [downLoop]
  | succ n ih =>
    simp only [downLoop]
    rw [ih]
    · have hsplit : (3 * lcd.width + pad) * (n + 1)
          = (3 * lcd.width + pad) + (3 * lcd.width + pad) * n := by ring
      rw [hsplit, List.range_add, List.map_append, List.map_map, write,
        List.append_assoc]
      congr 1
      congr 1
      · rw [show lcd.width * 3 + pad = 3 * lcd.width + pad by omega]
        apply List.map_congr_left
        intro k hk
        have hk2 : k < 3 * lcd.width + pad := List.mem_range.mp hk
        rw [bmpRow_apply, Nat.div_eq_of_lt hk2, Nat.mod_eq_of_lt hk2]
        simp only [Nat.add_sub_cancel, Nat.sub_zero]
        by_cases h3 : k < 3 * lcd.width
        · rw [if_pos h3]
        · rw [if_neg h3, hz k (by omega) hk2]
          simp [bmpRowByte, h3]
      · apply List.map_congr_left
        intro k hk
        have hk2 : k < (3 * lcd.width + pad) * n := List.mem_range.mp hk
        have hL : 0 < 3 * lcd.width + pad := by
          rcases Nat.eq_zero_or_pos (3 * lcd.width + pad) with h | h
          · rw [h] at hk2; omega
          · exact h
        have hdiv : k / (3 * lcd.width + pad) < n := by
          rw [Nat.div_lt_iff_lt_mul hL]; rw [Nat.mul_comm]; exact hk2
        simp only [Function.comp]
        rw [Nat.add_comm (3 * lcd.width + pad) k,
          show k + (3 * lcd.width + pad) = k + (3 * lcd.width + pad) * 1 by omega,
          Nat.add_mul_div_left _ _ hL, Nat.add_mul_mod_self_left]
        congr 1
        omega
    · intro k h1 h2
      rw [bmpRow_apply, if_neg (by omega)]
      exact hz k h1 h2

/-- The network emitter appends the closed-form stream to the client. -/
theorem M5Screen2bmp_client_eq (lcd : Lcd) (stack : Mem) (client : List Byte) :
    M5Screen2bmp_client lcd stack client = (true, client ++ bmpStream lcd) := by
  simp only [M5Screen2bmp_client]
  rw [rowLoop_sink]
  · simp only [write, header_bytes, bmpStream, bmpRowLen, List.append_assoc]
  · intro k h1 h2
    rw [zeroLoop_apply, if_pos (by omega)]

/-- The file emitter, when the file opens, writes the closed-form stream. -/
theorem M5Screen2bmp_fs_eq (lcd : Lcd) (stack : Mem) :
    M5Screen2bmp_fs lcd stack true = (true, bmpStream lcd) := by
  simp only [M5Screen2bmp_fs, if_true]
  rw [rowLoop_sink]
  · simp only [write, header_bytes, bmpStream, bmpRowLen, List.nil_append]
  · intro k h1 h2
    rw [zeroLoop_apply, if_pos (by omega)]

theorem bmpStream_length (lcd : Lcd) :
    (bmpStream lcd).length = 54 + bmpRowLen lcd.width * lcd.height := by
  have hlen : (bmpHeader ((54 + bmpRowLen lcd.width * lcd.height) % 2 ^ 32)
      lcd.width lcd.height).length = 54 := rfl
  rw [bmpStream, List.length_append, hlen, List.length_map, List.length_range]

/-- Byte `j * L + k` of the pixel array is byte `k` of the row emitted `j`-th. -/
theorem bmpStream_getElem (lcd : Lcd) (j k : Nat) (hj : j < lcd.height)
    (hk : k < bmpRowLen lcd.width) :
    (bmpStream lcd)[54 + j * bmpRowLen lcd.width + k]?
      = some (bmpRowByte lcd (lcd.height - 1 - j) k) := by
  have hlt : j * bmpRowLen lcd.width + k < bmpRowLen lcd.width * lcd.height := by
    calc j * bmpRowLen lcd.width + k < j * bmpRowLen lcd.width + bmpRowLen lcd.width := by omega
      _ = bmpRowLen lcd.width * (j + 1) := by ring
      _ ≤ bmpRowLen lcd.width * lcd.height := Nat.mul_le_mul_left _ hj
  have hL : 0 < bmpRowLen lcd.width := by omega
  have hlen : (bmpHeader ((54 + bmpRowLen lcd.width * lcd.height) % 2 ^ 32)
      lcd.width lcd.height).length = 54 := rfl
  rw [bmpStream, List.getElem?_append_right (by rw [hlen]; omega), hlen,
    List.getElem?_map, show 54 + j * bmpRowLen lcd.width + k - 54
      = j * bmpRowLen lcd.width + k by omega, List.getElem?_range hlt]
  simp only [Option.map_some']
  have e1 : (j * bmpRowLen lcd.width + k) / bmpRowLen lcd.width = j := by
    rw [Nat.add_comm, Nat.mul_comm, Nat.add_mul_div_left _ _ hL, Nat.div_eq_of_lt hk]
    omega
  have e2 : (j * bmpRowLen lcd.width + k) % bmpRowLen lcd.width = k := by
    rw [Nat.add_comm, Nat.mul_comm, Nat.add_mul_mod_self_left, Nat.mod_eq_of_lt hk]
  rw [e1, e2]

/-- C1: for every width and height of at least 1 and every framebuffer content
(and every left-over content of the scanline array), both BMP emitters write
exactly `54 + (3 * W + P) * H` bytes, where `P = (4 - 3 * W % 4) % 4`; the
file emitter does so when the file opens, and then returns true. -/
theorem bmp_total_length (lcd : Lcd) (stack : Mem) (client : List Byte)
    (hW : 1 ≤ lcd.width) (hH : 1 ≤ lcd.height) :
    (M5Screen2bmp_client lcd stack client).2.length
        = client.length + (54 + (3 * lcd.width + (4 - 3 * lcd.width % 4) % 4) * lcd.height) ∧
      (M5Screen2bmp_fs lcd stack true).2.length
        = 54 + (3 * lcd.width + (4 - 3 * lcd.width % 4) % 4) * lcd.height ∧
      (M5Screen2bmp_fs lcd stack true).1 = true := by
  rw [M5Screen2bmp_client_eq, M5Screen2bmp_fs_eq]
  simp only [List.length_append, bmpStream_length, bmpRowLen, and_self]

/-- Witness of C1: the 2 by 2 framebuffer gives 70 bytes on both sinks. -/
theorem bmp_total_length_witness :
    (1 ≤ lcd2x2.width ∧ 1 ≤ lcd2x2.height) ∧
      ((M5Screen2bmp_client lcd2x2 stack0 []).2.length = 70 ∧
        (M5Screen2bmp_fs lcd2x2 stack0 true).2.length = 70 ∧
        (M5Screen2bmp_fs lcd2x2 stack0 true).1 = true) :=
  ⟨by decide, bmp_total_length lcd2x2 stack0 [] (by decide) (by decide)⟩

theorem fromLE_le32 (n : Nat) (h : n < 2 ^ 32) : fromLE (le32 n) = n := by
  simp only [fromLE, le32]
  norm_num at h ⊢
  omega

theorem bmpStream_take_header (lcd : Lcd) :
    (bmpStream lcd).take 54
      = bmpHeader ((54 + bmpRowLen lcd.width * lcd.height) % 2 ^ 32) lcd.width lcd.height := by
  have hlen : (bmpHeader ((54 + bmpRowLen lcd.width * lcd.height) % 2 ^ 32)
      lcd.width lcd.height).length = 54 := rfl
  rw [bmpStream, List.take_append_of_le_length (by rw [hlen])]
  exact List.take_of_length_le (by rw [hlen])

/-- C2: for width and height of at least 1 with
`F = 54 + (3 * W + P) * H < 2^32`, the first 54 bytes written by either BMP
emitter are `B`, `M`, then `F`, 0, 54, 40, `W`, `H` as 32-bit little-endian
fields, then 1 and 24 as 16-bit little-endian fields, then 24 zero bytes; the
three variable fields denote exactly `F`, `W` and `H`. -/
theorem bmp_header_bytes (lcd : Lcd) (stack : Mem) (F : Nat)
    (hW : 1 ≤ lcd.width) (hH : 1 ≤ lcd.height)
    (hF : F = 54 + (3 * lcd.width + (4 - 3 * lcd.width % 4) % 4) * lcd.height)
    (hlt : F < 2 ^ 32) :
    (M5Screen2bmp_client lcd stack []).2.take 54
        = ['B'.toNat, 'M'.toNat] ++ le32 F ++ [0, 0, 0, 0] ++ le32 54 ++ le32 40 ++
          le32 lcd.width ++ le32 lcd.height ++ [1, 0] ++ [24, 0] ++ List.replicate 24 0 ∧
      (M5Screen2bmp_fs lcd stack true).2.take 54 = (M5Screen2bmp_client lcd stack []).2.take 54 ∧
      fromLE (le32 F) = F ∧ fromLE (le32 lcd.width) = lcd.width ∧
      fromLE (le32 lcd.height) = lcd.height ∧
      le32 54 = [54, 0, 0, 0] ∧ le32 40 = [40, 0, 0, 0] := by
  have hL : 3 ≤ 3 * lcd.width + (4 - 3 * lcd.width % 4) % 4 := by omega
  have h1 : 3 * lcd.height ≤ (3 * lcd.width + (4 - 3 * lcd.width % 4) % 4) * lcd.height :=
    Nat.mul_le_mul_right _ hL
  have h2 : (3 * lcd.width + (4 - 3 * lcd.width % 4) % 4) * 1
      ≤ (3 * lcd.width + (4 - 3 * lcd.width % 4) % 4) * lcd.height :=
    Nat.mul_le_mul_left _ hH
  have hWlt : lcd.width < 2 ^ 32 := by omega
  have hHlt : lcd.height < 2 ^ 32 := by omega
  have hF2 : (54 + bmpRowLen lcd.width * lcd.height) % 2 ^ 32 = F := by
    rw [bmpRowLen, ← hF]
    exact Nat.mod_eq_of_lt hlt
  rw [M5Screen2bmp_client_eq, M5Screen2bmp_fs_eq, List.nil_append, bmpStream_take_header, hF2]
  exact ⟨rfl, rfl, fromLE_le32 F hlt, fromLE_le32 _ hWlt, fromLE_le32 _ hHlt, rfl, rfl⟩

/-- Witness of C2: the header of the 2 by 2 capture, where `F = 70`. -/
theorem bmp_header_bytes_witness :
    (1 ≤ lcd2x2.width ∧ 1 ≤ lcd2x2.height ∧ 70 < 2 ^ 32) ∧
      (M5Screen2bmp_client lcd2x2 stack0 []).2.take 54
        = [66, 77, 70, 0, 0, 0, 0, 0, 0, 0, 54, 0, 0, 0, 40, 0, 0, 0, 2, 0, 0, 0, 2, 0, 0, 0,
           1, 0, 24, 0, 0, 0, 0, 0, 0, 0, 0, 0, 0, 0, 0, 0, 0, 0, 0, 0, 0, 0, 0, 0, 0, 0, 0, 0] :=
  ⟨by decide, (bmp_header_bytes lcd2x2 stack0 70 (by decide) (by decide) (by decide)
    (by decide)).1⟩

theorem bmpRowByte_at (lcd : Lcd) (y x : Nat) (hx : x < lcd.width) :
    bmpRowByte lcd y (3 * x) = (lcd.pixel x y).b ∧
    bmpRowByte lcd y (3 * x + 1) = (lcd.pixel x y).g ∧
    bmpRowByte lcd y (3 * x + 2) = (lcd.pixel x y).r := by
  have a0 : (3 * x) % 3 = 0 := by omega
  have a1 : (3 * x) / 3 = x := by omega
  have b0 : (3 * x + 1) % 3 = 1 := by omega
  have b1 : (3 * x + 1) / 3 = x := by omega
  have c0 : (3 * x + 2) % 3 = 2 := by omega
  have c1 : (3 * x + 2) / 3 = x := by omega
  have l0 : 3 * x < 3 * lcd.width := by omega
  have l1 : 3 * x + 1 < 3 * lcd.width := by omega
  have l2 : 3 * x + 2 < 3 * lcd.width := by omega
  refine ⟨?_, ?_, ?_⟩ <;> simp [bmpRowByte, a0, a1, b0, b1, c0, c1, l0, l1, l2]

/-- The three bytes of pixel `x` in the row emitted `j`-th. -/
theorem bmpStream_pixel (lcd : Lcd) (j x : Nat) (hj : j < lcd.height) (hx : x < lcd.width) :
    (bmpStream lcd)[54 + j * bmpRowLen lcd.width + 3 * x]?
        = some (lcd.pixel x (lcd.height - 1 - j)).b ∧
      (bmpStream lcd)[54 + j * bmpRowLen lcd.width + 3 * x + 1]?
        = some (lcd.pixel x (lcd.height - 1 - j)).g ∧
      (bmpStream lcd)[54 + j * bmpRowLen lcd.width + 3 * x + 2]?
        = some (lcd.pixel x (lcd.height - 1 - j)).r := by
  obtain ⟨e0, e1, e2⟩ := bmpRowByte_at lcd (lcd.height - 1 - j) x hx
  have hL : 3 * lcd.width ≤ bmpRowLen lcd.width := by unfold bmpRowLen; omega
  refine ⟨?_, ?_, ?_⟩
  · rw [bmpStream_getElem lcd j (3 * x) hj (by omega), e0]
  · rw [Nat.add_assoc (54 + j * bmpRowLen lcd.width),
      bmpStream_getElem lcd j (3 * x + 1) hj (by omega), e1]
  · rw [Nat.add_assoc (54 + j * bmpRowLen lcd.width),
      bmpStream_getElem lcd j (3 * x + 2) hj (by omega), e2]

/-- C3: for every emitted-row index `j < H` and every column `x < W` (so the
width and the height are at least 1), the three bytes at offset
`54 + j * (3 * W + P) + 3 * x` of the BMP output are blue, green, red of the
framebuffer pixel at column `x` of row `H - 1 - j`: rows go out bottom to top,
pixels left to right, with red and blue exchanged. Both emitters do so. -/
theorem bmp_pixel_order (lcd : Lcd) (stack : Mem) (j x : Nat)
    (hj : j < lcd.height) (hx : x < lcd.width) :
    ((M5Screen2bmp_fs lcd stack true).2[
          54 + j * (3 * lcd.width + (4 - 3 * lcd.width % 4) % 4) + 3 * x]?
        = some (lcd.pixel x (lcd.height - 1 - j)).b ∧
      (M5Screen2bmp_fs lcd stack true).2[
          54 + j * (3 * lcd.width + (4 - 3 * lcd.width % 4) % 4) + 3 * x + 1]?
        = some (lcd.pixel x (lcd.height - 1 - j)).g ∧
      (M5Screen2bmp_fs lcd stack true).2[
          54 + j * (3 * lcd.width + (4 - 3 * lcd.width % 4) % 4) + 3 * x + 2]?
        = some (lcd.pixel x (lcd.height - 1 - j)).r) ∧
    ((M5Screen2bmp_client lcd stack []).2[
          54 + j * (3 * lcd.width + (4 - 3 * lcd.width % 4) % 4) + 3 * x]?
        = some (lcd.pixel x (lcd.height - 1 - j)).b ∧
      (M5Screen2bmp_client lcd stack []).2[
          54 + j * (3 * lcd.width + (4 - 3 * lcd.width % 4) % 4) + 3 * x + 1]?
        = some (lcd.pixel x (lcd.height - 1 - j)).g ∧
      (M5Screen2bmp_client lcd stack []).2[
          54 + j * (3 * lcd.width + (4 - 3 * lcd.width % 4) % 4) + 3 * x + 2]?
        = some (lcd.pixel x (lcd.height - 1 - j)).r) := by
  rw [M5Screen2bmp_client_eq, M5Screen2bmp_fs_eq, List.nil_append]
  exact ⟨bmpStream_pixel lcd j x hj hx, bmpStream_pixel lcd j x hj hx⟩

/-- Witness of C3: in the 2 by 2 scenario the first emitted pixel (row index 0,
column 0) is 9, 8, 7, the bottom-left pixel (7, 8, 9) with red and blue
exchanged, and the whole pixel region is
9, 8, 7, 12, 11, 10, 0, 0, 3, 2, 1, 6, 5, 4, 0, 0. -/
theorem bmp_pixel_order_witness :
    (0 < lcd2x2.height ∧ 0 < lcd2x2.width) ∧
      (((M5Screen2bmp_fs lcd2x2 stack0 true).2[54]? = some 9 ∧
        (M5Screen2bmp_fs lcd2x2 stack0 true).2[55]? = some 8 ∧
        (M5Screen2bmp_fs lcd2x2 stack0 true).2[56]? = some 7) ∧
       ((M5Screen2bmp_client lcd2x2 stack0 []).2[54]? = some 9 ∧
        (M5Screen2bmp_client lcd2x2 stack0 []).2[55]? = some 8 ∧
        (M5Screen2bmp_client lcd2x2 stack0 []).2[56]? = some 7)) ∧
      (M5Screen2bmp_fs lcd2x2 stack0 true).2.drop 54
        = [9, 8, 7, 12, 11, 10, 0, 0, 3, 2, 1, 6, 5, 4, 0, 0] ∧
      (M5Screen2bmp_client lcd2x2 stack0 []).2.drop 54
        = [9, 8, 7, 12, 11, 10, 0, 0, 3, 2, 1, 6, 5, 4, 0, 0] :=
  ⟨by decide,
   bmp_pixel_order lcd2x2 stack0 0 0 (by decide) (by decide),
   by decide, by decide⟩

/-- The row emitted `j`-th, cut out of the stream, has the full row length. -/
theorem bmpStream_row_length (lcd : Lcd) (j : Nat) (hj : j < lcd.height) :
    (((bmpStream lcd).drop (54 + j * bmpRowLen lcd.width)).take (bmpRowLen lcd.width)).length
      = bmpRowLen lcd.width := by
  have hlt : bmpRowLen lcd.width * (j + 1) ≤ bmpRowLen lcd.width * lcd.height :=
    Nat.mul_le_mul_left _ hj
  have hexp : bmpRowLen lcd.width * (j + 1)
      = j * bmpRowLen lcd.width + bmpRowLen lcd.width := by ring
  rw [List.length_take, List.length_drop, bmpStream_length]
  omega

/-- C4: for width and height of at least 1, every framebuffer content and
every left-over content of the scanline array, each of the `H` rows that the
BMP emitters write is exactly `3 * W + P` bytes long and its last `P` bytes
(offsets `3 * W` up to `3 * W + P` within the row) are zero: the padding
cleared before the row loop survives every line read and every swap. -/
theorem bmp_row_padding (lcd : Lcd) (stack : Mem) (j : Nat)
    (hW : 1 ≤ lcd.width) (hj : j < lcd.height) :
    ((((M5Screen2bmp_fs lcd stack true).2.drop
          (54 + j * (3 * lcd.width + (4 - 3 * lcd.width % 4) % 4))).take
          (3 * lcd.width + (4 - 3 * lcd.width % 4) % 4)).length
        = 3 * lcd.width + (4 - 3 * lcd.width % 4) % 4 ∧
      ∀ k, 3 * lcd.width ≤ k → k < 3 * lcd.width + (4 - 3 * lcd.width % 4) % 4 →
        (M5Screen2bmp_fs lcd stack true).2[
          54 + j * (3 * lcd.width + (4 - 3 * lcd.width % 4) % 4) + k]? = some 0) ∧
    ((((M5Screen2bmp_client lcd stack []).2.drop
          (54 + j * (3 * lcd.width + (4 - 3 * lcd.width % 4) % 4))).take
          (3 * lcd.width + (4 - 3 * lcd.width % 4) % 4)).length
        = 3 * lcd.width + (4 - 3 * lcd.width % 4) % 4 ∧
      ∀ k, 3 * lcd.width ≤ k → k < 3 * lcd.width + (4 - 3 * lcd.width % 4) % 4 →
        (M5Screen2bmp_client lcd stack []).2[
          54 + j * (3 * lcd.width + (4 - 3 * lcd.width % 4) % 4) + k]? = some 0) := by
  rw [M5Screen2bmp_client_eq, M5Screen2bmp_fs_eq, List.nil_append]
  have key : ∀ k, 3 * lcd.width ≤ k → k < 3 * lcd.width + (4 - 3 * lcd.width % 4) % 4 →
      (bmpStream lcd)[54 + j * (3 * lcd.width + (4 - 3 * lcd.width % 4) % 4) + k]?
        = some 0 := by
    intro k h1 h2
    have h := bmpStream_getElem lcd j k hj h2
    rw [bmpRowByte, if_neg (by omega)] at h
    exact h
  exact ⟨⟨bmpStream_row_length lcd j hj, key⟩, ⟨bmpStream_row_length lcd j hj, key⟩⟩

/-- Witness of C4: at width 2 the padding is two bytes; the first row of the
2 by 2 capture is 8 bytes long and ends in two zero bytes although the
scanline array started out with non-zero left-over content. -/
theorem bmp_row_padding_witness :
    (1 ≤ lcd2x2.width ∧ 0 < lcd2x2.height ∧ stack0 6 = 176 ∧ stack0 7 = 170) ∧
      ((((M5Screen2bmp_fs lcd2x2 stack0 true).2.drop 54).take 8).length = 8 ∧
        (M5Screen2bmp_fs lcd2x2 stack0 true).2[54 + 6]? = some 0 ∧
        (M5Screen2bmp_fs lcd2x2 stack0 true).2[54 + 7]? = some 0) :=
  ⟨by decide,
   (bmp_row_padding lcd2x2 stack0 0 (by decide) (by decide)).1.1,
   (bmp_row_padding lcd2x2 stack0 0 (by decide) (by decide)).1.2 6 (by decide) (by decide),
   (bmp_row_padding lcd2x2 stack0 0 (by decide) (by decide)).1.2 7 (by decide) (by decide)⟩

/-- The reference decoder reads the width and height fields of the stream. -/
theorem bmpStream_fields (lcd : Lcd) :
    refWidth (bmpStream lcd) = fromLE (le32 lcd.width) ∧
      refHeight (bmpStream lcd) = fromLE (le32 lcd.height) := by
  have hlen : (bmpHeader ((54 + bmpRowLen lcd.width * lcd.height) % 2 ^ 32)
      lcd.width lcd.height).length = 54 := rfl
  constructor
  · rw [refWidth, refField, bmpStream, List.drop_append_of_le_length (by rw [hlen]; omega),
      List.take_append_of_le_length (by rw [List.length_drop, hlen]; omega)]
    rfl
  · rw [refHeight, refField, bmpStream, List.drop_append_of_le_length (by rw [hlen]; omega),
      List.take_append_of_le_length (by rw [List.length_drop, hlen]; omega)]
    rfl

/-- The reference decoder applied to the closed-form stream gives back the
framebuffer. -/
theorem bmpStream_decode (lcd : Lcd) (hWlt : lcd.width < 2 ^ 32) (hHlt : lcd.height < 2 ^ 32)
    (x y : Nat) (hx : x < lcd.width) (hy : y < lcd.height) :
    refPixel (bmpStream lcd) x y = lcd.pixel x y := by
  obtain ⟨fw, fh⟩ := bmpStream_fields lcd
  rw [fromLE_le32 _ hWlt] at fw
  rw [fromLE_le32 _ hHlt] at fh
  have hstride : (3 * lcd.width + 3) / 4 * 4 = bmpRowLen lcd.width := by
    unfold bmpRowLen; omega
  have hj : lcd.height - 1 - y < lcd.height := by omega
  have hrow : lcd.height - 1 - (lcd.height - 1 - y) = y := by omega
  obtain ⟨p0, p1, p2⟩ := bmpStream_pixel lcd (lcd.height - 1 - y) x hj hx
  rw [hrow] at p0 p1 p2
  simp only [refPixel, fw, fh, hstride, List.getD_eq_getElem?_getD, p0, p1, p2,
    Option.getD_some]

/-- C5: round trip. For width and height of at least 1 (and, being C `int`
values, below `2^32`), the reference 24-bit BI_RGB decoder applied to the byte
stream of either BMP emitter reads back the width `W` and the height `H`, and
its pixel at every `(x, y)` inside the bitmap is the framebuffer pixel at
`(x, y)`; in particular the top-left pixels agree. -/
theorem bmp_round_trip (lcd : Lcd) (stack : Mem)
    (hW : 1 ≤ lcd.width) (hH : 1 ≤ lcd.height)
    (hWlt : lcd.width < 2 ^ 32) (hHlt : lcd.height < 2 ^ 32) :
    (refWidth (M5Screen2bmp_fs lcd stack true).2 = lcd.width ∧
      refHeight (M5Screen2bmp_fs lcd stack true).2 = lcd.height ∧
      (∀ x y, x < lcd.width → y < lcd.height →
        refPixel (M5Screen2bmp_fs lcd stack true).2 x y = lcd.pixel x y) ∧
      refPixel (M5Screen2bmp_fs lcd stack true).2 0 0 = lcd.pixel 0 0) ∧
    (refWidth (M5Screen2bmp_client lcd stack []).2 = lcd.width ∧
      refHeight (M5Screen2bmp_client lcd stack []).2 = lcd.height ∧
      (∀ x y, x < lcd.width → y < lcd.height →
        refPixel (M5Screen2bmp_client lcd stack []).2 x y = lcd.pixel x y) ∧
      refPixel (M5Screen2bmp_client lcd stack []).2 0 0 = lcd.pixel 0 0) := by
  rw [M5Screen2bmp_client_eq, M5Screen2bmp_fs_eq, List.nil_append]
  obtain ⟨fw, fh⟩ := bmpStream_fields lcd
  rw [fromLE_le32 _ hWlt] at fw
  rw [fromLE_le32 _ hHlt] at fh
  have all : ∀ x y, x < lcd.width → y < lcd.height →
      refPixel (bmpStream lcd) x y = lcd.pixel x y :=
    fun x y hx hy => bmpStream_decode lcd hWlt hHlt x y hx hy
  exact ⟨⟨fw, fh, all, all 0 0 hW hH⟩, ⟨fw, fh, all, all 0 0 hW hH⟩⟩

/-- Witness of C5: decoding the 2 by 2 capture gives a 2 by 2 bitmap whose
top-left pixel is (1, 2, 3) and whose bottom-right pixel is (10, 11, 12). -/
theorem bmp_round_trip_witness :
    (1 ≤ lcd2x2.width ∧ 1 ≤ lcd2x2.height ∧ lcd2x2.width < 2 ^ 32 ∧ lcd2x2.height < 2 ^ 32) ∧
      refWidth (M5Screen2bmp_fs lcd2x2 stack0 true).2 = 2 ∧
      refHeight (M5Screen2bmp_fs lcd2x2 stack0 true).2 = 2 ∧
      refPixel (M5Screen2bmp_fs lcd2x2 stack0 true).2 0 0 = ⟨1, 2, 3⟩ ∧
      refPixel (M5Screen2bmp_fs lcd2x2 stack0 true).2 1 1 = ⟨10, 11, 12⟩ :=
  ⟨by decide,
   (bmp_round_trip lcd2x2 stack0 (by decide) (by decide) (by decide) (by decide)).1.1,
   (bmp_round_trip lcd2x2 stack0 (by decide) (by decide) (by decide) (by decide)).1.2.1,
   (bmp_round_trip lcd2x2 stack0 (by decide) (by decide) (by decide) (by decide)).1.2.2.2,
   (bmp_round_trip lcd2x2 stack0 (by decide) (by decide) (by decide) (by decide)).1.2.2.1
     1 1 (by decide) (by decide)⟩

/-- A scanline array holding display row `y`, written out in full, is the
row of pixels in R, G, B order. -/
theorem rgbRow_eq_map (lcd : Lcd) (y : Nat) (n : Nat) :
    (List.range (n * 3)).map (rgbRowByte lcd y)
      = (List.range n).flatMap
          (fun x => [(lcd.pixel x y).r, (lcd.pixel x y).g, (lcd.pixel x y).b]) := by
  induction n with
  | zero => rfl
  | succ n ih =>
    obtain ⟨e0, e1, e2⟩ := rgbRowByte_at lcd y n
    have h3 : List.range 3 = [0, 1, 2] := rfl
    rw [show (n + 1) * 3 = n * 3 + 3 by ring, List.range_add, h3, List.map_append, ih,
      List.range_succ, List.flatMap_append, List.flatMap_singleton]
    simp only [List.map_cons, List.map_nil, Nat.add_zero]
    rw [show n * 3 = 3 * n by ring, e0, e1, e2]

theorem rgbRow_length (lcd : Lcd) (y : Nat) : (rgbRow lcd y).length = 3 * lcd.width := by
  rw [rgbRow, ← rgbRow_eq_map, List.length_map, List.length_range]
  ring

/-- The row loop of the PPM writer appends rows `0`, ..., `n - 1`. -/
theorem ppmLoop_sink (lcd : Lcd) (n : Nat) (d : Mem) (sink : List Byte) :
    (forLoop n (fun y (st : Mem × List Byte) =>
      (readRectRGB lcd 0 y lcd.width 1 st.1,
       write st.2 (readRectRGB lcd 0 y lcd.width 1 st.1) (lcd.width * 3))) (d, sink)).2
      = sink ++ (List.range n).flatMap (rgbRow lcd) := by
  induction n with
  | zero => simp [forLoop]
  | succ n ih =>
    simp only [forLoop]
    rw [ih, List.range_succ, List.flatMap_append, List.flatMap_singleton, write,
      List.append_assoc]
    congr 2
    rw [rgbRow, ← rgbRow_eq_map]
    apply List.map_congr_left
    intro k hk
    have hk2 : k < lcd.width * 3 := List.mem_range.mp hk
    rw [readRectRGB_row, if_pos (by omega)]

theorem rows_length (lcd : Lcd) (n : Nat) :
    ((List.range n).flatMap (rgbRow lcd)).length = 3 * lcd.width * n := by
  induction n with
  | zero => rfl
  | succ n ih =>
    rw [List.range_succ, List.flatMap_append, List.flatMap_singleton, List.length_append,
      ih, rgbRow_length]
    ring

/-- C6: for width and height of at least 1 and every framebuffer, when the
file opens `M5Screen2ppm` returns true and writes exactly the ASCII header
`P6`, newline, `W`, blank, `H`, newline, `255`, newline (with `W` and `H` in
decimal), followed by the framebuffer rows `0`, ..., `H - 1` in that order,
each as `3 * W` bytes in R, G, B order from left to right, with no padding and
no byte swap; so the total length is the header length plus `3 * W * H`. -/
theorem ppm_stream (lcd : Lcd) (stack : Mem) (hW : 1 ≤ lcd.width) (hH : 1 ≤ lcd.height) :
    M5Screen2ppm lcd stack true
        = (true, (ascii "P6\n" ++ decimal lcd.width ++ ascii " " ++ decimal lcd.height ++
            ascii "\n255\n") ++
          (List.range lcd.height).flatMap (fun y => (List.range lcd.width).flatMap
            (fun x => [(lcd.pixel x y).r, (lcd.pixel x y).g, (lcd.pixel x y).b]))) ∧
      (∀ y, ((List.range lcd.width).flatMap
            (fun x => [(lcd.pixel x y).r, (lcd.pixel x y).g, (lcd.pixel x y).b])).length
          = 3 * lcd.width) ∧
      (M5Screen2ppm lcd stack true).2.length
        = (ascii "P6\n" ++ decimal lcd.width ++ ascii " " ++ decimal lcd.height ++
            ascii "\n255\n").length + 3 * lcd.width * lcd.height := by
  have main : M5Screen2ppm lcd stack true
      = (true, (ascii "P6\n" ++ decimal lcd.width ++ ascii " " ++ decimal lcd.height ++
          ascii "\n255\n") ++ (List.range lcd.height).flatMap (rgbRow lcd)) := by
    simp only [M5Screen2ppm, if_true]
    rw [ppmLoop_sink, List.nil_append]
  refine ⟨main, fun y => rgbRow_length lcd y, ?_⟩
  rw [main, List.length_append, rows_length]

/-- Witness of C6: the 1 by 1 framebuffer with pixel (255, 0, 128) is written
as `P6\n1 1\n255\n` followed by the bytes 0xFF, 0x00, 0x80. -/
theorem ppm_stream_witness :
    (1 ≤ lcd1x1.width ∧ 1 ≤ lcd1x1.height) ∧
      M5Screen2ppm lcd1x1 stack0 true = (true, ascii "P6\n1 1\n255\n" ++ [0xFF, 0x00, 0x80]) :=
  ⟨by decide, (ppm_stream lcd1x1 stack0 (by decide) (by decide)).1⟩

theorem startsWith_iff (line : List Byte) (p : String) :
    startsWith line p = true ↔ ascii p <+: line := by
  rw [startsWith]
  exact List.isPrefixOf_iff_prefix

/-- Two different route prefixes never both start the same line. -/
theorem startsWith_excl (line : List Byte) (p q : String)
    (hp : p ∈ routePrefixes) (hq : q ∈ routePrefixes) (hpq : p ≠ q)
    (h : startsWith line p = true) : startsWith line q = false := by
  have hall : ∀ a ∈ routePrefixes, ∀ b ∈ routePrefixes, a ≠ b → ¬ (ascii a <+: ascii b) := by
    decide
  cases hb : startsWith line q with
  | false => rfl
  | true =>
    exfalso
    rcases List.prefix_or_prefix_of_prefix ((startsWith_iff line p).mp h)
      ((startsWith_iff line q).mp hb) with h1 | h1
    · exact hall p hp q hq hpq h1
    · exact hall q hq p hp (fun e => hpq e.symm) h1

/-- When the line feed that completes a non-empty line arrives, the globals
are those of `analyzeLine` and the line is cleared. -/
theorem readByte_line (assets : Assets) (lcd : Lcd) (stack : Mem) (st : Conn)
    (h : st.currentLine ≠ []) :
    readByte assets lcd stack '\n'.toNat st
      = { st with g := analyzeLine st.currentLine st.g, currentLine := [] } := by
  have hlen : st.currentLine.length ≠ 0 := fun e => h (List.length_eq_zero.mp e)
  simp only [readByte, if_true, if_neg hlen]

/-- The tag and flags after a completed `GET /` line, in terms of the
`startsWith` tests of the code. -/
theorem readByte_tag (assets : Assets) (lcd : Lcd) (stack : Mem) (st : Conn)
    (line : List Byte) (hline : st.currentLine = line)
    (hget : startsWith line "GET /" = true) :
    (startsWith line "GET / " = true →
        (readByte assets lcd stack '\n'.toNat st).g.html_get_request = GET_index_page) ∧
      (startsWith line "GET /favicon.ico" = true →
        (readByte assets lcd stack '\n'.toNat st).g.html_get_request = GET_favicon) ∧
      (startsWith line "GET /electric-idea_100x100.jpg" = true →
        (readByte assets lcd stack '\n'.toNat st).g.html_get_request = GET_logo) ∧
      (startsWith line "GET /refresh-40x30.png" = true →
        (readByte assets lcd stack '\n'.toNat st).g.html_get_request = GET_refresh_img) ∧
      (startsWith line "GET /button.png" = true →
        (readByte assets lcd stack '\n'.toNat st).g.html_get_request = GET_button_img) ∧
      (startsWith line "GET /screenshot.bmp" = true →
        (readByte assets lcd stack '\n'.toNat st).g.html_get_request = GET_screenshot) ∧
      (startsWith line "GET /button-A" = true →
        (readByte assets lcd stack '\n'.toNat st).g.html_get_request = GET_index_page ∧
        (readByte assets lcd stack '\n'.toNat st).g.Control_A_pressed = true) ∧
      (startsWith line "GET /button-B" = true →
        (readByte assets lcd stack '\n'.toNat st).g.html_get_request = GET_index_page ∧
        (readByte assets lcd stack '\n'.toNat st).g.Control_B_pressed = true) ∧
      (startsWith line "GET /button-C" = true →
        (readByte assets lcd stack '\n'.toNat st).g.html_get_request = GET_index_page ∧
        (readByte assets lcd stack '\n'.toNat st).g.Control_C_pressed = true) ∧
      (startsWith line "GET / " = false →
        startsWith line "GET /favicon.ico" = false →
        startsWith line "GET /electric-idea_100x100.jpg" = false →
        startsWith line "GET /refresh-40x30.png" = false →
        startsWith line "GET /button.png" = false →
        startsWith line "GET /screenshot.bmp" = false →
        startsWith line "GET /button-A" = false →
        startsWith line "GET /button-B" = false →
        startsWith line "GET /button-C" = false →
        (readByte assets lcd stack '\n'.toNat st).g.html_get_request = GET_unknown) := by
  have hne : st.currentLine ≠ [] := by
    rw [hline]
    intro e
    rw [e] at hget
    exact absurd hget (by decide)
  rw [readByte_line assets lcd stack st hne, hline]
  have h := hget
  refine ⟨?_, ?_, ?_, ?_, ?_, ?_, ?_, ?_, ?_, ?_⟩
  · intro hb
    have n0 := startsWith_excl line "GET / " "GET /electric-idea_100x100.jpg" (by decide) (by decide) (by decide) hb
    have n1 := startsWith_excl line "GET / " "GET /favicon.ico" (by decide) (by decide) (by decide) hb
    have n2 := startsWith_excl line "GET / " "GET /screenshot.bmp" (by decide) (by decide) (by decide) hb
    have n3 := startsWith_excl line "GET / " "GET /refresh-40x30.png" (by decide) (by decide) (by decide) hb
    have n4 := startsWith_excl line "GET / " "GET /button.png" (by decide) (by decide) (by decide) hb
    have n5 := startsWith_excl line "GET / " "GET /button-A" (by decide) (by decide) (by decide) hb
    have n6 := startsWith_excl line "GET / " "GET /button-B" (by decide) (by decide) (by decide) hb
    have n7 := startsWith_excl line "GET / " "GET /button-C" (by decide) (by decide) (by decide) hb
    simp [analyzeLine, h, hb, n0, n1, n2, n3, n4, n5, n6, n7]
  · intro hb
    have n0 := startsWith_excl line "GET /favicon.ico" "GET / " (by decide) (by decide) (by decide) hb
    have n1 := startsWith_excl line "GET /favicon.ico" "GET /electric-idea_100x100.jpg" (by decide) (by decide) (by decide) hb
    have n2 := startsWith_excl line "GET /favicon.ico" "GET /screenshot.bmp" (by decide) (by decide) (by decide) hb
    have n3 := startsWith_excl line "GET /favicon.ico" "GET /refresh-40x30.png" (by decide) (by decide) (by decide) hb
    have n4 := startsWith_excl line "GET /favicon.ico" "GET /button.png" (by decide) (by decide) (by decide) hb
    have n5 := startsWith_excl line "GET /favicon.ico" "GET /button-A" (by decide) (by decide) (by decide) hb
    have n6 := startsWith_excl line "GET /favicon.ico" "GET /button-B" (by decide) (by decide) (by decide) hb
    have n7 := startsWith_excl line "GET /favicon.ico" "GET /button-C" (by decide) (by decide) (by decide) hb
    simp [analyzeLine, h, hb, n0, n1, n2, n3, n4, n5, n6, n7]
  · intro hb
    have n0 := startsWith_excl line "GET /electric-idea_100x100.jpg" "GET / " (by decide) (by decide) (by decide) hb
    have n1 := startsWith_excl line "GET /electric-idea_100x100.jpg" "GET /favicon.ico" (by decide) (by decide) (by decide) hb
    have n2 := startsWith_excl line "GET /electric-idea_100x100.jpg" "GET /screenshot.bmp" (by decide) (by decide) (by decide) hb
    have n3 := startsWith_excl line "GET /electric-idea_100x100.jpg" "GET /refresh-40x30.png" (by decide) (by decide) (by decide) hb
    have n4 := startsWith_excl line "GET /electric-idea_100x100.jpg" "GET /button.png" (by decide) (by decide) (by decide) hb
    have n5 := startsWith_excl line "GET /electric-idea_100x100.jpg" "GET /button-A" (by decide) (by decide) (by decide) hb
    have n6 := startsWith_excl line "GET /electric-idea_100x100.jpg" "GET /button-B" (by decide) (by decide) (by decide) hb
    have n7 := startsWith_excl line "GET /electric-idea_100x100.jpg" "GET /button-C" (by decide) (by decide) (by decide) hb
    simp [analyzeLine, h, hb, n0, n1, n2, n3, n4, n5, n6, n7]
  · intro hb
    have n0 := startsWith_excl line "GET /refresh-40x30.png" "GET / " (by decide) (by decide) (by decide) hb
    have n1 := startsWith_excl line "GET /refresh-40x30.png" "GET /electric-idea_100x100.jpg" (by decide) (by decide) (by decide) hb
    have n2 := startsWith_excl line "GET /refresh-40x30.png" "GET /favicon.ico" (by decide) (by decide) (by decide) hb
    have n3 := startsWith_excl line "GET /refresh-40x30.png" "GET /screenshot.bmp" (by decide) (by decide) (by decide) hb
    have n4 := startsWith_excl line "GET /refresh-40x30.png" "GET /button.png" (by decide) (by decide) (by decide) hb
    have n5 := startsWith_excl line "GET /refresh-40x30.png" "GET /button-A" (by decide) (by decide) (by decide) hb
    have n6 := startsWith_excl line "GET /refresh-40x30.png" "GET /button-B" (by decide) (by decide) (by decide) hb
    have n7 := startsWith_excl line "GET /refresh-40x30.png" "GET /button-C" (by decide) (by decide) (by decide) hb
    simp [analyzeLine, h, hb, n0, n1, n2, n3, n4, n5, n6, n7]
  · intro hb
    have n0 := startsWith_excl line "GET /button.png" "GET / " (by decide) (by decide) (by decide) hb
    have n1 := startsWith_excl line "GET /button.png" "GET /electric-idea_100x100.jpg" (by decide) (by decide) (by decide) hb
    have n2 := startsWith_excl line "GET /button.png" "GET /favicon.ico" (by decide) (by decide) (by decide) hb
    have n3 := startsWith_excl line "GET /button.png" "GET /screenshot.bmp" (by decide) (by decide) (by decide) hb
    have n4 := startsWith_excl line "GET /button.png" "GET /refresh-40x30.png" (by decide) (by decide) (by decide) hb
    have n5 := startsWith_excl line "GET /button.png" "GET /button-A" (by decide) (by decide) (by decide) hb
    have n6 := startsWith_excl line "GET /button.png" "GET /button-B" (by decide) (by decide) (by decide) hb
    have n7 := startsWith_excl line "GET /button.png" "GET /button-C" (by decide) (by decide) (by decide) hb
    simp [analyzeLine, h, hb, n0, n1, n2, n3, n4, n5, n6, n7]
  · intro hb
    have n0 := startsWith_excl line "GET /screenshot.bmp" "GET / " (by decide) (by decide) (by decide) hb
    have n1 := startsWith_excl line "GET /screenshot.bmp" "GET /electric-idea_100x100.jpg" (by decide) (by decide) (by decide) hb
    have n2 := startsWith_excl line "GET /screenshot.bmp" "GET /favicon.ico" (by decide) (by decide) (by decide) hb
    have n3 := startsWith_excl line "GET /screenshot.bmp" "GET /refresh-40x30.png" (by decide) (by decide) (by decide) hb
    have n4 := startsWith_excl line "GET /screenshot.bmp" "GET /button.png" (by decide) (by decide) (by decide) hb
    have n5 := startsWith_excl line "GET /screenshot.bmp" "GET /button-A" (by decide) (by decide) (by decide) hb
    have n6 := startsWith_excl line "GET /screenshot.bmp" "GET /button-B" (by decide) (by decide) (by decide) hb
    have n7 := startsWith_excl line "GET /screenshot.bmp" "GET /button-C" (by decide) (by decide) (by decide) hb
    simp [analyzeLine, h, hb, n0, n1, n2, n3, n4, n5, n6, n7]
  · intro hb
    have n0 := startsWith_excl line "GET /button-A" "GET / " (by decide) (by decide) (by decide) hb
    have n1 := startsWith_excl line "GET /button-A" "GET /electric-idea_100x100.jpg" (by decide) (by decide) (by decide) hb
    have n2 := startsWith_excl line "GET /button-A" "GET /favicon.ico" (by decide) (by decide) (by decide) hb
    have n3 := startsWith_excl line "GET /button-A" "GET /screenshot.bmp" (by decide) (by decide) (by decide) hb
    have n4 := startsWith_excl line "GET /button-A" "GET /refresh-40x30.png" (by decide) (by decide) (by decide) hb
    have n5 := startsWith_excl line "GET /button-A" "GET /button.png" (by decide) (by decide) (by decide) hb
    have n6 := startsWith_excl line "GET /button-A" "GET /button-B" (by decide) (by decide) (by decide) hb
    have n7 := startsWith_excl line "GET /button-A" "GET /button-C" (by decide) (by decide) (by decide) hb
    simp [analyzeLine, h, hb, n0, n1, n2, n3, n4, n5, n6, n7]
  · intro hb
    have n0 := startsWith_excl line "GET /button-B" "GET / " (by decide) (by decide) (by decide) hb
    have n1 := startsWith_excl line "GET /button-B" "GET /electric-idea_100x100.jpg" (by decide) (by decide) (by decide) hb
    have n2 := startsWith_excl line "GET /button-B" "GET /favicon.ico" (by decide) (by decide) (by decide) hb
    have n3 := startsWith_excl line "GET /button-B" "GET /screenshot.bmp" (by decide) (by decide) (by decide) hb
    have n4 := startsWith_excl line "GET /button-B" "GET /refresh-40x30.png" (by decide) (by decide) (by decide) hb
    have n5 := startsWith_excl line "GET /button-B" "GET /button.png" (by decide) (by decide) (by decide) hb
    have n6 := startsWith_excl line "GET /button-B" "GET /button-A" (by decide) (by decide) (by decide) hb
    have n7 := startsWith_excl line "GET /button-B" "GET /button-C" (by decide) (by decide) (by decide) hb
    simp [analyzeLine, h, hb, n0, n1, n2, n3, n4, n5, n6, n7]
  · intro hb
    have n0 := startsWith_excl line "GET /button-C" "GET / " (by decide) (by decide) (by decide) hb
    have n1 := startsWith_excl line "GET /button-C" "GET /electric-idea_100x100.jpg" (by decide) (by decide) (by decide) hb
    have n2 := startsWith_excl line "GET /button-C" "GET /favicon.ico" (by decide) (by decide) (by decide) hb
    have n3 := startsWith_excl line "GET /button-C" "GET /screenshot.bmp" (by decide) (by decide) (by decide) hb
    have n4 := startsWith_excl line "GET /button-C" "GET /refresh-40x30.png" (by decide) (by decide) (by decide) hb
    have n5 := startsWith_excl line "GET /button-C" "GET /button.png" (by decide) (by decide) (by decide) hb
    have n6 := startsWith_excl line "GET /button-C" "GET /button-A" (by decide) (by decide) (by decide) hb
    have n7 := startsWith_excl line "GET /button-C" "GET /button-B" (by decide) (by decide) (by decide) hb
    simp [analyzeLine, h, hb, n0, n1, n2, n3, n4, n5, n6, n7]
  · intro e1 e2 e3 e4 e5 e6 e7 e8 e9
    simp [analyzeLine, h, e1, e2, e3, e4, e5, e6, e7, e8, e9]

theorem not_startsWith (line : List Byte) (p : String) (h : ¬ ascii p <+: line) :
    startsWith line p = false := by
  cases hb : startsWith line p with
  | false => rfl
  | true => exact absurd ((startsWith_iff line p).mp hb) h

/-- C7: route classification. When the line feed completing a request line
that begins with `GET /` is processed, the line is cleared and the
classification tag becomes: index for `GET / `, favicon for
`GET /favicon.ico`, logo for `GET /electric-idea_100x100.jpg`, refresh_img for
`GET /refresh-40x30.png`, button_img for `GET /button.png`, screenshot for
`GET /screenshot.bmp`, index together with flag A, B or C set for
`GET /button-A`, `GET /button-B`, `GET /button-C`, and unknown for every other
line beginning with `GET /`. -/
theorem route_classification (assets : Assets) (lcd : Lcd) (stack : Mem) (st : Conn)
    (hget : ascii "GET /" <+: st.currentLine) :
    (readByte assets lcd stack '\n'.toNat st).currentLine = [] ∧
      (readByte assets lcd stack '\n'.toNat st).responded = st.responded ∧
      (ascii "GET / " <+: st.currentLine →
        (readByte assets lcd stack '\n'.toNat st).g.html_get_request = GET_index_page) ∧
      (ascii "GET /favicon.ico" <+: st.currentLine →
        (readByte assets lcd stack '\n'.toNat st).g.html_get_request = GET_favicon) ∧
      (ascii "GET /electric-idea_100x100.jpg" <+: st.currentLine →
        (readByte assets lcd stack '\n'.toNat st).g.html_get_request = GET_logo) ∧
      (ascii "GET /refresh-40x30.png" <+: st.currentLine →
        (readByte assets lcd stack '\n'.toNat st).g.html_get_request = GET_refresh_img) ∧
      (ascii "GET /button.png" <+: st.currentLine →
        (readByte assets lcd stack '\n'.toNat st).g.html_get_request = GET_button_img) ∧
      (ascii "GET /screenshot.bmp" <+: st.currentLine →
        (readByte assets lcd stack '\n'.toNat st).g.html_get_request = GET_screenshot) ∧
      (ascii "GET /button-A" <+: st.currentLine →
        (readByte assets lcd stack '\n'.toNat st).g.html_get_request = GET_index_page ∧
        (readByte assets lcd stack '\n'.toNat st).g.Control_A_pressed = true) ∧
      (ascii "GET /button-B" <+: st.currentLine →
        (readByte assets lcd stack '\n'.toNat st).g.html_get_request = GET_index_page ∧
        (readByte assets lcd stack '\n'.toNat st).g.Control_B_pressed = true) ∧
      (ascii "GET /button-C" <+: st.currentLine →
        (readByte assets lcd stack '\n'.toNat st).g.html_get_request = GET_index_page ∧
        (readByte assets lcd stack '\n'.toNat st).g.Control_C_pressed = true) ∧
      (¬ ascii "GET / " <+: st.currentLine →
        ¬ ascii "GET /favicon.ico" <+: st.currentLine →
        ¬ ascii "GET /electric-idea_100x100.jpg" <+: st.currentLine →
        ¬ ascii "GET /refresh-40x30.png" <+: st.currentLine →
        ¬ ascii "GET /button.png" <+: st.currentLine →
        ¬ ascii "GET /screenshot.bmp" <+: st.currentLine →
        ¬ ascii "GET /button-A" <+: st.currentLine →
        ¬ ascii "GET /button-B" <+: st.currentLine →
        ¬ ascii "GET /button-C" <+: st.currentLine →
        (readByte assets lcd stack '\n'.toNat st).g.html_get_request = GET_unknown) := by
  have hb := readByte_tag assets lcd stack st st.currentLine rfl
    ((startsWith_iff _ _).mpr hget)
  obtain ⟨t1, t2, t3, t4, t5, t6, t7, t8, t9, t10⟩ := hb
  have hne : st.currentLine ≠ [] := by
    intro e
    rw [e] at hget
    exact absurd hget (by decide)
  refine ⟨?_, ?_, fun h => t1 ((startsWith_iff _ _).mpr h),
    fun h => t2 ((startsWith_iff _ _).mpr h), fun h => t3 ((startsWith_iff _ _).mpr h),
    fun h => t4 ((startsWith_iff _ _).mpr h), fun h => t5 ((startsWith_iff _ _).mpr h),
    fun h => t6 ((startsWith_iff _ _).mpr h), fun h => t7 ((startsWith_iff _ _).mpr h),
    fun h => t8 ((startsWith_iff _ _).mpr h), fun h => t9 ((startsWith_iff _ _).mpr h),
    fun h1 h2 h3 h4 h5 h6 h7 h8 h9 => t10 (not_startsWith _ _ h1) (not_startsWith _ _ h2)
      (not_startsWith _ _ h3) (not_startsWith _ _ h4) (not_startsWith _ _ h5)
      (not_startsWith _ _ h6) (not_startsWith _ _ h7) (not_startsWith _ _ h8)
      (not_startsWith _ _ h9)⟩
  · rw [readByte_line assets lcd stack st hne]
  · rw [readByte_line assets lcd stack st hne]

/-- Witness of C7: the line `GET /nope HTTP/1.1` begins with `GET /` and with
none of the nine route prefixes, so the tag (screenshot before) becomes
unknown; the whole request is answered with the 404 response. -/
theorem route_classification_witness :
    ascii "GET /" <+: ascii "GET /nope HTTP/1.1" ∧
      (readByte assets0 lcd2x2 stack0 '\n'.toNat
        { Conn.fresh globals0 with currentLine := ascii "GET /nope HTTP/1.1" }
        ).g.html_get_request = GET_unknown ∧
      (clientLoop assets0 lcd2x2 stack0 (ascii "GET /nope HTTP/1.1\r\n\r\n")
        (Conn.fresh globals0)).client
        = ascii "HTTP/1.1 404 Not Found\r\nContent-type:text/html\r\n\r\n404 Page not found.<br>\r\n" :=
  ⟨by decide,
   (route_classification assets0 lcd2x2 stack0
      { Conn.fresh globals0 with currentLine := ascii "GET /nope HTTP/1.1" }
      (by decide)).2.2.2.2.2.2.2.2.2.2.2
      (by decide) (by decide) (by decide) (by decide) (by decide) (by decide) (by decide) (by decide) (by decide),
   by decide⟩

/-- The network emitter appends to the client what it writes to an empty one. -/
theorem M5Screen2bmp_client_append (lcd : Lcd) (stack : Mem) (client : List Byte) :
    (M5Screen2bmp_client lcd stack client).2
      = client ++ (M5Screen2bmp_client lcd stack []).2 := by
  rw [M5Screen2bmp_client_eq, M5Screen2bmp_client_eq, List.nil_append]

/-- When the line feed arrives on an empty line, the response is written and
the loop is left. -/
theorem readByte_blank (assets : Assets) (lcd : Lcd) (stack : Mem) (st : Conn)
    (h : st.currentLine = []) :
    readByte assets lcd stack '\n'.toNat st
      = { st with client := respond assets lcd stack st.g.html_get_request st.client,
                  responded := true } := by
  have hlen : st.currentLine.length = 0 := by rw [h]; rfl
  simp only [readByte, if_true, if_pos hlen]

/-- C8: responder. When the line feed of the blank line that ends a request
is read, the loop is left and the bytes written to the client are, for each
known tag, the status line `HTTP/1.1 200 OK`, the content-type header of the
tag, an empty line, the body and a final CR LF, the body being the static
asset of the tag or, for screenshot, the BMP stream of the display; for any
other tag value they are the 404 response. -/
theorem responder_bytes (assets : Assets) (lcd : Lcd) (stack : Mem) (st : Conn)
    (hblank : st.currentLine = []) :
    (readByte assets lcd stack '\n'.toNat st).responded = true ∧
      (st.g.html_get_request = GET_index_page →
        (readByte assets lcd stack '\n'.toNat st).client
          = st.client ++ (ascii "HTTP/1.1 200 OK\r\n" ++ ascii "Content-type:text/html\r\n" ++
              ascii "\r\n" ++ assets.index_html ++ ascii "\r\n")) ∧
      (st.g.html_get_request = GET_favicon →
        (readByte assets lcd stack '\n'.toNat st).client
          = st.client ++ (ascii "HTTP/1.1 200 OK\r\n" ++ ascii "Content-type:image/x-icon\r\n" ++
              ascii "\r\n" ++ assets.electric_favicon ++ ascii "\r\n")) ∧
      (st.g.html_get_request = GET_logo →
        (readByte assets lcd stack '\n'.toNat st).client
          = st.client ++ (ascii "HTTP/1.1 200 OK\r\n" ++ ascii "Content-type:image/jpeg\r\n" ++
              ascii "\r\n" ++ assets.electric_logo ++ ascii "\r\n")) ∧
      (st.g.html_get_request = GET_refresh_img →
        (readByte assets lcd stack '\n'.toNat st).client
          = st.client ++ (ascii "HTTP/1.1 200 OK\r\n" ++ ascii "Content-type:image/png\r\n" ++
              ascii "\r\n" ++ assets.refresh_img ++ ascii "\r\n")) ∧
      (st.g.html_get_request = GET_button_img →
        (readByte assets lcd stack '\n'.toNat st).client
          = st.client ++ (ascii "HTTP/1.1 200 OK\r\n" ++ ascii "Content-type:image/png\r\n" ++
              ascii "\r\n" ++ assets.control_button_img ++ ascii "\r\n")) ∧
      (st.g.html_get_request = GET_screenshot →
        (readByte assets lcd stack '\n'.toNat st).client
          = st.client ++ (ascii "HTTP/1.1 200 OK\r\n" ++ ascii "Content-type:image/bmp\r\n" ++
              ascii "\r\n" ++ (M5Screen2bmp_client lcd stack []).2 ++ ascii "\r\n")) ∧
      (st.g.html_get_request ≠ GET_index_page →
        st.g.html_get_request ≠ GET_favicon →
        st.g.html_get_request ≠ GET_logo →
        st.g.html_get_request ≠ GET_refresh_img →
        st.g.html_get_request ≠ GET_button_img →
        st.g.html_get_request ≠ GET_screenshot →
        (readByte assets lcd stack '\n'.toNat st).client
          = st.client ++ ascii
              "HTTP/1.1 404 Not Found\r\nContent-type:text/html\r\n\r\n404 Page not found.<br>\r\n") := by
  rw [readByte_blank assets lcd stack st hblank]
  refine ⟨rfl, ?_, ?_, ?_, ?_, ?_, ?_, ?_⟩
  · intro h
    simp only [respond, h, if_true, if_false, println, write_P, List.append_assoc]
    rfl
  · intro h
    simp only [respond, h, (by decide : GET_favicon ≠ GET_index_page), if_true, if_false, println, write_P, List.append_assoc]
    rfl
  · intro h
    simp only [respond, h, (by decide : GET_logo ≠ GET_index_page), (by decide : GET_logo ≠ GET_favicon), if_true, if_false, println, write_P, List.append_assoc]
    rfl
  · intro h
    simp only [respond, h, (by decide : GET_refresh_img ≠ GET_index_page), (by decide : GET_refresh_img ≠ GET_favicon), (by decide : GET_refresh_img ≠ GET_logo), (by decide : GET_refresh_img ≠ GET_screenshot), if_true, if_false, println, write_P, List.append_assoc]
    rfl
  · intro h
    simp only [respond, h, (by decide : GET_button_img ≠ GET_index_page), (by decide : GET_button_img ≠ GET_favicon), (by decide : GET_button_img ≠ GET_logo), (by decide : GET_button_img ≠ GET_screenshot), (by decide : GET_button_img ≠ GET_refresh_img), if_true, if_false, println, write_P, List.append_assoc]
    rfl
  · intro h
    simp only [respond, h, (by decide : GET_screenshot ≠ GET_index_page), (by decide : GET_screenshot ≠ GET_favicon), (by decide : GET_screenshot ≠ GET_logo), if_true, if_false, println, write_P]
    rw [M5Screen2bmp_client_append]
    simp only [List.append_assoc]
    rfl
  · intro h1 h2 h3 h4 h5 h6
    simp only [respond, h1, h2, h3, h4, h5, h6, if_false, println, print, List.append_assoc]
    rfl

/-- Witness of C8: after `GET / HTTP/1.1` CR LF CR the line is empty and the
tag is index; the line feed then produces the 200 response with the index
asset, and so does the whole request read from a fresh connection. -/
theorem responder_bytes_witness :
    (clientLoop assets0 lcd2x2 stack0 (ascii "GET / HTTP/1.1\r\n\r") (Conn.fresh globals0)
        ).currentLine = [] ∧
      (readByte assets0 lcd2x2 stack0 '\n'.toNat
        (clientLoop assets0 lcd2x2 stack0 (ascii "GET / HTTP/1.1\r\n\r") (Conn.fresh globals0))
        ).client
        = ascii "HTTP/1.1 200 OK\r\nContent-type:text/html\r\n\r\n" ++ assets0.index_html ++
            ascii "\r\n" ∧
      (clientLoop assets0 lcd2x2 stack0 (ascii "GET / HTTP/1.1\r\n\r\n") (Conn.fresh globals0)
        ).client
        = ascii "HTTP/1.1 200 OK\r\nContent-type:text/html\r\n\r\n" ++ assets0.index_html ++
            ascii "\r\n" :=
  ⟨by decide,
   ((responder_bytes assets0 lcd2x2 stack0
      (clientLoop assets0 lcd2x2 stack0 (ascii "GET / HTTP/1.1\r\n\r") (Conn.fresh globals0))
      (by decide)).2.1 (by decide)),
   by decide⟩

/-- After the button blocks all three latches are clear. -/
theorem buttonPhase_flags (inp : LoopInput) (g : Globals) :
    (buttonPhase inp g).1.Control_A_pressed = false ∧
      (buttonPhase inp g).1.Control_B_pressed = false ∧
      (buttonPhase inp g).1.Control_C_pressed = false := by
  obtain ⟨t, nm, a, b, c, gv⟩ := g
  cases hA : inp.btnA <;> cases hB : inp.btnB <;> cases hC : inp.btnC <;>
    cases a <;> cases b <;> cases c <;>
    simp [buttonPhase, buttonA, buttonB, buttonC, hA, hB, hC]

/-- With no physical press and no latch set the button blocks do nothing. -/
theorem buttonPhase_idle (inp : LoopInput) (g : Globals)
    (hA : inp.btnA = false) (hB : inp.btnB = false) (hC : inp.btnC = false)
    (fA : g.Control_A_pressed = false) (fB : g.Control_B_pressed = false)
    (fC : g.Control_C_pressed = false) :
    buttonPhase inp g = (g, []) := by
  simp [buttonPhase, buttonA, buttonB, buttonC, hA, hB, hC, fA, fB, fC]

/-- The random movement block in closed form. -/
theorem randomTick_eq (inp : LoopInput) (s : Globals × List Effect) :
    randomTick inp s
      = if inp.current_millis > s.1.next_millis then
          ({ s.1 with gauge_val := clampGauge (s.1.gauge_val + ((inp.rnd.val : Int) - 5)),
                      next_millis := (inp.millisT + 1000) % 2 ^ 32 },
           s.2 ++ [Effect.draw_gauge (clampGauge (s.1.gauge_val + ((inp.rnd.val : Int) - 5))) 50])
        else s := by
  unfold randomTick
  by_cases h : inp.current_millis > s.1.next_millis
  · rw [if_pos h, if_pos h]
    by_cases h1 : s.1.gauge_val + ((inp.rnd.val : Int) - 5) < 0
    · have e : clampGauge (s.1.gauge_val + ((inp.rnd.val : Int) - 5)) = 0 := by
        rw [clampGauge, if_pos h1]
      simp [h1, e]
    · by_cases h2 : s.1.gauge_val + ((inp.rnd.val : Int) - 5) > 100
      · have e : clampGauge (s.1.gauge_val + ((inp.rnd.val : Int) - 5)) = 100 := by
          rw [clampGauge, if_neg h1, if_pos h2]
        simp [h1, h2, e]
      · have e : clampGauge (s.1.gauge_val + ((inp.rnd.val : Int) - 5))
            = s.1.gauge_val + ((inp.rnd.val : Int) - 5) := by
          rw [clampGauge, if_neg h1, if_neg h2]
        simp [h1, h2, e]
  · rw [if_neg h, if_neg h]

/-- The random movement block leaves the latches alone. -/
theorem randomTick_flags (inp : LoopInput) (s : Globals × List Effect) :
    (randomTick inp s).1.Control_A_pressed = s.1.Control_A_pressed ∧
      (randomTick inp s).1.Control_B_pressed = s.1.Control_B_pressed ∧
      (randomTick inp s).1.Control_C_pressed = s.1.Control_C_pressed := by
  rw [randomTick_eq]
  split_ifs <;> exact ⟨rfl, rfl, rfl⟩

/-- The random movement block dumps nothing to the SD card. -/
theorem randomTick_dumps (inp : LoopInput) (s : Globals × List Effect) (path : String) :
    dumpsTo path (randomTick inp s).2 = dumpsTo path s.2 := by
  rw [randomTick_eq]
  split_ifs
  · simp [dumpsTo]
  · rfl

/-- Channel A: a set latch gives one redraw at 0 and one dump to its file. -/
theorem buttonPhase_A (inp : LoopInput) (g : Globals) (h : g.Control_A_pressed = true) :
    redrawsAt 0 (buttonPhase inp g).2 = 1 ∧
      dumpsTo "/gauge_0.bmp" (buttonPhase inp g).2 = 1 := by
  obtain ⟨t, nm, a, b, c, gv⟩ := g
  simp only at h
  subst h
  cases hA : inp.btnA <;> cases hB : inp.btnB <;> cases hC : inp.btnC <;>
    cases b <;> cases c <;>
    simp [buttonPhase, buttonA, buttonB, buttonC, hA, hB, hC, redrawsAt, dumpsTo]

/-- Channel B: a set latch gives one redraw at 50 and one dump to its file. -/
theorem buttonPhase_B (inp : LoopInput) (g : Globals) (h : g.Control_B_pressed = true) :
    redrawsAt 50 (buttonPhase inp g).2 = 1 ∧
      dumpsTo "/gauge_50.bmp" (buttonPhase inp g).2 = 1 := by
  obtain ⟨t, nm, a, b, c, gv⟩ := g
  simp only at h
  subst h
  cases hA : inp.btnA <;> cases hB : inp.btnB <;> cases hC : inp.btnC <;>
    cases a <;> cases c <;>
    simp [buttonPhase, buttonA, buttonB, buttonC, hA, hB, hC, redrawsAt, dumpsTo]

/-- Channel C: a set latch gives one redraw at 100 and one dump to its file. -/
theorem buttonPhase_C (inp : LoopInput) (g : Globals) (h : g.Control_C_pressed = true) :
    redrawsAt 100 (buttonPhase inp g).2 = 1 ∧
      dumpsTo "/gauge_100.bmp" (buttonPhase inp g).2 = 1 := by
  obtain ⟨t, nm, a, b, c, gv⟩ := g
  simp only at h
  subst h
  cases hA : inp.btnA <;> cases hB : inp.btnB <;> cases hC : inp.btnC <;>
    cases a <;> cases b <;>
    simp [buttonPhase, buttonA, buttonB, buttonC, hA, hB, hC, redrawsAt, dumpsTo]

theorem startsWith_get (l : List Byte) (p : String) (hp : ascii "GET /" <+: ascii p)
    (h : ascii p <+: l) : startsWith l "GET /" = true :=
  (startsWith_iff l "GET /").mpr (List.IsPrefix.trans hp h)

/-- A line beginning with `GET /button-A` sets latch A, whatever it was. -/
theorem analyzeLine_A (l : List Byte) (g : Globals) (h : ascii "GET /button-A" <+: l) :
    (analyzeLine l g).Control_A_pressed = true := by
  have hget := startsWith_get l "GET /button-A" (by decide) h
  have hne : l ≠ [] := by
    intro e
    rw [e] at hget
    exact absurd hget (by decide)
  have key := ((readByte_tag assets0 lcd2x2 stack0
    { g := g, currentLine := l, client := [], responded := false } l rfl hget).2.2.2.2.2.2.1
    ((startsWith_iff l "GET /button-A").mpr h)).2
  rw [readByte_line _ _ _ _ hne] at key
  exact key

/-- A line beginning with `GET /button-B` sets latch B, whatever it was. -/
theorem analyzeLine_B (l : List Byte) (g : Globals) (h : ascii "GET /button-B" <+: l) :
    (analyzeLine l g).Control_B_pressed = true := by
  have hget := startsWith_get l "GET /button-B" (by decide) h
  have hne : l ≠ [] := by
    intro e
    rw [e] at hget
    exact absurd hget (by decide)
  have key := ((readByte_tag assets0 lcd2x2 stack0
    { g := g, currentLine := l, client := [], responded := false } l rfl hget).2.2.2.2.2.2.2.1
    ((startsWith_iff l "GET /button-B").mpr h)).2
  rw [readByte_line _ _ _ _ hne] at key
  exact key

/-- A line beginning with `GET /button-C` sets latch C, whatever it was. -/
theorem analyzeLine_C (l : List Byte) (g : Globals) (h : ascii "GET /button-C" <+: l) :
    (analyzeLine l g).Control_C_pressed = true := by
  have hget := startsWith_get l "GET /button-C" (by decide) h
  have hne : l ≠ [] := by
    intro e
    rw [e] at hget
    exact absurd hget (by decide)
  have key := ((readByte_tag assets0 lcd2x2 stack0
    { g := g, currentLine := l, client := [], responded := false } l rfl hget).2.2.2.2.2.2.2.2.1
    ((startsWith_iff l "GET /button-C").mpr h)).2
  rw [readByte_line _ _ _ _ hne] at key
  exact key

/-- The effects of a pass of `loop` are those of the button blocks and the
random movement block; with no client the globals are theirs too. -/
theorem loop_effects (assets : Assets) (inp : LoopInput) (g : Globals) :
    (loop assets inp g).2 = (randomTick inp (buttonPhase inp g)).2 ∧
      (inp.incoming = none → (loop assets inp g).1 = (randomTick inp (buttonPhase inp g)).1) := by
  refine ⟨rfl, fun h => ?_⟩
  simp only [loop, h, check_webserver]

/-- C9: control latch. For each channel, if its latch is set when a pass of
`loop` starts, the button blocks of that pass perform the channel action
exactly once: one gauge redraw at the set-point of the channel (0, 50, 100)
and one BMP dump to the file of the channel, which is also the only dump to
that file in the whole pass. After the button blocks all three latches are
clear, so a following pass with no physical press, after a pass that served
no client, performs no button action. Two request lines for the same button
before a pass leave the latch set once, hence give one action. -/
theorem control_latch (assets : Assets) (inp next : LoopInput) (g : Globals) :
    (g.Control_A_pressed = true →
        redrawsAt 0 (buttonPhase inp g).2 = 1 ∧
        dumpsTo "/gauge_0.bmp" (buttonPhase inp g).2 = 1 ∧
        dumpsTo "/gauge_0.bmp" (loop assets inp g).2 = 1) ∧
      (g.Control_B_pressed = true →
        redrawsAt 50 (buttonPhase inp g).2 = 1 ∧
        dumpsTo "/gauge_50.bmp" (buttonPhase inp g).2 = 1 ∧
        dumpsTo "/gauge_50.bmp" (loop assets inp g).2 = 1) ∧
      (g.Control_C_pressed = true →
        redrawsAt 100 (buttonPhase inp g).2 = 1 ∧
        dumpsTo "/gauge_100.bmp" (buttonPhase inp g).2 = 1 ∧
        dumpsTo "/gauge_100.bmp" (loop assets inp g).2 = 1) ∧
      ((buttonPhase inp g).1.Control_A_pressed = false ∧
        (buttonPhase inp g).1.Control_B_pressed = false ∧
        (buttonPhase inp g).1.Control_C_pressed = false) ∧
      (inp.incoming = none → next.btnA = false → next.btnB = false → next.btnC = false →
        buttonPhase next (loop assets inp g).1 = ((loop assets inp g).1, [])) ∧
      (∀ l1 l2 : List Byte, ascii "GET /button-A" <+: l1 → ascii "GET /button-A" <+: l2 →
        (analyzeLine l2 (analyzeLine l1 g)).Control_A_pressed = true ∧
        redrawsAt 0 (buttonPhase inp (analyzeLine l2 (analyzeLine l1 g))).2 = 1 ∧
        dumpsTo "/gauge_0.bmp" (buttonPhase inp (analyzeLine l2 (analyzeLine l1 g))).2 = 1) ∧
      (∀ l1 l2 : List Byte, ascii "GET /button-B" <+: l1 → ascii "GET /button-B" <+: l2 →
        (analyzeLine l2 (analyzeLine l1 g)).Control_B_pressed = true ∧
        redrawsAt 50 (buttonPhase inp (analyzeLine l2 (analyzeLine l1 g))).2 = 1 ∧
        dumpsTo "/gauge_50.bmp" (buttonPhase inp (analyzeLine l2 (analyzeLine l1 g))).2 = 1) ∧
      (∀ l1 l2 : List Byte, ascii "GET /button-C" <+: l1 → ascii "GET /button-C" <+: l2 →
        (analyzeLine l2 (analyzeLine l1 g)).Control_C_pressed = true ∧
        redrawsAt 100 (buttonPhase inp (analyzeLine l2 (analyzeLine l1 g))).2 = 1 ∧
        dumpsTo "/gauge_100.bmp" (buttonPhase inp (analyzeLine l2 (analyzeLine l1 g))).2 = 1) := by
  have hl := (loop_effects assets inp g).1
  refine ⟨?_, ?_, ?_, buttonPhase_flags inp g, ?_, ?_, ?_, ?_⟩
  · intro h
    refine ⟨(buttonPhase_A inp g h).1, (buttonPhase_A inp g h).2, ?_⟩
    rw [hl, randomTick_dumps]
    exact (buttonPhase_A inp g h).2
  · intro h
    refine ⟨(buttonPhase_B inp g h).1, (buttonPhase_B inp g h).2, ?_⟩
    rw [hl, randomTick_dumps]
    exact (buttonPhase_B inp g h).2
  · intro h
    refine ⟨(buttonPhase_C inp g h).1, (buttonPhase_C inp g h).2, ?_⟩
    rw [hl, randomTick_dumps]
    exact (buttonPhase_C inp g h).2
  · intro hnone hA hB hC
    have hg := (loop_effects assets inp g).2 hnone
    obtain ⟨fA, fB, fC⟩ := buttonPhase_flags inp g
    obtain ⟨tA, tB, tC⟩ := randomTick_flags inp (buttonPhase inp g)
    apply buttonPhase_idle next _ hA hB hC
    · rw [hg, tA, fA]
    · rw [hg, tB, fB]
    · rw [hg, tC, fC]
  · intro l1 l2 _ h2
    have hset := analyzeLine_A l2 (analyzeLine l1 g) h2
    exact ⟨hset, buttonPhase_A inp _ hset⟩
  · intro l1 l2 _ h2
    have hset := analyzeLine_B l2 (analyzeLine l1 g) h2
    exact ⟨hset, buttonPhase_B inp _ hset⟩
  · intro l1 l2 _ h2
    have hset := analyzeLine_C l2 (analyzeLine l1 g) h2
    exact ⟨hset, buttonPhase_C inp _ hset⟩

/-- Witness of C9: the request `GET /button-A HTTP/1.0` sets latch A; the
next pass of `loop`, with no physical press, redraws the gauge at 0 once and
dumps `/gauge_0.bmp` once, and the pass after that does nothing in its button
blocks. -/
theorem control_latch_witness :
    (check_webserver assets0 lcd2x2 stack0 (some (ascii "GET /button-A HTTP/1.0\r\n\r\n"))
        (setup 0)).1.Control_A_pressed = true ∧
      (redrawsAt 0 (buttonPhase idleInput
          (check_webserver assets0 lcd2x2 stack0
            (some (ascii "GET /button-A HTTP/1.0\r\n\r\n")) (setup 0)).1).2 = 1 ∧
        dumpsTo "/gauge_0.bmp" (buttonPhase idleInput
          (check_webserver assets0 lcd2x2 stack0
            (some (ascii "GET /button-A HTTP/1.0\r\n\r\n")) (setup 0)).1).2 = 1 ∧
        dumpsTo "/gauge_0.bmp" (loop assets0 idleInput
          (check_webserver assets0 lcd2x2 stack0
            (some (ascii "GET /button-A HTTP/1.0\r\n\r\n")) (setup 0)).1).2 = 1) ∧
      (loop assets0 idleInput
          (check_webserver assets0 lcd2x2 stack0
            (some (ascii "GET /button-A HTTP/1.0\r\n\r\n")) (setup 0)).1).2
        = [Effect.draw_gauge 0 50, Effect.M5Screen2bmp "/gauge_0.bmp" true] ∧
      buttonPhase idleInput (loop assets0 idleInput
          (check_webserver assets0 lcd2x2 stack0
            (some (ascii "GET /button-A HTTP/1.0\r\n\r\n")) (setup 0)).1).1
        = ((loop assets0 idleInput
          (check_webserver assets0 lcd2x2 stack0
            (some (ascii "GET /button-A HTTP/1.0\r\n\r\n")) (setup 0)).1).1, []) :=
  ⟨by decide,
   (control_latch assets0 idleInput idleInput
      (check_webserver assets0 lcd2x2 stack0
        (some (ascii "GET /button-A HTTP/1.0\r\n\r\n")) (setup 0)).1).1 (by decide),
   by decide,
   (control_latch assets0 idleInput idleInput
      (check_webserver assets0 lcd2x2 stack0
        (some (ascii "GET /button-A HTTP/1.0\r\n\r\n")) (setup 0)).1).2.2.2.2.1
      rfl rfl rfl rfl⟩

/-- One conditional assignment of a tag, possibly with a latch, keeps the
gauge value and the timer. -/
theorem step_frame (c : Bool) (g h : Globals)
    (hg : h.gauge_val = g.gauge_val) (hn : h.next_millis = g.next_millis) :
    (if c = true then h else g).gauge_val = g.gauge_val ∧
      (if c = true then h else g).next_millis = g.next_millis := by
  cases c
  · exact ⟨rfl, rfl⟩
  · exact ⟨hg, hn⟩

/-- The analysis of a request line never touches the gauge value or the
timer. -/
theorem analyzeLine_frame (l : List Byte) (g : Globals) :
    (analyzeLine l g).gauge_val = g.gauge_val ∧
      (analyzeLine l g).next_millis = g.next_millis := by
  unfold analyzeLine
  lift_lets
  intro g0 g1 g2 g3 g4 g5 g6 g7 g8 g9
  have e0 : g0.gauge_val = g.gauge_val ∧ g0.next_millis = g.next_millis := ⟨rfl, rfl⟩
  have e1 : g1.gauge_val = g0.gauge_val ∧ g1.next_millis = g0.next_millis :=
    step_frame _ g0 _ rfl rfl
  have e2 : g2.gauge_val = g1.gauge_val ∧ g2.next_millis = g1.next_millis :=
    step_frame _ g1 _ rfl rfl
  have e3 : g3.gauge_val = g2.gauge_val ∧ g3.next_millis = g2.next_millis :=
    step_frame _ g2 _ rfl rfl
  have e4 : g4.gauge_val = g3.gauge_val ∧ g4.next_millis = g3.next_millis :=
    step_frame _ g3 _ rfl rfl
  have e5 : g5.gauge_val = g4.gauge_val ∧ g5.next_millis = g4.next_millis :=
    step_frame _ g4 _ rfl rfl
  have e6 : g6.gauge_val = g5.gauge_val ∧ g6.next_millis = g5.next_millis :=
    step_frame _ g5 _ rfl rfl
  have e7 : g7.gauge_val = g6.gauge_val ∧ g7.next_millis = g6.next_millis :=
    step_frame _ g6 _ rfl rfl
  have e8 : g8.gauge_val = g7.gauge_val ∧ g8.next_millis = g7.next_millis :=
    step_frame _ g7 _ rfl rfl
  have e9 : g9.gauge_val = g8.gauge_val ∧ g9.next_millis = g8.next_millis :=
    step_frame _ g8 _ rfl rfl
  have all : g9.gauge_val = g.gauge_val ∧ g9.next_millis = g.next_millis :=
    ⟨by rw [e9.1, e8.1, e7.1, e6.1, e5.1, e4.1, e3.1, e2.1, e1.1, e0.1],
     by rw [e9.2, e8.2, e7.2, e6.2, e5.2, e4.2, e3.2, e2.2, e1.2, e0.2]⟩
  split_ifs
  · exact all
  · exact ⟨rfl, rfl⟩

/-- Reading one byte never touches the gauge value or the timer. -/
theorem readByte_frame (assets : Assets) (lcd : Lcd) (stack : Mem) (c : Byte) (st : Conn) :
    (readByte assets lcd stack c st).g.gauge_val = st.g.gauge_val ∧
      (readByte assets lcd stack c st).g.next_millis = st.g.next_millis := by
  unfold readByte
  split_ifs
  · exact ⟨rfl, rfl⟩
  · exact analyzeLine_frame st.currentLine st.g
  · exact ⟨rfl, rfl⟩
  · exact ⟨rfl, rfl⟩

/-- Serving a client never touches the gauge value or the timer. -/
theorem clientLoop_frame (assets : Assets) (lcd : Lcd) (stack : Mem) (bytes : List Byte)
    (st : Conn) :
    (clientLoop assets lcd stack bytes st).g.gauge_val = st.g.gauge_val ∧
      (clientLoop assets lcd stack bytes st).g.next_millis = st.g.next_millis := by
  induction bytes generalizing st with
  | nil => exact ⟨rfl, rfl⟩
  | cons c cs ih =>
    simp only [clientLoop]
    split_ifs
    · exact readByte_frame assets lcd stack c st
    · obtain ⟨a1, a2⟩ := ih (readByte assets lcd stack c st)
      obtain ⟨b1, b2⟩ := readByte_frame assets lcd stack c st
      exact ⟨a1.trans b1, a2.trans b2⟩

/-- The web server never touches the gauge value or the timer. -/
theorem check_webserver_frame (assets : Assets) (lcd : Lcd) (stack : Mem)
    (incoming : Option (List Byte)) (g : Globals) :
    (check_webserver assets lcd stack incoming g).1.gauge_val = g.gauge_val ∧
      (check_webserver assets lcd stack incoming g).1.next_millis = g.next_millis := by
  cases incoming with
  | none => exact ⟨rfl, rfl⟩
  | some bytes =>
    simp only [check_webserver]
    exact clientLoop_frame assets lcd stack bytes _

theorem clampGauge_range (v : Int) : 0 ≤ clampGauge v ∧ clampGauge v ≤ 100 := by
  unfold clampGauge
  split_ifs <;> omega

/-- Each button block keeps the gauge value and the redraws in range. -/
theorem buttonA_range (inp : LoopInput) (s : Globals × List Effect)
    (hg : 0 ≤ s.1.gauge_val ∧ s.1.gauge_val ≤ 100) (ht : DrawsInRange s.2) :
    (0 ≤ (buttonA inp s).1.gauge_val ∧ (buttonA inp s).1.gauge_val ≤ 100) ∧
      DrawsInRange (buttonA inp s).2 := by
  unfold buttonA
  split_ifs
  · refine ⟨by simp, ?_⟩
    intro v1 v2 hmem
    simp only [List.mem_append, List.mem_singleton] at hmem
    rcases hmem with (h | h) | h
    · exact ht v1 v2 h
    · injection h with h1 h2
      subst h1
      simp
    · exact absurd h (by simp)
  · exact ⟨hg, ht⟩

theorem buttonB_range (inp : LoopInput) (s : Globals × List Effect)
    (hg : 0 ≤ s.1.gauge_val ∧ s.1.gauge_val ≤ 100) (ht : DrawsInRange s.2) :
    (0 ≤ (buttonB inp s).1.gauge_val ∧ (buttonB inp s).1.gauge_val ≤ 100) ∧
      DrawsInRange (buttonB inp s).2 := by
  unfold buttonB
  split_ifs
  · refine ⟨by simp, ?_⟩
    intro v1 v2 hmem
    simp only [List.mem_append, List.mem_singleton] at hmem
    rcases hmem with (h | h) | h
    · exact ht v1 v2 h
    · injection h with h1 h2
      subst h1
      simp
    · exact absurd h (by simp)
  · exact ⟨hg, ht⟩

theorem buttonC_range (inp : LoopInput) (s : Globals × List Effect)
    (hg : 0 ≤ s.1.gauge_val ∧ s.1.gauge_val ≤ 100) (ht : DrawsInRange s.2) :
    (0 ≤ (buttonC inp s).1.gauge_val ∧ (buttonC inp s).1.gauge_val ≤ 100) ∧
      DrawsInRange (buttonC inp s).2 := by
  unfold buttonC
  split_ifs
  · refine ⟨by simp, ?_⟩
    intro v1 v2 hmem
    simp only [List.mem_append, List.mem_singleton] at hmem
    rcases hmem with (h | h) | h
    · exact ht v1 v2 h
    · injection h with h1 h2
      subst h1
      simp
    · exact absurd h (by simp)
  · exact ⟨hg, ht⟩

/-- The random movement block keeps the gauge value and the redraws in range. -/
theorem randomTick_range (inp : LoopInput) (s : Globals × List Effect)
    (hg : 0 ≤ s.1.gauge_val ∧ s.1.gauge_val ≤ 100) (ht : DrawsInRange s.2) :
    (0 ≤ (randomTick inp s).1.gauge_val ∧ (randomTick inp s).1.gauge_val ≤ 100) ∧
      DrawsInRange (randomTick inp s).2 := by
  rw [randomTick_eq]
  split_ifs
  · refine ⟨clampGauge_range _, ?_⟩
    intro v1 v2 hmem
    simp only [List.mem_append, List.mem_singleton] at hmem
    rcases hmem with h | h
    · exact ht v1 v2 h
    · injection h with h1 h2
      rw [h1]
      exact clampGauge_range _
  · exact ⟨hg, ht⟩

/-- One pass of `loop` started in range ends in range, with redraws in range. -/
theorem loop_range (assets : Assets) (inp : LoopInput) (g : Globals)
    (hg : 0 ≤ g.gauge_val ∧ g.gauge_val ≤ 100) :
    (0 ≤ (loop assets inp g).1.gauge_val ∧ (loop assets inp g).1.gauge_val ≤ 100) ∧
      DrawsInRange (loop assets inp g).2 := by
  have hnil : DrawsInRange ([] : List Effect) := fun v1 v2 h => absurd h (by simp)
  obtain ⟨a1, a2⟩ := buttonA_range inp (g, []) hg hnil
  obtain ⟨b1, b2⟩ := buttonB_range inp _ a1 a2
  obtain ⟨c1, c2⟩ := buttonC_range inp _ b1 b2
  obtain ⟨d1, d2⟩ := randomTick_range inp _ c1 c2
  refine ⟨?_, d2⟩
  have hw := (check_webserver_frame assets inp.lcd inp.stack inp.incoming
    (randomTick inp (buttonPhase inp g)).1).1
  simp only [loop]
  rw [hw]
  exact d1

/-- Any number of passes started in range end in range, with redraws in range. -/
theorem run_range (assets : Assets) (inputs : List LoopInput) (g : Globals)
    (hg : 0 ≤ g.gauge_val ∧ g.gauge_val ≤ 100) :
    (0 ≤ (run assets inputs g).1.gauge_val ∧ (run assets inputs g).1.gauge_val ≤ 100) ∧
      DrawsInRange (run assets inputs g).2 := by
  induction inputs generalizing g with
  | nil => exact ⟨hg, fun v1 v2 h => absurd h (by simp [run])⟩
  | cons inp rest ih =>
    obtain ⟨l1, l2⟩ := loop_range assets inp g hg
    obtain ⟨r1, r2⟩ := ih (loop assets inp g).1 l1
    refine ⟨r1, ?_⟩
    intro v1 v2 hmem
    simp only [run, List.mem_append] at hmem
    rcases hmem with h | h
    · exact l2 v1 v2 h
    · exact r2 v1 v2 h

/-- C10: gauge range invariant. Starting from the globals that `setup` leaves
(`gauge_val = 50`), after any number of passes of `loop`, with any button
presses, any requests and any random values, `gauge_val` lies between 0 and
100, and every `draw_gauge` call made by the loop received a first argument
between 0 and 100, so that its red arrow was drawn. As this holds for every
sequence of passes, it holds at the end of each pass. -/
theorem gauge_range_invariant (assets : Assets) (millis0 : Nat) (inputs : List LoopInput) :
    (setup millis0).gauge_val = 50 ∧
      0 ≤ (run assets inputs (setup millis0)).1.gauge_val ∧
      (run assets inputs (setup millis0)).1.gauge_val ≤ 100 ∧
      ∀ v1 v2 : Int, Effect.draw_gauge v1 v2 ∈ (run assets inputs (setup millis0)).2 →
        0 ≤ v1 ∧ v1 ≤ 100 ∧ redArrowDrawn v1 = true := by
  have h0 : 0 ≤ (setup millis0).gauge_val ∧ (setup millis0).gauge_val ≤ 100 := by
    simp [setup]
  obtain ⟨⟨r1, r2⟩, r3⟩ := run_range assets inputs (setup millis0) h0
  refine ⟨rfl, r1, r2, ?_⟩
  intro v1 v2 hmem
  obtain ⟨a, b⟩ := r3 v1 v2 hmem
  refine ⟨a, b, ?_⟩
  simp [redArrowDrawn, a, b]

/-- Witness of C10: after a press of the right button and a random movement
of +2 the gauge value is clamped to 100, and both redraws were at 100. -/
theorem gauge_range_invariant_witness :
    (run assets0 [pressC, tickInput] (setup 0)).1.gauge_val = 100 ∧
      (run assets0 [pressC, tickInput] (setup 0)).2
        = [Effect.draw_gauge 100 50, Effect.M5Screen2bmp "/gauge_100.bmp" false,
           Effect.draw_gauge 100 50] ∧
      (0 ≤ (100 : Int) ∧ (100 : Int) ≤ 100 ∧ redArrowDrawn 100 = true) :=
  ⟨by decide, by decide,
   (gauge_range_invariant assets0 0 [pressC, tickInput]).2.2.2 100 50 (by decide)⟩

/-! Error handling of the encoders. -/

/-! Error handling of the encoders. -/

theorem writeBytes_calls (w : World) (data : List Byte) :
    (w.writeBytes data).1.lcd = w.lcd ∧ (w.writeBytes data).1.reads = w.reads ∧
      (w.writeBytes data).1.fails = w.fails ∧
      (w.writeBytes data).1.writes = w.writes ++ [data] := by
  unfold World.writeBytes
  split_ifs <;> exact ⟨rfl, rfl, rfl, rfl⟩

theorem bmpRowStepIo_calls (W pad y : Nat) (st : Mem × World) :
    (bmpRowStepIo W pad y st).2.lcd = st.2.lcd ∧
      (bmpRowStepIo W pad y st).2.reads = st.2.reads ++ [y - 1] ∧
      (bmpRowStepIo W pad y st).2.fails = st.2.fails ∧
      (bmpRowStepIo W pad y st).2.writes.length = st.2.writes.length + 1 := by
  obtain ⟨h1, h2, h3, h4⟩ := writeBytes_calls (st.2.readRectRGB 0 (y - 1) W 1 st.1).1
    ((List.range (W * 3 + pad)).map (bmpRowStepIo W pad y st).1)
  refine ⟨h1, h2, h3, ?_⟩
  have h4b : (bmpRowStepIo W pad y st).2.writes = st.2.writes ++ [_] := h4
  rw [h4b, List.length_append]
  rfl

theorem ppmRowStepIo_calls (W y : Nat) (st : Mem × World) :
    (ppmRowStepIo W y st).2.lcd = st.2.lcd ∧
      (ppmRowStepIo W y st).2.reads = st.2.reads ++ [y] ∧
      (ppmRowStepIo W y st).2.fails = st.2.fails ∧
      (ppmRowStepIo W y st).2.writes.length = st.2.writes.length + 1 := by
  obtain ⟨h1, h2, h3, h4⟩ := writeBytes_calls (st.2.readRectRGB 0 y W 1 st.1).1
    ((List.range (W * 3)).map (ppmRowStepIo W y st).1)
  refine ⟨h1, h2, h3, ?_⟩
  have h4b : (ppmRowStepIo W y st).2.writes = st.2.writes ++ [_] := h4
  rw [h4b, List.length_append]
  rfl

/-- The row loop of the BMP emitters issues one write per row, whatever fails. -/
theorem bmpRowLoopIo_count (W pad n : Nat) (st : Mem × World) :
    (downLoop n (bmpRowStepIo W pad) st).2.writes.length = st.2.writes.length + n ∧
      (downLoop n (bmpRowStepIo W pad) st).2.reads.length = st.2.reads.length + n := by
  induction n generalizing st with
  | zero => exact ⟨rfl, rfl⟩
  | succ n ih =>
    obtain ⟨_, h2, _, h4⟩ := bmpRowStepIo_calls W pad (n + 1) st
    obtain ⟨i1, i2⟩ := ih (bmpRowStepIo W pad (n + 1) st)
    simp only [downLoop]
    rw [i1, i2, h4, h2, List.length_append, List.length_singleton]
    exact ⟨by omega, by omega⟩

/-- The row loop of the PPM writer issues one write per row, whatever fails. -/
theorem ppmRowLoopIo_count (W n : Nat) (st : Mem × World) :
    (forLoop n (ppmRowStepIo W) st).2.writes.length = st.2.writes.length + n ∧
      (forLoop n (ppmRowStepIo W) st).2.reads.length = st.2.reads.length + n := by
  induction n with
  | zero => exact ⟨rfl, rfl⟩
  | succ n ih =>
    obtain ⟨_, h2, _, h4⟩ := ppmRowStepIo_calls W n (forLoop n (ppmRowStepIo W) st)
    simp only [forLoop]
    rw [h4, h2, List.length_append, List.length_singleton, ih.1, ih.2]
    exact ⟨by omega, by omega⟩

theorem writeBytes_same (a b : World) (data : List Byte) (h : SameCalls a b) :
    SameCalls (a.writeBytes data).1 (b.writeBytes data).1 := by
  obtain ⟨l, r, wr⟩ := h
  obtain ⟨a1, a2, _, a4⟩ := writeBytes_calls a data
  obtain ⟨b1, b2, _, b4⟩ := writeBytes_calls b data
  exact ⟨a1.trans (l.trans b1.symm), a2.trans (r.trans b2.symm),
    a4.trans ((congrArg (fun x => x ++ [data]) wr).trans b4.symm)⟩

theorem bmpRowStepIo_same (W pad y : Nat) (a b : Mem × World) (hd : a.1 = b.1)
    (hs : SameCalls a.2 b.2) :
    (bmpRowStepIo W pad y a).1 = (bmpRowStepIo W pad y b).1 ∧
      SameCalls (bmpRowStepIo W pad y a).2 (bmpRowStepIo W pad y b).2 := by
  obtain ⟨l, r, wr⟩ := hs
  have hbuf : (bmpRowStepIo W pad y a).1 = (bmpRowStepIo W pad y b).1 := by
    simp only [bmpRowStepIo, World.readRectRGB, hd, l]
  obtain ⟨a1, a2, _, a4⟩ := writeBytes_calls (a.2.readRectRGB 0 (y - 1) W 1 a.1).1
    ((List.range (W * 3 + pad)).map (bmpRowStepIo W pad y a).1)
  obtain ⟨b1, b2, _, b4⟩ := writeBytes_calls (b.2.readRectRGB 0 (y - 1) W 1 b.1).1
    ((List.range (W * 3 + pad)).map (bmpRowStepIo W pad y b).1)
  refine ⟨hbuf, ?_, ?_, ?_⟩
  · exact a1.trans (l.trans b1.symm)
  · refine a2.trans (Eq.trans ?_ b2.symm)
    simp only [World.readRectRGB, r]
  · refine a4.trans (Eq.trans ?_ b4.symm)
    simp only [World.readRectRGB, wr, hbuf]

theorem ppmRowStepIo_same (W y : Nat) (a b : Mem × World) (hd : a.1 = b.1)
    (hs : SameCalls a.2 b.2) :
    (ppmRowStepIo W y a).1 = (ppmRowStepIo W y b).1 ∧
      SameCalls (ppmRowStepIo W y a).2 (ppmRowStepIo W y b).2 := by
  obtain ⟨l, r, wr⟩ := hs
  have hbuf : (ppmRowStepIo W y a).1 = (ppmRowStepIo W y b).1 := by
    simp only [ppmRowStepIo, World.readRectRGB, hd, l]
  obtain ⟨a1, a2, _, a4⟩ := writeBytes_calls (a.2.readRectRGB 0 y W 1 a.1).1
    ((List.range (W * 3)).map (ppmRowStepIo W y a).1)
  obtain ⟨b1, b2, _, b4⟩ := writeBytes_calls (b.2.readRectRGB 0 y W 1 b.1).1
    ((List.range (W * 3)).map (ppmRowStepIo W y b).1)
  refine ⟨hbuf, ?_, ?_, ?_⟩
  · exact a1.trans (l.trans b1.symm)
  · refine a2.trans (Eq.trans ?_ b2.symm)
    simp only [World.readRectRGB, r]
  · refine a4.trans (Eq.trans ?_ b4.symm)
    simp only [World.readRectRGB, wr, hbuf]

/-- The calls of the BMP row loop do not depend on which calls fail. -/
theorem bmpRowLoopIo_same (W pad n : Nat) (a b : Mem × World) (hd : a.1 = b.1)
    (hs : SameCalls a.2 b.2) :
    SameCalls (downLoop n (bmpRowStepIo W pad) a).2 (downLoop n (bmpRowStepIo W pad) b).2 := by
  induction n generalizing a b with
  | zero => exact hs
  | succ n ih =>
    obtain ⟨h1, h2⟩ := bmpRowStepIo_same W pad (n + 1) a b hd hs
    simp only [downLoop]
    exact ih _ _ h1 h2

/-- The calls of the PPM row loop do not depend on which calls fail. -/
theorem ppmRowLoopIo_same (W n : Nat) (a b : Mem × World) (hd : a.1 = b.1)
    (hs : SameCalls a.2 b.2) :
    (forLoop n (ppmRowStepIo W) a).1 = (forLoop n (ppmRowStepIo W) b).1 ∧
      SameCalls (forLoop n (ppmRowStepIo W) a).2 (forLoop n (ppmRowStepIo W) b).2 := by
  induction n with
  | zero => exact ⟨hd, hs⟩
  | succ n ih =>
    simp only [forLoop]
    exact ppmRowStepIo_same W n _ _ ih.1 ih.2

theorem M5Screen2bmp_client_io_unfold (stack : Mem) (w : World) :
    M5Screen2bmp_client_io stack w
      = (true, (downLoop w.lcd.height
          (bmpRowStepIo w.lcd.width ((4 - (3 * w.lcd.width) % 4) % 4))
          (forLoop (w.lcd.width * 3 + (4 - (3 * w.lcd.width) % 4) % 4 - (w.lcd.width - 1) * 3)
            (fun k (d : Mem) => d.set ((w.lcd.width - 1) * 3 + k) 0) stack,
           (w.write (forLoop 4 (fun i (h : Mem) =>
              ((h.set (2 + i) ((((54 + (3 * w.lcd.width + (4 - (3 * w.lcd.width) % 4) % 4)
                  * w.lcd.height) % 2 ^ 32) >>> (8 * i)) &&& 255)).set
                (18 + i) ((w.lcd.width >>> (8 * i)) &&& 255)).set
                (22 + i) ((w.lcd.height >>> (8 * i)) &&& 255)) (Mem.ofList bmpHeaderInit))
              54).1)).2) := rfl

theorem M5Screen2bmp_fs_io_unfold (stack : Mem) (w : World) :
    M5Screen2bmp_fs_io true stack w
      = M5Screen2bmp_client_io stack { w with stored := [] } := rfl

theorem M5Screen2ppm_io_unfold (stack : Mem) (w : World) :
    M5Screen2ppm_io true stack w
      = (true, (forLoop w.lcd.height (ppmRowStepIo w.lcd.width)
          (stack, ({ w with stored := [] }.writeBytes (ascii "P6\n" ++ decimal w.lcd.width ++
            ascii " " ++ decimal w.lcd.height ++ ascii "\n255\n")).1)).2) := rfl

theorem writeBytes_stored (w : World) (data : List Byte) (hf : ∀ k, w.fails k = false) :
    (w.writeBytes data).1.stored = w.stored ++ data := by
  unfold World.writeBytes
  rw [if_neg (by rw [hf]; exact Bool.false_ne_true)]

/-- On a sink that never fails the row loop in a world stores what the row
loop of `M5Screen2bmp_client` appends. -/
theorem bmpRowLoopIo_stored (lcd : Lcd) (pad n : Nat) (st : Mem × World)
    (hl : st.2.lcd = lcd) (hf : ∀ k, st.2.fails k = false) :
    (downLoop n (bmpRowStepIo lcd.width pad) st).2.stored
      = (downLoop n (fun y (p : Mem × List Byte) =>
          (forLoop lcd.width (fun x (d : Mem) =>
              (d.set (x * 3) (d (x * 3 + 2))).set (x * 3 + 2) (d (x * 3)))
            (readRectRGB lcd 0 (y - 1) lcd.width 1 p.1),
           write p.2 (forLoop lcd.width (fun x (d : Mem) =>
              (d.set (x * 3) (d (x * 3 + 2))).set (x * 3 + 2) (d (x * 3)))
            (readRectRGB lcd 0 (y - 1) lcd.width 1 p.1)) (lcd.width * 3 + pad)))
          (st.1, st.2.stored)).2 := by
  induction n generalizing st with
  | zero => rfl
  | succ n ih =>
    obtain ⟨c1, _, c3, _⟩ := bmpRowStepIo_calls lcd.width pad (n + 1) st
    have hbuf : (bmpRowStepIo lcd.width pad (n + 1) st).1
        = forLoop lcd.width (fun x (d : Mem) =>
              (d.set (x * 3) (d (x * 3 + 2))).set (x * 3 + 2) (d (x * 3)))
            (readRectRGB lcd 0 (n + 1 - 1) lcd.width 1 st.1) := by
      simp only [bmpRowStepIo, World.readRectRGB, hl]
    have hst : (bmpRowStepIo lcd.width pad (n + 1) st).2.stored
        = write st.2.stored (bmpRowStepIo lcd.width pad (n + 1) st).1 (lcd.width * 3 + pad) :=
      writeBytes_stored (st.2.readRectRGB 0 (n + 1 - 1) lcd.width 1 st.1).1 _ hf
    simp only [downLoop]
    rw [ih _ (c1.trans hl) (fun k => by rw [c3]; exact hf k), hst, hbuf]

/-- On a sink that never fails the network emitter in a world stores exactly
the bytes that `M5Screen2bmp_client` appends to the client. -/
theorem M5Screen2bmp_client_io_stored (stack : Mem) (w : World)
    (hf : ∀ k, w.fails k = false) :
    (M5Screen2bmp_client_io stack w).2.stored = (M5Screen2bmp_client w.lcd stack w.stored).2 := by
  rw [M5Screen2bmp_client_io_unfold]
  obtain ⟨c1, _, c3, _⟩ := writeBytes_calls w ((List.range 54).map
    (forLoop 4 (fun i (h : Mem) =>
      ((h.set (2 + i) ((((54 + (3 * w.lcd.width + (4 - (3 * w.lcd.width) % 4) % 4)
          * w.lcd.height) % 2 ^ 32) >>> (8 * i)) &&& 255)).set
        (18 + i) ((w.lcd.width >>> (8 * i)) &&& 255)).set
        (22 + i) ((w.lcd.height >>> (8 * i)) &&& 255)) (Mem.ofList bmpHeaderInit)))
  rw [bmpRowLoopIo_stored w.lcd _ _ _ c1 (fun k => by
    show (World.writeBytes _ _).1.fails k = false
    rw [c3]; exact hf k)]
  simp only [M5Screen2bmp_client]
  congr 3
  exact writeBytes_stored w _ hf

/-- C11 as amended: the encoders never look at the result of an output call.
Whichever calls fail, the BMP emitters issue the header write and then one
write per display row (`1 + H` calls), the PPM writer the header and one
write per row, always with the data they would hand to a sink on which other
calls fail or none does. -/
theorem encoder_ignores_write_failures (stack : Mem) (w : World) (fails2 : Nat → Bool) :
    ((M5Screen2bmp_client_io stack w).2.writes.length = w.writes.length + (1 + w.lcd.height) ∧
      (M5Screen2bmp_client_io stack w).2.writes
        = (M5Screen2bmp_client_io stack { w with fails := fails2 }).2.writes) ∧
    ((M5Screen2bmp_fs_io true stack w).2.writes.length = w.writes.length + (1 + w.lcd.height) ∧
      (M5Screen2bmp_fs_io true stack w).2.writes
        = (M5Screen2bmp_fs_io true stack { w with fails := fails2 }).2.writes) ∧
    ((M5Screen2ppm_io true stack w).2.writes.length = w.writes.length + (1 + w.lcd.height) ∧
      (M5Screen2ppm_io true stack w).2.writes
        = (M5Screen2ppm_io true stack { w with fails := fails2 }).2.writes) := by
  have bmp : ∀ v : World,
      (M5Screen2bmp_client_io stack v).2.writes.length = v.writes.length + (1 + v.lcd.height) ∧
      (M5Screen2bmp_client_io stack v).2.writes
        = (M5Screen2bmp_client_io stack { v with fails := fails2 }).2.writes := by
    intro v
    refine ⟨?_, ?_⟩
    · rw [M5Screen2bmp_client_io_unfold]
      rw [(bmpRowLoopIo_count _ _ _ _).1]
      show (World.writeBytes _ _).1.writes.length + _ = _
      rw [(writeBytes_calls _ _).2.2.2, List.length_append, List.length_singleton]
      omega
    · rw [M5Screen2bmp_client_io_unfold, M5Screen2bmp_client_io_unfold]
      have key : ∀ (W pad n : Nat) (d : Mem) (wa wb : World), SameCalls wa wb →
          (downLoop n (bmpRowStepIo W pad) (d, wa)).2.writes
            = (downLoop n (bmpRowStepIo W pad) (d, wb)).2.writes :=
        fun W pad n d wa wb hs => (bmpRowLoopIo_same W pad n (d, wa) (d, wb) rfl hs).2.2
      refine key _ _ _ _ _ _ ?_
      exact writeBytes_same _ _ _ ⟨rfl, rfl, rfl⟩
  refine ⟨bmp w, ?_, ?_, ?_⟩
  · rw [M5Screen2bmp_fs_io_unfold, M5Screen2bmp_fs_io_unfold]
    exact bmp { w with stored := [] }
  · rw [M5Screen2ppm_io_unfold, (ppmRowLoopIo_count _ _ _).1]
    show (World.writeBytes _ _).1.writes.length + _ = _
    rw [(writeBytes_calls _ _).2.2.2, List.length_append, List.length_singleton]
    show w.writes.length + 1 + w.lcd.height = _
    omega
  · rw [M5Screen2ppm_io_unfold, M5Screen2ppm_io_unfold]
    have key : ∀ (W n : Nat) (d : Mem) (wa wb : World), SameCalls wa wb →
        (forLoop n (ppmRowStepIo W) (d, wa)).2.writes
          = (forLoop n (ppmRowStepIo W) (d, wb)).2.writes :=
      fun W n d wa wb hs => (ppmRowLoopIo_same W n (d, wa) (d, wb) rfl hs).2.2.2
    refine key _ _ _ _ _ ?_
    exact writeBytes_same _ _ _ ⟨rfl, rfl, rfl⟩

/-- Counterexample to C11: on the 2 by 2 display with a sink whose first call
(the header write) fails, the network emitter, the file emitter and the PPM
writer each go on to issue two more writes, three calls in all. -/
theorem write_failure_not_terminal :
    worldHeaderFails.fails 0 = true ∧
      (M5Screen2bmp_client_io stack0 worldHeaderFails).2.writes.length = 3 ∧
      ¬ StopsAtFailure (M5Screen2bmp_client_io stack0 worldHeaderFails).2 ∧
      ¬ StopsAtFailure (M5Screen2bmp_fs_io true stack0 worldHeaderFails).2 ∧
      ¬ StopsAtFailure (M5Screen2ppm_io true stack0 worldHeaderFails).2 := by
  refine ⟨rfl, by decide, ?_, ?_, ?_⟩
  · intro h
    exact absurd (h 0 (by decide) (by decide)) (by decide)
  · intro h
    exact absurd (h 0 (by decide) (by decide)) (by decide)
  · intro h
    exact absurd (h 0 (by decide) (by decide)) (by decide)

/-! The event loop in detail. -/

/-- The left button block when it fires: the latch is cleared, the gauge set
to 0 and redrawn, then the screen is dumped, then the timer is re-armed. -/
theorem buttonA_fire (inp : LoopInput) (s : Globals × List Effect)
    (h : (inp.btnA || s.1.Control_A_pressed) = true) :
    buttonA inp s
      = ({ s.1 with Control_A_pressed := false, gauge_val := 0,
                    next_millis := (inp.millisA + 1000) % 2 ^ 32 },
         s.2 ++ [Effect.draw_gauge 0 50, Effect.M5Screen2bmp "/gauge_0.bmp" inp.sdA]) := by
  simp only [buttonA, h, if_true, List.append_assoc, List.singleton_append]

/-- The centre button block when it fires. -/
theorem buttonB_fire (inp : LoopInput) (s : Globals × List Effect)
    (h : (inp.btnB || s.1.Control_B_pressed) = true) :
    buttonB inp s
      = ({ s.1 with Control_B_pressed := false, gauge_val := 50,
                    next_millis := (inp.millisB + 1000) % 2 ^ 32 },
         s.2 ++ [Effect.draw_gauge 50 50, Effect.M5Screen2bmp "/gauge_50.bmp" inp.sdB]) := by
  simp only [buttonB, h, if_true, List.append_assoc, List.singleton_append]

/-- The right button block when it fires. -/
theorem buttonC_fire (inp : LoopInput) (s : Globals × List Effect)
    (h : (inp.btnC || s.1.Control_C_pressed) = true) :
    buttonC inp s
      = ({ s.1 with Control_C_pressed := false, gauge_val := 100,
                    next_millis := (inp.millisC + 1000) % 2 ^ 32 },
         s.2 ++ [Effect.draw_gauge 100 50, Effect.M5Screen2bmp "/gauge_100.bmp" inp.sdC]) := by
  simp only [buttonC, h, if_true, List.append_assoc, List.singleton_append]

/-- A button block that does not fire does nothing. -/
theorem button_idle (inp : LoopInput) (s : Globals × List Effect) :
    ((inp.btnA || s.1.Control_A_pressed) = false → buttonA inp s = s) ∧
      ((inp.btnB || s.1.Control_B_pressed) = false → buttonB inp s = s) ∧
      ((inp.btnC || s.1.Control_C_pressed) = false → buttonC inp s = s) := by
  refine ⟨fun h => ?_, fun h => ?_, fun h => ?_⟩
  · simp [buttonA, h]
  · simp [buttonB, h]
  · simp [buttonC, h]

/-- The button blocks in closed form: which channels fire depends on the
button edges and on the latches at the start of the pass; the fired channels
act in the order A, B, C. -/
theorem buttonPhase_eq (inp : LoopInput) (g : Globals) :
    buttonPhase inp g
      = ({ g with
            Control_A_pressed := false
            Control_B_pressed := false
            Control_C_pressed := false
            gauge_val :=
              if (inp.btnC || g.Control_C_pressed) = true then 100
              else if (inp.btnB || g.Control_B_pressed) = true then 50
              else if (inp.btnA || g.Control_A_pressed) = true then 0
              else g.gauge_val
            next_millis :=
              if (inp.btnC || g.Control_C_pressed) = true then (inp.millisC + 1000) % 2 ^ 32
              else if (inp.btnB || g.Control_B_pressed) = true then (inp.millisB + 1000) % 2 ^ 32
              else if (inp.btnA || g.Control_A_pressed) = true then (inp.millisA + 1000) % 2 ^ 32
              else g.next_millis },
         (if (inp.btnA || g.Control_A_pressed) = true then
            [Effect.draw_gauge 0 50, Effect.M5Screen2bmp "/gauge_0.bmp" inp.sdA] else []) ++
         (if (inp.btnB || g.Control_B_pressed) = true then
            [Effect.draw_gauge 50 50, Effect.M5Screen2bmp "/gauge_50.bmp" inp.sdB] else []) ++
         (if (inp.btnC || g.Control_C_pressed) = true then
            [Effect.draw_gauge 100 50, Effect.M5Screen2bmp "/gauge_100.bmp" inp.sdC] else [])) := by
  obtain ⟨t, nm, a, b, c, gv⟩ := g
  cases hA : inp.btnA <;> cases hB : inp.btnB <;> cases hC : inp.btnC <;>
    cases a <;> cases b <;> cases c <;>
    simp [buttonPhase, buttonA, buttonB, buttonC, hA, hB, hC]

/-- The random movement block only looks at the clock, the timer, the gauge
value and the random number. -/
theorem randomTick_forget (inp : LoopInput) (a b c : Bool) (s t : Globals × List Effect)
    (h1 : s.1 = t.1) (h2 : s.2.map Effect.forgetResult = t.2.map Effect.forgetResult) :
    (randomTick { inp with sdA := a, sdB := b, sdC := c } s).1 = (randomTick inp t).1 ∧
      (randomTick { inp with sdA := a, sdB := b, sdC := c } s).2.map Effect.forgetResult
        = (randomTick inp t).2.map Effect.forgetResult := by
  rw [randomTick_eq, randomTick_eq]
  simp only [h1]
  split_ifs
  · refine ⟨rfl, ?_⟩
    rw [List.map_append, List.map_append, h2]
  · exact ⟨h1, h2⟩

/-- C12: storage open failure. `M5Screen2bmp(fs, path)` and
`M5Screen2ppm(fs, path)` return false exactly when the file does not open, and
then they leave the world as it is: no display row is read, no write is
issued, nothing is stored. In `loop` a fired button block redraws the gauge
before it attempts the dump, and the globals after the pass and its effects
(the result of the dump apart) do not depend on whether the files open. -/
theorem storage_open_failure (lcd : Lcd) (stack : Mem) (opens : Bool) (w : World)
    (assets : Assets) (inp : LoopInput) (g : Globals) (a b c : Bool) :
    (((M5Screen2bmp_fs lcd stack opens).1 = false ↔ opens = false) ∧
      ((M5Screen2ppm lcd stack opens).1 = false ↔ opens = false) ∧
      ((M5Screen2bmp_fs_io opens stack w).1 = false ↔ opens = false) ∧
      ((M5Screen2ppm_io opens stack w).1 = false ↔ opens = false)) ∧
    (M5Screen2bmp_fs_io false stack w = (false, w) ∧
      M5Screen2ppm_io false stack w = (false, w) ∧
      M5Screen2bmp_fs lcd stack false = (false, []) ∧
      M5Screen2ppm lcd stack false = (false, [])) ∧
    ((∀ s : Globals × List Effect, (inp.btnA || s.1.Control_A_pressed) = true →
        (buttonA inp s).2
          = s.2 ++ [Effect.draw_gauge 0 50, Effect.M5Screen2bmp "/gauge_0.bmp" inp.sdA]) ∧
      (∀ s : Globals × List Effect, (inp.btnB || s.1.Control_B_pressed) = true →
        (buttonB inp s).2
          = s.2 ++ [Effect.draw_gauge 50 50, Effect.M5Screen2bmp "/gauge_50.bmp" inp.sdB]) ∧
      (∀ s : Globals × List Effect, (inp.btnC || s.1.Control_C_pressed) = true →
        (buttonC inp s).2
          = s.2 ++ [Effect.draw_gauge 100 50, Effect.M5Screen2bmp "/gauge_100.bmp" inp.sdC])) ∧
    ((loop assets { inp with sdA := a, sdB := b, sdC := c } g).1 = (loop assets inp g).1 ∧
      (loop assets { inp with sdA := a, sdB := b, sdC := c } g).2.map Effect.forgetResult
        = (loop assets inp g).2.map Effect.forgetResult) := by
  refine ⟨⟨?_, ?_, ?_, ?_⟩, ⟨rfl, rfl, rfl, rfl⟩, ⟨?_, ?_, ?_⟩, ?_⟩
  · cases opens <;> simp [M5Screen2bmp_fs]
  · cases opens <;> simp [M5Screen2ppm]
  · cases opens <;> simp [M5Screen2bmp_fs_io]
  · cases opens <;> simp [M5Screen2ppm_io]
  · intro s h
    rw [buttonA_fire inp s h]
  · intro s h
    rw [buttonB_fire inp s h]
  · intro s h
    rw [buttonC_fire inp s h]
  · have hb1 : (buttonPhase { inp with sdA := a, sdB := b, sdC := c } g).1
        = (buttonPhase inp g).1 := by
      rw [buttonPhase_eq, buttonPhase_eq]
    have hb2 : (buttonPhase { inp with sdA := a, sdB := b, sdC := c } g).2.map
        Effect.forgetResult = (buttonPhase inp g).2.map Effect.forgetResult := by
      rw [buttonPhase_eq, buttonPhase_eq]
      simp only [List.map_append]
      congr 1
      · congr 1
        · split_ifs <;> rfl
        · split_ifs <;> rfl
      · split_ifs <;> rfl
    obtain ⟨r1, r2⟩ := randomTick_forget inp a b c _ _ hb1 hb2
    refine ⟨?_, r2⟩
    show (check_webserver assets inp.lcd inp.stack inp.incoming _).1 = _
    rw [r1]
    rfl

/-- Witness of C12: on the 2 by 2 display a file that does not open leaves the
world untouched, and a pass of `loop` with the right button pressed ends in
the same globals whether `/gauge_100.bmp` opens or not. -/
theorem storage_open_failure_witness :
    M5Screen2bmp_fs_io false stack0 worldSound = (false, worldSound) ∧
      (M5Screen2bmp_fs_io false stack0 worldSound).2.reads = [] ∧
      (M5Screen2bmp_fs_io false stack0 worldSound).2.writes = [] ∧
      (M5Screen2bmp_fs_io true stack0 worldSound).2.reads = [1, 0] ∧
      (loop assets0 { pressC with sdA := true, sdB := true, sdC := true } (setup 0)).1
        = (loop assets0 pressC (setup 0)).1 ∧
      (loop assets0 pressC (setup 0)).2
        = [Effect.draw_gauge 100 50, Effect.M5Screen2bmp "/gauge_100.bmp" false] :=
  ⟨(storage_open_failure lcd2x2 stack0 false worldSound assets0 pressC (setup 0)
      true true true).2.1.1,
   rfl, rfl, by decide,
   (storage_open_failure lcd2x2 stack0 false worldSound assets0 pressC (setup 0)
      true true true).2.2.2.1,
   by decide⟩

/-! The web server across connections and in time. -/

/-- C13 on the code: the classification tag is a global that `check_webserver`
does not reset when it accepts a client. After a connection that asked for
the index page, a connection that sends only a blank line, or a `POST`
request, is answered with the index page and status 200, whereas the same
bytes right after `setup` are answered with the 404 response. -/
theorem stale_tag_across_connections :
    (check_webserver assets0 lcd2x2 stack0 (some (ascii "\r\n"))
        (check_webserver assets0 lcd2x2 stack0 (some (ascii "GET / HTTP/1.1\r\n\r\n"))
          (setup 0)).1).2
      = ascii "HTTP/1.1 200 OK\r\nContent-type:text/html\r\n\r\n" ++ assets0.index_html ++
          ascii "\r\n" ∧
    (check_webserver assets0 lcd2x2 stack0 (some (ascii "POST / HTTP/1.1\r\n\r\n"))
        (check_webserver assets0 lcd2x2 stack0 (some (ascii "GET / HTTP/1.1\r\n\r\n"))
          (setup 0)).1).2
      = ascii "HTTP/1.1 200 OK\r\nContent-type:text/html\r\n\r\n" ++ assets0.index_html ++
          ascii "\r\n" ∧
    (check_webserver assets0 lcd2x2 stack0 (some (ascii "\r\n")) (setup 0)).2
      = ascii "HTTP/1.1 404 Not Found\r\nContent-type:text/html\r\n\r\n404 Page not found.<br>\r\n" ∧
    (check_webserver assets0 lcd2x2 stack0 (some (ascii "POST / HTTP/1.1\r\n\r\n")) (setup 0)).2
      = ascii "HTTP/1.1 404 Not Found\r\nContent-type:text/html\r\n\r\n404 Page not found.<br>\r\n" := by
  refine ⟨by decide, by decide, by decide, by decide⟩

/-- Reading a byte writes to the client only for a line feed on an empty line. -/
theorem readByte_writes (assets : Assets) (lcd : Lcd) (stack : Mem) (c : Byte) (st : Conn)
    (h : (readByte assets lcd stack c st).client ≠ st.client) :
    c = '\n'.toNat ∧ st.currentLine = [] ∧
      (readByte assets lcd stack c st).responded = true := by
  unfold readByte at h ⊢
  split_ifs at h ⊢ with h1 h2 h3
  · exact ⟨h1, List.length_eq_zero.mp h2, rfl⟩
  · exact absurd rfl h
  · exact absurd rfl h
  · exact absurd rfl h

/-- Reading a byte leaves `responded` alone unless it writes the response. -/
theorem readByte_responded (assets : Assets) (lcd : Lcd) (stack : Mem) (c : Byte) (st : Conn)
    (h : (readByte assets lcd stack c st).responded = false) :
    st.responded = false ∧ (readByte assets lcd stack c st).client = st.client := by
  unfold readByte at h ⊢
  split_ifs at h ⊢
  · exact ⟨h, rfl⟩
  · exact ⟨h, rfl⟩
  · exact ⟨h, rfl⟩

/-- One pass of the client loop writes to the client only when it reads a line
feed on an empty line, the client not being stopped. -/
theorem whileBody_writes (assets : Assets) (lcd : Lcd) (stack : Mem) (tm : Nat) (t : Tick)
    (st : TimedConn)
    (h : (whileBody assets lcd stack tm t st).conn.client ≠ st.conn.client) :
    t.incoming = some '\n'.toNat ∧ st.conn.currentLine = [] ∧
      (whileBody assets lcd stack tm t st).stopped = false ∧
      (whileBody assets lcd stack tm t st).conn.responded = true := by
  unfold whileBody at h ⊢
  by_cases hs : (if t.millis > tm then true else st.stopped) = true
  · simp only [hs, if_true] at h
    exact absurd rfl h
  · have hs2 : (if t.millis > tm then true else st.stopped) = false := by
      simpa using hs
    cases hi : t.incoming with
    | none =>
      simp only [hs2, hi] at h
      exact absurd rfl h
    | some c =>
      simp only [hs2, hi] at h ⊢
      obtain ⟨e1, e2, e3⟩ := readByte_writes assets lcd stack c st.conn h
      exact ⟨by rw [e1], e2, by simp, e3⟩

/-- The client loop changes what has been written to the client only by
writing a response, after which it has ended. -/
theorem clientWhile_writes (assets : Assets) (lcd : Lcd) (stack : Mem) (tm : Nat)
    (ticks : List Tick) (st : TimedConn)
    (h : (clientWhile assets lcd stack tm ticks st).conn.client ≠ st.conn.client) :
    (clientWhile assets lcd stack tm ticks st).conn.responded = true := by
  induction ticks generalizing st with
  | nil => exact absurd rfl h
  | cons t ts ih =>
    simp only [clientWhile] at h ⊢
    split_ifs at h ⊢ with h1 h2
    · exact absurd rfl h
    · exact h2
    · have hr : (whileBody assets lcd stack tm t st).conn.responded = false := by
        simpa using h2
      have hsame : (whileBody assets lcd stack tm t st).conn.client = st.conn.client := by
        by_contra hne
        rw [(whileBody_writes assets lcd stack tm t st hne).2.2.2] at hr
        exact absurd hr (by simp)
      exact ih _ (by rw [hsame]; exact h)

/-- A client that delivers no byte is never written to. -/
theorem clientWhile_silent (assets : Assets) (lcd : Lcd) (stack : Mem) (tm : Nat)
    (ticks : List Tick) (st : TimedConn) (h : ∀ t ∈ ticks, t.incoming = none) :
    (clientWhile assets lcd stack tm ticks st).conn = st.conn := by
  induction ticks generalizing st with
  | nil => rfl
  | cons t ts ih =>
    have ht : t.incoming = none := h t (List.mem_cons_self t ts)
    have hb : (whileBody assets lcd stack tm t st).conn = st.conn := by
      simp only [whileBody, ht]
      split_ifs <;> rfl
    simp only [clientWhile]
    split_ifs with h1 h2
    · rfl
    · exact hb
    · rw [ih _ (fun u hu => h u (List.mem_cons_of_mem t hu)), hb]

/-- Once the server has stopped the client the loop is over. -/
theorem clientWhile_stopped (assets : Assets) (lcd : Lcd) (stack : Mem) (tm : Nat)
    (ticks : List Tick) (st : TimedConn) (h : st.stopped = true) :
    clientWhile assets lcd stack tm ticks st = st := by
  cases ticks with
  | nil => rfl
  | cons t ts => simp [clientWhile, h]

/-- The client loop in time does to the connection what `clientLoop` does on
the bytes it reads. -/
theorem clientWhile_reads (assets : Assets) (lcd : Lcd) (stack : Mem) (tm : Nat)
    (ticks : List Tick) (st : TimedConn) (hr : st.conn.responded = false) :
    ∃ bytes : List Byte,
      (clientWhile assets lcd stack tm ticks st).conn = clientLoop assets lcd stack bytes st.conn := by
  induction ticks generalizing st with
  | nil => exact ⟨[], rfl⟩
  | cons t ts ih =>
    simp only [clientWhile]
    split_ifs with h1 h2
    · exact ⟨[], rfl⟩
    · -- a response has been written in this pass
      have hne : (whileBody assets lcd stack tm t st).conn ≠ st.conn := by
        intro e
        rw [e, hr] at h2
        exact absurd h2 (by simp)
      unfold whileBody at hne h2 ⊢
      cases hm : (if (if t.millis > tm then true else st.stopped) = true then none
          else t.incoming) with
      | none =>
        simp only [hm] at hne
        exact absurd rfl hne
      | some c =>
        simp only [hm] at h2 ⊢
        refine ⟨[c], ?_⟩
        simp only [clientLoop, h2, if_true]
    · have hr2 : (whileBody assets lcd stack tm t st).conn.responded = false := by
        simpa using h2
      obtain ⟨bs, hbs⟩ := ih _ hr2
      rw [hbs]
      unfold whileBody at hr2 ⊢
      cases hm : (if (if t.millis > tm then true else st.stopped) = true then none
          else t.incoming) with
      | none => exact ⟨bs, by simp only [hm]⟩
      | some c =>
        simp only [hm] at hr2 ⊢
        refine ⟨c :: bs, ?_⟩
        simp only [clientLoop, hr2]
        rfl

/-- C14: no response without a complete request. A byte read from the client
changes what has been written to it only if it is a line feed arriving on an
empty line, and the client loop writes nothing except that response. A client
that delivers no byte is never written to, and the globals stay as they are.
At the first pass of the loop that observes `millis()` above the accept time
plus 2000, the server stops the client, reads and writes nothing in that pass,
and the loop ends. -/
theorem no_response_without_request (assets : Assets) (lcd : Lcd) (stack : Mem)
    (accept_millis : Nat) (ticks : List Tick) (g : Globals) (t : Tick) (st : TimedConn)
    (c : Byte) (cn : Conn) :
    ((readByte assets lcd stack c cn).client ≠ cn.client →
        c = '\n'.toNat ∧ cn.currentLine = []) ∧
      ((clientWhile assets lcd stack ((accept_millis + 2000) % 2 ^ 32) ticks st).conn.client
          ≠ st.conn.client →
        (clientWhile assets lcd stack ((accept_millis + 2000) % 2 ^ 32) ticks st
          ).conn.responded = true) ∧
      ((∀ u ∈ ticks, u.incoming = none) →
        (serveClient assets lcd stack accept_millis ticks g).2.1 = [] ∧
        (serveClient assets lcd stack accept_millis ticks g).1 = g) ∧
      (st.stopped = false → t.connected = true → t.millis < 2 ^ 32 →
        t.millis > accept_millis + 2000 →
        clientWhile assets lcd stack ((accept_millis + 2000) % 2 ^ 32) (t :: ticks) st
          = { conn := st.conn, stopped := true }) := by
  refine ⟨fun h => ?_, fun h => clientWhile_writes assets lcd stack _ ticks st h,
    fun h => ?_, fun h1 h2 h3 h4 => ?_⟩
  · obtain ⟨e1, e2, _⟩ := readByte_writes assets lcd stack c cn h
    exact ⟨e1, e2⟩
  · have hc := clientWhile_silent assets lcd stack ((accept_millis + 2000) % 2 ^ 32) ticks
      { conn := { g := g, currentLine := [], client := [], responded := false },
        stopped := false } h
    simp only [serveClient]
    rw [hc]
    exact ⟨rfl, rfl⟩
  · have hmod : (accept_millis + 2000) % 2 ^ 32 = accept_millis + 2000 :=
      Nat.mod_eq_of_lt (by omega)
    have hb : whileBody assets lcd stack (accept_millis + 2000) t st
        = { conn := st.conn, stopped := true } := by
      simp only [whileBody, if_pos h4, if_true]
    rw [hmod]
    simp only [clientWhile, h1, h2, hb, Bool.not_true, Bool.or_self, Bool.false_eq_true,
      if_false]
    split_ifs
    · rfl
    · exact clientWhile_stopped assets lcd stack _ ticks _ rfl

/-- Witness of C14: a client accepted at time 0 that stays connected and sends
nothing is stopped at the first pass that reads a time above 2000 (here
2001); nothing is written to it and the line feed it sends afterwards is not
read. -/
theorem no_response_without_request_witness :
    serveClient assets0 lcd2x2 stack0 0 silentTicks (setup 0) = (setup 0, [], true) ∧
      clientWhile assets0 lcd2x2 stack0 ((0 + 2000) % 2 ^ 32)
          ({ connected := true, millis := 2001, incoming := none } ::
            [{ connected := true, millis := 2002, incoming := some 10 }])
          { conn := Conn.fresh (setup 0), stopped := false }
        = { conn := Conn.fresh (setup 0), stopped := true } :=
  ⟨by decide,
   (no_response_without_request assets0 lcd2x2 stack0 0
      [{ connected := true, millis := 2002, incoming := some 10 }] (setup 0)
      { connected := true, millis := 2001, incoming := none }
      { conn := Conn.fresh (setup 0), stopped := false } 0 (Conn.fresh (setup 0))).2.2.2
      rfl rfl (by decide) (by decide)⟩

/-- C15: button service order. The channels that fire in a pass of `loop`
(button edge or latch) are served in the order A, B, C: the effects of the
button blocks are, for each fired channel in that order, the gauge redraw at
its set-point (0, 50, 100) followed by the BMP dump to its file
(`/gauge_0.bmp`, `/gauge_50.bmp`, `/gauge_100.bmp`), and `gauge_val`
afterwards is the set-point of the last fired channel in that order; with A
and C both set it is 100. -/
theorem button_service_order (assets : Assets) (inp : LoopInput) (g : Globals) :
    (buttonPhase inp g).2
        = (if (inp.btnA || g.Control_A_pressed) = true then
            [Effect.draw_gauge 0 50, Effect.M5Screen2bmp "/gauge_0.bmp" inp.sdA] else []) ++
          (if (inp.btnB || g.Control_B_pressed) = true then
            [Effect.draw_gauge 50 50, Effect.M5Screen2bmp "/gauge_50.bmp" inp.sdB] else []) ++
          (if (inp.btnC || g.Control_C_pressed) = true then
            [Effect.draw_gauge 100 50, Effect.M5Screen2bmp "/gauge_100.bmp" inp.sdC] else []) ∧
      (buttonPhase inp g).1.gauge_val
        = (if (inp.btnC || g.Control_C_pressed) = true then 100
           else if (inp.btnB || g.Control_B_pressed) = true then 50
           else if (inp.btnA || g.Control_A_pressed) = true then 0
           else g.gauge_val) ∧
      (g.Control_A_pressed = true → g.Control_C_pressed = true →
        (buttonPhase inp g).1.gauge_val = 100) ∧
      (loop assets inp g).2.take (buttonPhase inp g).2.length = (buttonPhase inp g).2 := by
  refine ⟨?_, ?_, ?_, ?_⟩
  · rw [buttonPhase_eq]
  · rw [buttonPhase_eq]
  · intro _ hC
    rw [buttonPhase_eq]
    simp [hC]
  · rw [(loop_effects assets inp g).1, randomTick_eq]
    split_ifs
    · simp
    · simp

/-- Witness of C15: with the latches A and C set and no button pressed, the
pass redraws at 0 and dumps `/gauge_0.bmp`, then redraws at 100 and dumps
`/gauge_100.bmp`, and the gauge value ends at 100. -/
theorem button_service_order_witness :
    (globalsAC.Control_A_pressed = true ∧ globalsAC.Control_C_pressed = true) ∧
      (buttonPhase idleInput globalsAC).1.gauge_val = 100 ∧
      (buttonPhase idleInput globalsAC).2
        = [Effect.draw_gauge 0 50, Effect.M5Screen2bmp "/gauge_0.bmp" true,
           Effect.draw_gauge 100 50, Effect.M5Screen2bmp "/gauge_100.bmp" false] :=
  ⟨by decide, (button_service_order assets0 idleInput globalsAC).2.2.1 rfl rfl, by decide⟩

theorem everyRedrawDumped_append_draw (tr : List Effect) (v1 v2 : Int) :
    everyRedrawDumped (tr ++ [Effect.draw_gauge v1 v2]) = false := by
  induction tr with
  | nil => rfl
  | cons e rest ih =>
    cases e with
    | draw_gauge a b => simp [everyRedrawDumped, ih]
    | M5Screen2bmp p r => simp [everyRedrawDumped, ih]

/-- Counterexample to C16: in a pass of `loop` whose timer has run out (no
button pressed, no latch set) the only effect is the gauge redraw of the
random movement, at 52; no BMP dump follows it before the pass ends. -/
theorem redraw_without_dump :
    (loop assets0 tickInput (setup 0)).2 = [Effect.draw_gauge 52 50] ∧
      everyRedrawDumped (loop assets0 tickInput (setup 0)).2 = false := by
  exact ⟨by decide, by decide⟩

/-- C16 as amended: every gauge redraw made by a button block is directly
followed by the BMP dump to the file of that channel, so the effects of the
button blocks are a sequence of such pairs. The random movement block adds,
when the timer has run out, one gauge redraw as the last effect of the pass,
and no dump follows that redraw. -/
theorem button_redraw_then_dump (assets : Assets) (inp : LoopInput) (g : Globals) :
    redrawThenDump (buttonPhase inp g).2 = true ∧
      everyRedrawDumped (buttonPhase inp g).2 = true ∧
      (loop assets inp g).2
        = (buttonPhase inp g).2 ++
          (if inp.current_millis > (buttonPhase inp g).1.next_millis then
            [Effect.draw_gauge
              (clampGauge ((buttonPhase inp g).1.gauge_val + ((inp.rnd.val : Int) - 5))) 50]
           else []) ∧
      (inp.current_millis > (buttonPhase inp g).1.next_millis →
        everyRedrawDumped (loop assets inp g).2 = false) := by
  have hloop : (loop assets inp g).2
      = (buttonPhase inp g).2 ++
        (if inp.current_millis > (buttonPhase inp g).1.next_millis then
          [Effect.draw_gauge
            (clampGauge ((buttonPhase inp g).1.gauge_val + ((inp.rnd.val : Int) - 5))) 50]
         else []) := by
    rw [(loop_effects assets inp g).1, randomTick_eq]
    split_ifs
    · rfl
    · simp
  refine ⟨?_, ?_, hloop, ?_⟩
  · rw [buttonPhase_eq]
    cases (inp.btnA || g.Control_A_pressed) <;> cases (inp.btnB || g.Control_B_pressed) <;>
      cases (inp.btnC || g.Control_C_pressed) <;> rfl
  · rw [buttonPhase_eq]
    cases (inp.btnA || g.Control_A_pressed) <;> cases (inp.btnB || g.Control_B_pressed) <;>
      cases (inp.btnC || g.Control_C_pressed) <;> rfl
  · intro h
    rw [hloop, if_pos h]
    exact everyRedrawDumped_append_draw _ _ _

/-- A quiet pass before the deadline changes neither the gauge value nor the
timer and has no effect on the display or the SD card. -/
theorem loop_quiet (assets : Assets) (inp : LoopInput) (g : Globals)
    (hA : inp.btnA = false) (hB : inp.btnB = false) (hC : inp.btnC = false)
    (fA : g.Control_A_pressed = false) (fB : g.Control_B_pressed = false)
    (fC : g.Control_C_pressed = false) (ht : inp.current_millis ≤ g.next_millis) :
    (loop assets inp g).2 = [] ∧ (loop assets inp g).1.gauge_val = g.gauge_val ∧
      (loop assets inp g).1.next_millis = g.next_millis := by
  have hb := buttonPhase_idle inp g hA hB hC fA fB fC
  have hr : randomTick inp (buttonPhase inp g) = (g, []) := by
    rw [hb, randomTick_eq, if_neg (by simp only [gt_iff_lt, not_lt]; exact ht)]
  obtain ⟨w1, w2⟩ := check_webserver_frame assets inp.lcd inp.stack inp.incoming g
  refine ⟨?_, ?_, ?_⟩
  · rw [(loop_effects assets inp g).1, hr]
  · simp only [loop, hr]
    exact w1
  · simp only [loop, hr]
    exact w2

/-- Quiet passes before the deadline leave the boot screen alone. -/
theorem run_quiet (assets : Assets) (deadline : Nat) (inputs : List LoopInput) (g : Globals)
    (hd : g.next_millis = deadline) (hq : quietRun assets deadline inputs g = true) :
    (run assets inputs g).2 = [] ∧ (run assets inputs g).1.gauge_val = g.gauge_val ∧
      (run assets inputs g).1.next_millis = deadline := by
  induction inputs generalizing g with
  | nil => exact ⟨rfl, rfl, hd⟩
  | cons inp rest ih =>
    simp only [quietRun, Bool.and_eq_true, Bool.not_eq_true', decide_eq_true_eq] at hq
    obtain ⟨⟨⟨⟨⟨⟨⟨hA, hB⟩, hC⟩, fA⟩, fB⟩, fC⟩, ht⟩, hrest⟩ := hq
    obtain ⟨l1, l2, l3⟩ := loop_quiet assets inp g hA hB hC fA fB fC (by rw [hd]; exact ht)
    obtain ⟨r1, r2, r3⟩ := ih (loop assets inp g).1 (l3.trans hd) hrest
    refine ⟨?_, ?_, r3⟩
    · simp only [run]
      rw [l1, r1]
      rfl
    · simp only [run]
      rw [r2, l2]

/-- C17: boot hold-off. `setup` leaves `next_millis` at the clock reading of
its last statement plus 20000 (no wrap of the 32-bit counter assumed). In any
sequence of passes of `loop` that each start not after that time and in which
no button edge is reported and no latch is set, no gauge redraw happens,
`gauge_val` stays 50 and `next_millis` stays put. A button block that fires
and a random movement that is taken leave `next_millis` at the clock reading
taken in that block (after its redraw, and for a button block after its dump)
plus 1000, modulo `2^32`. -/
theorem boot_hold_off (assets : Assets) (millis0 : Nat) (inputs : List LoopInput)
    (inp : LoopInput) (s : Globals × List Effect)
    (hwrap : millis0 + 20000 < 2 ^ 32)
    (hq : quietRun assets (millis0 + 20000) inputs (setup millis0) = true) :
    (setup millis0).next_millis = millis0 + 20000 ∧
      ((run assets inputs (setup millis0)).2 = [] ∧
        (run assets inputs (setup millis0)).1.gauge_val = 50 ∧
        (run assets inputs (setup millis0)).1.next_millis = millis0 + 20000) ∧
      ((inp.btnA || s.1.Control_A_pressed) = true →
        (buttonA inp s).1.next_millis = (inp.millisA + 1000) % 2 ^ 32 ∧
        (inp.millisA + 1000 < 2 ^ 32 → (buttonA inp s).1.next_millis = inp.millisA + 1000)) ∧
      ((inp.btnB || s.1.Control_B_pressed) = true →
        (buttonB inp s).1.next_millis = (inp.millisB + 1000) % 2 ^ 32 ∧
        (inp.millisB + 1000 < 2 ^ 32 → (buttonB inp s).1.next_millis = inp.millisB + 1000)) ∧
      ((inp.btnC || s.1.Control_C_pressed) = true →
        (buttonC inp s).1.next_millis = (inp.millisC + 1000) % 2 ^ 32 ∧
        (inp.millisC + 1000 < 2 ^ 32 → (buttonC inp s).1.next_millis = inp.millisC + 1000)) ∧
      (inp.current_millis > s.1.next_millis →
        (randomTick inp s).1.next_millis = (inp.millisT + 1000) % 2 ^ 32 ∧
        (inp.millisT + 1000 < 2 ^ 32 → (randomTick inp s).1.next_millis = inp.millisT + 1000)) := by
  have h0 : (setup millis0).next_millis = millis0 + 20000 := Nat.mod_eq_of_lt hwrap
  obtain ⟨r1, r2, r3⟩ := run_quiet assets (millis0 + 20000) inputs (setup millis0) h0 hq
  refine ⟨h0, ⟨r1, r2, r3⟩, ?_, ?_, ?_, ?_⟩
  · intro h
    rw [buttonA_fire inp s h]
    exact ⟨rfl, fun hw => Nat.mod_eq_of_lt hw⟩
  · intro h
    rw [buttonB_fire inp s h]
    exact ⟨rfl, fun hw => Nat.mod_eq_of_lt hw⟩
  · intro h
    rw [buttonC_fire inp s h]
    exact ⟨rfl, fun hw => Nat.mod_eq_of_lt hw⟩
  · intro h
    rw [randomTick_eq, if_pos h]
    exact ⟨rfl, fun hw => Nat.mod_eq_of_lt hw⟩

/-- Witness of C17: after `setup` at time 0 the timer stands at 20000; two
idle passes at time 100 draw nothing and leave the gauge value at 50; a press
of the right button with the clock read at 103 re-arms the timer to 1103. -/
theorem boot_hold_off_witness :
    ((0 : Nat) + 20000 < 2 ^ 32 ∧
      quietRun assets0 (0 + 20000) [idleInput, idleInput] (setup 0) = true) ∧
      (setup 0).next_millis = 20000 ∧
      (run assets0 [idleInput, idleInput] (setup 0)).2 = [] ∧
      (run assets0 [idleInput, idleInput] (setup 0)).1.gauge_val = 50 ∧
      (buttonC pressC (setup 0, [])).1.next_millis = 1103 :=
  ⟨by decide,
   (boot_hold_off assets0 0 [idleInput, idleInput] pressC (setup 0, [])
      (by decide) (by decide)).1,
   (boot_hold_off assets0 0 [idleInput, idleInput] pressC (setup 0, [])
      (by decide) (by decide)).2.1.1,
   (boot_hold_off assets0 0 [idleInput, idleInput] pressC (setup 0, [])
      (by decide) (by decide)).2.1.2.1,
   ((boot_hold_off assets0 0 [idleInput, idleInput] pressC (setup 0, [])
      (by decide) (by decide)).2.2.2.2.1 rfl).1⟩

/-! The needle geometry. -/

theorem roundf_error (x : ℝ) : |(roundf x : ℝ) - x| ≤ 1 / 2 := by
  unfold roundf
  split_ifs with h
  · have h1 := Int.floor_le (x + 1 / 2)
    have h2 := Int.lt_floor_add_one (x + 1 / 2)
    rw [abs_le]
    constructor <;> linarith
  · have h1 := Int.le_ceil (x - 1 / 2)
    have h2 := Int.ceil_lt_add_one (x - 1 / 2)
    rw [abs_le]
    constructor <;> linarith

/-- A point within 6/10 in each coordinate of a point of the circle of radius
80 lies less than 1 away from that circle. -/
theorem near_circle (a0 b0 x y : ℝ) (hc : a0 ^ 2 + b0 ^ 2 = 80 ^ 2)
    (hx : |x - a0| ≤ 6 / 10) (hy : |y - b0| ≤ 6 / 10) :
    |Real.sqrt (x ^ 2 + y ^ 2) - 80| < 1 := by
  have hx2 := abs_le.mp hx
  have hy2 := abs_le.mp hy
  have sx : (x - a0) ^ 2 ≤ 36 / 100 := by nlinarith [hx2.1, hx2.2]
  have sy : (y - b0) ^ 2 ≤ 36 / 100 := by nlinarith [hy2.1, hy2.2]
  have nx := sq_nonneg (x - a0)
  have ny := sq_nonneg (y - b0)
  have cs : (a0 * (x - a0) + b0 * (y - b0)) ^ 2
      = (a0 ^ 2 + b0 ^ 2) * ((x - a0) ^ 2 + (y - b0) ^ 2)
        - (a0 * (y - b0) - b0 * (x - a0)) ^ 2 := by ring
  have cs2 : (a0 * (x - a0) + b0 * (y - b0)) ^ 2 < (68 : ℝ) ^ 2 := by
    have n3 := sq_nonneg (a0 * (y - b0) - b0 * (x - a0))
    rw [cs, hc]
    norm_num
    linarith
  have c12 := abs_lt_of_sq_lt_sq' cs2 (by norm_num)
  have expand : x ^ 2 + y ^ 2
      = (a0 ^ 2 + b0 ^ 2) + 2 * (a0 * (x - a0) + b0 * (y - b0))
        + ((x - a0) ^ 2 + (y - b0) ^ 2) := by ring
  have lo : (79 : ℝ) ^ 2 < x ^ 2 + y ^ 2 := by
    rw [expand, hc]
    norm_num
    linarith [c12.1]
  have hi : x ^ 2 + y ^ 2 < (81 : ℝ) ^ 2 := by
    rw [expand, hc]
    norm_num
    linarith [c12.2]
  have s1 : 79 < Real.sqrt (x ^ 2 + y ^ 2) := by
    rw [show (79 : ℝ) = Real.sqrt (79 ^ 2) by rw [Real.sqrt_sq (by norm_num)]]
    exact Real.sqrt_lt_sqrt (by positivity) lo
  have s2 : Real.sqrt (x ^ 2 + y ^ 2) < 81 := by
    rw [show (81 : ℝ) = Real.sqrt (81 ^ 2) by rw [Real.sqrt_sq (by norm_num)]]
    exact Real.sqrt_lt_sqrt (by positivity) hi
  rw [abs_lt]
  constructor <;> linarith

/-- Two integers obtained by rounding values within 1/10 of a point of the
circle of radius 80 lie less than 1 away from that circle. -/
theorem rounded_near_circle (a0 b0 a b : ℝ) (hc : a0 ^ 2 + b0 ^ 2 = 80 ^ 2)
    (ha : |a - a0| ≤ 1 / 10) (hb : |b - b0| ≤ 1 / 10) :
    |Real.sqrt ((roundf a : ℝ) ^ 2 + (roundf b : ℝ) ^ 2) - 80| < 1 := by
  have ra := abs_le.mp (roundf_error a)
  have rb := abs_le.mp (roundf_error b)
  have ha2 := abs_le.mp ha
  have hb2 := abs_le.mp hb
  apply near_circle a0 b0 _ _ hc
  · rw [abs_le]
    constructor <;> linarith [ra.1, ra.2, ha2.1, ha2.2]
  · rw [abs_le]
    constructor <;> linarith [rb.1, rb.2, hb2.1, hb2.2]

/-- The needle tip lies less than 1 away from the circle of radius 80 around
the centre, whatever the angle. -/
theorem needleTip_near (xpos0 ypos0 : ℤ) (angle : ℝ) :
    |distFrom xpos0 ypos0 (needleTip xpos0 ypos0 angle) - 80| < 1 := by
  simp only [distFrom, needleTip, add_sub_cancel_right]
  apply rounded_near_circle (80 * Real.cos angle) (-(80 * Real.sin angle))
  · have := Real.sin_sq_add_cos_sq angle
    nlinarith
  · have e : (80 : ℝ) * Real.cos angle + 0 * Real.sin angle - 80 * Real.cos angle = 0 := by ring
    rw [e]; norm_num
  · have e : (-1.0 : ℝ) * 80 * Real.sin angle + 0 * Real.cos angle - -(80 * Real.sin angle)
        = 0 := by ring
    rw [e]; norm_num

/-- C18: arrow tip on the circle, over the real numbers as the claim states
it. For every value `v` between 0 and 100 the tip that the formula of
`draw_gauge` gives for the angle `(239 - 2.98 * v) * pi / 180`, and likewise
for the angle `gaugeDegrees v * DEG2RAD` of the source, has a distance `d`
from the display centre with `|d - 80| < 1`; the same holds when the two
coordinates are rounded from values within 1/10 of the exact ones. The angle
in degrees is `239 - 2.98 * v`, which is 239 at 0 and -59 at 100. -/
theorem arrow_tip_on_circle (xpos0 ypos0 : ℤ) (v : ℝ) (h0 : 0 ≤ v) (h1 : v ≤ 100) :
    |distFrom xpos0 ypos0 (needleTip xpos0 ypos0 ((239 - 2.98 * v) * (Real.pi / 180))) - 80|
        < 1 ∧
      |distFrom xpos0 ypos0 (needleTip xpos0 ypos0 (gaugeDegrees v * DEG2RAD)) - 80| < 1 ∧
      (∀ a b : ℝ, |a - 80 * Real.cos (gaugeDegrees v * DEG2RAD)| ≤ 1 / 10 →
        |b - -(80 * Real.sin (gaugeDegrees v * DEG2RAD))| ≤ 1 / 10 →
        |Real.sqrt ((roundf a : ℝ) ^ 2 + (roundf b : ℝ) ^ 2) - 80| < 1) ∧
      gaugeDegrees v = 239 - 2.98 * v ∧ gaugeDegrees 0 = 239 ∧ gaugeDegrees 100 = -59 := by
  refine ⟨needleTip_near _ _ _, needleTip_near _ _ _, ?_, ?_, ?_, ?_⟩
  · intro a b ha hb
    apply rounded_near_circle _ _ a b _ ha hb
    have := Real.sin_sq_add_cos_sq (gaugeDegrees v * DEG2RAD)
    nlinarith
  · unfold gaugeDegrees
    ring
  · norm_num [gaugeDegrees]
  · norm_num [gaugeDegrees]

/-- Witness of C18: the value 50 on the 320 by 240 display, centre (160, 120). -/
theorem arrow_tip_on_circle_witness :
    ((0 : ℝ) ≤ 50 ∧ (50 : ℝ) ≤ 100) ∧
      |distFrom 160 120 (needleTip 160 120 ((239 - 2.98 * 50) * (Real.pi / 180))) - 80| < 1 ∧
      |distFrom 160 120 (needleTip 160 120 (gaugeDegrees 50 * DEG2RAD)) - 80| < 1 :=
  ⟨by norm_num,
   (arrow_tip_on_circle 160 120 50 (by norm_num) (by norm_num)).1,
   (arrow_tip_on_circle 160 120 50 (by norm_num) (by norm_num)).2.1⟩

/-! The route table as a refinement of the line analysis. -/

/-- On a line that begins with `GET /` the sequence of `startsWith` tests of
the code has the effect of the longest-prefix lookup of the specification. -/
theorem analyzeLine_eq_spec (line : List Byte) (g : Globals)
    (hget : startsWith line "GET /" = true) :
    analyzeLine line g = specClassify line g := by
  by_cases h0 : startsWith line "GET / " = true
  · have n0 := startsWith_excl line "GET / " "GET /electric-idea_100x100.jpg" (by decide) (by decide) (by decide) h0
    have n1 := startsWith_excl line "GET / " "GET /favicon.ico" (by decide) (by decide) (by decide) h0
    have n2 := startsWith_excl line "GET / " "GET /screenshot.bmp" (by decide) (by decide) (by decide) h0
    have n3 := startsWith_excl line "GET / " "GET /refresh-40x30.png" (by decide) (by decide) (by decide) h0
    have n4 := startsWith_excl line "GET / " "GET /button.png" (by decide) (by decide) (by decide) h0
    have n5 := startsWith_excl line "GET / " "GET /button-A" (by decide) (by decide) (by decide) h0
    have n6 := startsWith_excl line "GET / " "GET /button-B" (by decide) (by decide) (by decide) h0
    have n7 := startsWith_excl line "GET / " "GET /button-C" (by decide) (by decide) (by decide) h0
    simp [analyzeLine, specClassify, longestMatch, routeTable, applyRoute, hget, h0, n0, n1, n2, n3, n4, n5, n6, n7]
  · have f0 : startsWith line "GET / " = false := by simpa using h0
    by_cases h1 : startsWith line "GET /electric-idea_100x100.jpg" = true
    · have n0 := startsWith_excl line "GET /electric-idea_100x100.jpg" "GET / " (by decide) (by decide) (by decide) h1
      have n1 := startsWith_excl line "GET /electric-idea_100x100.jpg" "GET /favicon.ico" (by decide) (by decide) (by decide) h1
      have n2 := startsWith_excl line "GET /electric-idea_100x100.jpg" "GET /screenshot.bmp" (by decide) (by decide) (by decide) h1
      have n3 := startsWith_excl line "GET /electric-idea_100x100.jpg" "GET /refresh-40x30.png" (by decide) (by decide) (by decide) h1
      have n4 := startsWith_excl line "GET /electric-idea_100x100.jpg" "GET /button.png" (by decide) (by decide) (by decide) h1
      have n5 := startsWith_excl line "GET /electric-idea_100x100.jpg" "GET /button-A" (by decide) (by decide) (by decide) h1
      have n6 := startsWith_excl line "GET /electric-idea_100x100.jpg" "GET /button-B" (by decide) (by decide) (by decide) h1
      have n7 := startsWith_excl line "GET /electric-idea_100x100.jpg" "GET /button-C" (by decide) (by decide) (by decide) h1
      simp [analyzeLine, specClassify, longestMatch, routeTable, applyRoute, hget, h1, n0, n1, n2, n3, n4, n5, n6, n7]
    · have f1 : startsWith line "GET /electric-idea_100x100.jpg" = false := by simpa using h1
      by_cases h2 : startsWith line "GET /favicon.ico" = true
      · have n0 := startsWith_excl line "GET /favicon.ico" "GET / " (by decide) (by decide) (by decide) h2
        have n1 := startsWith_excl line "GET /favicon.ico" "GET /electric-idea_100x100.jpg" (by decide) (by decide) (by decide) h2
        have n2 := startsWith_excl line "GET /favicon.ico" "GET /screenshot.bmp" (by decide) (by decide) (by decide) h2
        have n3 := startsWith_excl line "GET /favicon.ico" "GET /refresh-40x30.png" (by decide) (by decide) (by decide) h2
        have n4 := startsWith_excl line "GET /favicon.ico" "GET /button.png" (by decide) (by decide) (by decide) h2
        have n5 := startsWith_excl line "GET /favicon.ico" "GET /button-A" (by decide) (by decide) (by decide) h2
        have n6 := startsWith_excl line "GET /favicon.ico" "GET /button-B" (by decide) (by decide) (by decide) h2
        have n7 := startsWith_excl line "GET /favicon.ico" "GET /button-C" (by decide) (by decide) (by decide) h2
        simp [analyzeLine, specClassify, longestMatch, routeTable, applyRoute, hget, h2, n0, n1, n2, n3, n4, n5, n6, n7]
      · have f2 : startsWith line "GET /favicon.ico" = false := by simpa using h2
        by_cases h3 : startsWith line "GET /screenshot.bmp" = true
        · have n0 := startsWith_excl line "GET /screenshot.bmp" "GET / " (by decide) (by decide) (by decide) h3
          have n1 := startsWith_excl line "GET /screenshot.bmp" "GET /electric-idea_100x100.jpg" (by decide) (by decide) (by decide) h3
          have n2 := startsWith_excl line "GET /screenshot.bmp" "GET /favicon.ico" (by decide) (by decide) (by decide) h3
          have n3 := startsWith_excl line "GET /screenshot.bmp" "GET /refresh-40x30.png" (by decide) (by decide) (by decide) h3
          have n4 := startsWith_excl line "GET /screenshot.bmp" "GET /button.png" (by decide) (by decide) (by decide) h3
          have n5 := startsWith_excl line "GET /screenshot.bmp" "GET /button-A" (by decide) (by decide) (by decide) h3
          have n6 := startsWith_excl line "GET /screenshot.bmp" "GET /button-B" (by decide) (by decide) (by decide) h3
          have n7 := startsWith_excl line "GET /screenshot.bmp" "GET /button-C" (by decide) (by decide) (by decide) h3
          simp [analyzeLine, specClassify, longestMatch, routeTable, applyRoute, hget, h3, n0, n1, n2, n3, n4, n5, n6, n7]
        · have f3 : startsWith line "GET /screenshot.bmp" = false := by simpa using h3
          by_cases h4 : startsWith line "GET /refresh-40x30.png" = true
          · have n0 := startsWith_excl line "GET /refresh-40x30.png" "GET / " (by decide) (by decide) (by decide) h4
            have n1 := startsWith_excl line "GET /refresh-40x30.png" "GET /electric-idea_100x100.jpg" (by decide) (by decide) (by decide) h4
            have n2 := startsWith_excl line "GET /refresh-40x30.png" "GET /favicon.ico" (by decide) (by decide) (by decide) h4
            have n3 := startsWith_excl line "GET /refresh-40x30.png" "GET /screenshot.bmp" (by decide) (by decide) (by decide) h4
            have n4 := startsWith_excl line "GET /refresh-40x30.png" "GET /button.png" (by decide) (by decide) (by decide) h4
            have n5 := startsWith_excl line "GET /refresh-40x30.png" "GET /button-A" (by decide) (by decide) (by decide) h4
            have n6 := startsWith_excl line "GET /refresh-40x30.png" "GET /button-B" (by decide) (by decide) (by decide) h4
            have n7 := startsWith_excl line "GET /refresh-40x30.png" "GET /button-C" (by decide) (by decide) (by decide) h4
            simp [analyzeLine, specClassify, longestMatch, routeTable, applyRoute, hget, h4, n0, n1, n2, n3, n4, n5, n6, n7]
          · have f4 : startsWith line "GET /refresh-40x30.png" = false := by simpa using h4
            by_cases h5 : startsWith line "GET /button.png" = true
            · have n0 := startsWith_excl line "GET /button.png" "GET / " (by decide) (by decide) (by decide) h5
              have n1 := startsWith_excl line "GET /button.png" "GET /electric-idea_100x100.jpg" (by decide) (by decide) (by decide) h5
              have n2 := startsWith_excl line "GET /button.png" "GET /favicon.ico" (by decide) (by decide) (by decide) h5
              have n3 := startsWith_excl line "GET /button.png" "GET /screenshot.bmp" (by decide) (by decide) (by decide) h5
              have n4 := startsWith_excl line "GET /button.png" "GET /refresh-40x30.png" (by decide) (by decide) (by decide) h5
              have n5 := startsWith_excl line "GET /button.png" "GET /button-A" (by decide) (by decide) (by decide) h5
              have n6 := startsWith_excl line "GET /button.png" "GET /button-B" (by decide) (by decide) (by decide) h5
              have n7 := startsWith_excl line "GET /button.png" "GET /button-C" (by decide) (by decide) (by decide) h5
              simp [analyzeLine, specClassify, longestMatch, routeTable, applyRoute, hget, h5, n0, n1, n2, n3, n4, n5, n6, n7]
            · have f5 : startsWith line "GET /button.png" = false := by simpa using h5
              by_cases h6 : startsWith line "GET /button-A" = true
              · have n0 := startsWith_excl line "GET /button-A" "GET / " (by decide) (by decide) (by decide) h6
                have n1 := startsWith_excl line "GET /button-A" "GET /electric-idea_100x100.jpg" (by decide) (by decide) (by decide) h6
                have n2 := startsWith_excl line "GET /button-A" "GET /favicon.ico" (by decide) (by decide) (by decide) h6
                have n3 := startsWith_excl line "GET /button-A" "GET /screenshot.bmp" (by decide) (by decide) (by decide) h6
                have n4 := startsWith_excl line "GET /button-A" "GET /refresh-40x30.png" (by decide) (by decide) (by decide) h6
                have n5 := startsWith_excl line "GET /button-A" "GET /button.png" (by decide) (by decide) (by decide) h6
                have n6 := startsWith_excl line "GET /button-A" "GET /button-B" (by decide) (by decide) (by decide) h6
                have n7 := startsWith_excl line "GET /button-A" "GET /button-C" (by decide) (by decide) (by decide) h6
                simp [analyzeLine, specClassify, longestMatch, routeTable, applyRoute, hget, h6, n0, n1, n2, n3, n4, n5, n6, n7]
              · have f6 : startsWith line "GET /button-A" = false := by simpa using h6
                by_cases h7 : startsWith line "GET /button-B" = true
                · have n0 := startsWith_excl line "GET /button-B" "GET / " (by decide) (by decide) (by decide) h7
                  have n1 := startsWith_excl line "GET /button-B" "GET /electric-idea_100x100.jpg" (by decide) (by decide) (by decide) h7
                  have n2 := startsWith_excl line "GET /button-B" "GET /favicon.ico" (by decide) (by decide) (by decide) h7
                  have n3 := startsWith_excl line "GET /button-B" "GET /screenshot.bmp" (by decide) (by decide) (by decide) h7
                  have n4 := startsWith_excl line "GET /button-B" "GET /refresh-40x30.png" (by decide) (by decide) (by decide) h7
                  have n5 := startsWith_excl line "GET /button-B" "GET /button.png" (by decide) (by decide) (by decide) h7
                  have n6 := startsWith_excl line "GET /button-B" "GET /button-A" (by decide) (by decide) (by decide) h7
                  have n7 := startsWith_excl line "GET /button-B" "GET /button-C" (by decide) (by decide) (by decide) h7
                  simp [analyzeLine, specClassify, longestMatch, routeTable, applyRoute, hget, h7, n0, n1, n2, n3, n4, n5, n6, n7]
                · have f7 : startsWith line "GET /button-B" = false := by simpa using h7
                  by_cases h8 : startsWith line "GET /button-C" = true
                  · have n0 := startsWith_excl line "GET /button-C" "GET / " (by decide) (by decide) (by decide) h8
                    have n1 := startsWith_excl line "GET /button-C" "GET /electric-idea_100x100.jpg" (by decide) (by decide) (by decide) h8
                    have n2 := startsWith_excl line "GET /button-C" "GET /favicon.ico" (by decide) (by decide) (by decide) h8
                    have n3 := startsWith_excl line "GET /button-C" "GET /screenshot.bmp" (by decide) (by decide) (by decide) h8
                    have n4 := startsWith_excl line "GET /button-C" "GET /refresh-40x30.png" (by decide) (by decide) (by decide) h8
                    have n5 := startsWith_excl line "GET /button-C" "GET /button.png" (by decide) (by decide) (by decide) h8
                    have n6 := startsWith_excl line "GET /button-C" "GET /button-A" (by decide) (by decide) (by decide) h8
                    have n7 := startsWith_excl line "GET /button-C" "GET /button-B" (by decide) (by decide) (by decide) h8
                    simp [analyzeLine, specClassify, longestMatch, routeTable, applyRoute, hget, h8, n0, n1, n2, n3, n4, n5, n6, n7]
                  · have f8 : startsWith line "GET /button-C" = false := by simpa using h8
                    simp [analyzeLine, specClassify, longestMatch, routeTable, applyRoute, hget, f0, f1, f2, f3, f4, f5, f6, f7, f8]

/-- A route changes at most one control flag. -/
theorem applyRoute_flags (g : Globals) (r : Option Route) :
    ¬ ((applyRoute g r).Control_A_pressed ≠ g.Control_A_pressed ∧
        (applyRoute g r).Control_B_pressed ≠ g.Control_B_pressed) ∧
      ¬ ((applyRoute g r).Control_A_pressed ≠ g.Control_A_pressed ∧
        (applyRoute g r).Control_C_pressed ≠ g.Control_C_pressed) ∧
      ¬ ((applyRoute g r).Control_B_pressed ≠ g.Control_B_pressed ∧
        (applyRoute g r).Control_C_pressed ≠ g.Control_C_pressed) := by
  cases r with
  | none => simp [applyRoute]
  | some r =>
    obtain ⟨p, t, f⟩ := r
    cases f with
    | none => simp [applyRoute]
    | some ch => cases ch <;> simp [applyRoute]

/-- C19: longest-prefix equivalence. The nine prefixes of the route table are
pairwise not prefixes of one another, so no line begins with two of them; for
every line that begins with `GET /` the globals that the sequence of
`startsWith` tests of the code produces are those of the longest-prefix
lookup in the route table of the specification, and the line changes at most
one control flag. -/
theorem longest_prefix_equivalence (line : List Byte) (g : Globals)
    (hget : ascii "GET /" <+: line) :
    (∀ p ∈ routePrefixes, ∀ q ∈ routePrefixes, p ≠ q → ¬ ascii p <+: ascii q) ∧
      ((∀ p ∈ routePrefixes, p ∈ routeTable.map Route.pfx) ∧
        (∀ p ∈ routeTable.map Route.pfx, p ∈ routePrefixes)) ∧
      (∀ p ∈ routePrefixes, ∀ q ∈ routePrefixes,
        ascii p <+: line → ascii q <+: line → p = q) ∧
      analyzeLine line g = specClassify line g ∧
      analyzeLine line g = applyRoute g (longestMatch line) ∧
      (¬ ((analyzeLine line g).Control_A_pressed ≠ g.Control_A_pressed ∧
          (analyzeLine line g).Control_B_pressed ≠ g.Control_B_pressed) ∧
        ¬ ((analyzeLine line g).Control_A_pressed ≠ g.Control_A_pressed ∧
          (analyzeLine line g).Control_C_pressed ≠ g.Control_C_pressed) ∧
        ¬ ((analyzeLine line g).Control_B_pressed ≠ g.Control_B_pressed ∧
          (analyzeLine line g).Control_C_pressed ≠ g.Control_C_pressed)) := by
  have hb : startsWith line "GET /" = true := (startsWith_iff line "GET /").mpr hget
  have hspec : analyzeLine line g = applyRoute g (longestMatch line) := by
    rw [analyzeLine_eq_spec line g hb, specClassify, if_pos hb]
  refine ⟨by decide, ⟨by decide, by decide⟩, ?_, analyzeLine_eq_spec line g hb, hspec, ?_⟩
  · intro p hp q hq h1 h2
    by_contra hne
    have e := startsWith_excl line p q hp hq hne ((startsWith_iff line p).mpr h1)
    rw [(startsWith_iff line q).mpr h2] at e
    exact absurd e (by simp)
  · rw [hspec]
    exact applyRoute_flags g (longestMatch line)

/-- Witness of C19: the line `GET /button-B HTTP/1.1` begins with `GET /`; the
code and the route table both give the index tag with flag B set, the other
flags being as before. -/
theorem longest_prefix_equivalence_witness :
    ascii "GET /" <+: ascii "GET /button-B HTTP/1.1" ∧
      analyzeLine (ascii "GET /button-B HTTP/1.1") globals0
        = specClassify (ascii "GET /button-B HTTP/1.1") globals0 ∧
      specClassify (ascii "GET /button-B HTTP/1.1") globals0
        = { globals0 with html_get_request := GET_index_page, Control_B_pressed := true } :=
  ⟨by decide,
   (longest_prefix_equivalence (ascii "GET /button-B HTTP/1.1") globals0 (by decide)).2.2.2.1,
   by decide⟩

/-! The two BMP emitters and the single encoder of the specification. -/

theorem le32_mod (n : Nat) : le32 (n % 2 ^ 32) = le32 n := by
  have p32 : (2 : Nat) ^ 32 = 4294967296 := by norm_num
  have p8 : (2 : Nat) ^ 8 = 256 := by norm_num
  have p16 : (2 : Nat) ^ 16 = 65536 := by norm_num
  have p24 : (2 : Nat) ^ 24 = 16777216 := by norm_num
  have e0 : n % 4294967296 % 256 = n % 256 := by omega
  have e1 : n % 4294967296 / 256 % 256 = n / 256 % 256 := by omega
  have e2 : n % 4294967296 / 65536 % 256 = n / 65536 % 256 := by omega
  have e3 : n % 4294967296 / 16777216 % 256 = n / 16777216 % 256 := by omega
  simp only [le32, p32, p8, p16, p24, e0, e1, e2, e3]

theorem specBmpHeader_eq (lcd : Lcd) :
    specBmpHeader lcd
      = bmpHeader ((54 + bmpRowLen lcd.width * lcd.height) % 2 ^ 32) lcd.width lcd.height := by
  have h := le32_mod (54 + bmpRowLen lcd.width * lcd.height)
  simp only [le32] at h
  injection h with h0 h
  injection h with h1 h
  injection h with h2 h
  injection h with h3 h
  simp only [bmpHeader, h0, h1, h2, h3]
  rfl

/-- The first `3 * n` bytes of an emitted row are the first `n` pixels as
blue, green, red. -/
theorem bgrRow_eq_map (lcd : Lcd) (y : Nat) (n : Nat) (hn : n ≤ lcd.width) :
    (List.range (n * 3)).map (bmpRowByte lcd y)
      = (List.range n).flatMap
          (fun x => [(lcd.pixel x y).b, (lcd.pixel x y).g, (lcd.pixel x y).r]) := by
  induction n with
  | zero => rfl
  | succ n ih =>
    obtain ⟨e0, e1, e2⟩ := bmpRowByte_at lcd y n (by omega)
    have h3 : List.range 3 = [0, 1, 2] := rfl
    rw [show (n + 1) * 3 = n * 3 + 3 by ring, List.range_add, h3, List.map_append,
      ih (by omega), List.range_succ, List.flatMap_append, List.flatMap_singleton]
    simp only [List.map_cons, List.map_nil, Nat.add_zero]
    rw [show n * 3 = 3 * n by ring, e0, e1, e2]

/-- A row of the specification is the row that the emitters write. -/
theorem specBmpRow_eq (lcd : Lcd) (y : Nat) :
    specBmpRow lcd y = (List.range (bmpRowLen lcd.width)).map (bmpRowByte lcd y) := by
  rw [bmpRowLen, List.range_add, List.map_append, List.map_map, specBmpRow]
  congr 1
  · rw [← bgrRow_eq_map lcd y lcd.width (le_refl _),
      show lcd.width * 3 = 3 * lcd.width by ring]
  · symm
    rw [List.eq_replicate_iff]
    refine ⟨by simp, ?_⟩
    intro b hb
    obtain ⟨k, _, hk⟩ := List.mem_map.mp hb
    rw [← hk]
    simp [bmpRowByte]

theorem foldl_emit_append (l : List Nat) (f : Nat → List Byte) (init : List Byte) :
    l.foldl (fun s y => s ++ f y) init = init ++ l.flatMap f := by
  induction l generalizing init with
  | nil => simp
  | cons a rest ih =>
    rw [List.foldl_cons, ih, List.flatMap_cons, List.append_assoc]

/-- The rows of the specification, bottom row first, are the pixel array of
the closed-form stream. -/
theorem specRows_eq (lcd : Lcd) (n : Nat) :
    (List.range n).reverse.flatMap (specBmpRow lcd)
      = (List.range (bmpRowLen lcd.width * n)).map
          (fun i => bmpRowByte lcd (n - 1 - i / bmpRowLen lcd.width)
            (i % bmpRowLen lcd.width)) := by
  induction n with
  | zero => simp
  | succ n ih =>
    have hsplit : bmpRowLen lcd.width * (n + 1)
        = bmpRowLen lcd.width + bmpRowLen lcd.width * n := by ring
    rw [List.range_succ, List.reverse_append, List.reverse_singleton, List.singleton_append,
      List.flatMap_cons, ih, hsplit, List.range_add, List.map_append, List.map_map,
      specBmpRow_eq]
    congr 1
    · apply List.map_congr_left
      intro k hk
      have hk2 : k < bmpRowLen lcd.width := List.mem_range.mp hk
      rw [Nat.div_eq_of_lt hk2, Nat.mod_eq_of_lt hk2]
      simp only [Nat.add_sub_cancel, Nat.sub_zero]
    · apply List.map_congr_left
      intro k hk
      have hk2 : k < bmpRowLen lcd.width * n := List.mem_range.mp hk
      have hL : 0 < bmpRowLen lcd.width := by
        rcases Nat.eq_zero_or_pos (bmpRowLen lcd.width) with h | h
        · rw [h] at hk2; omega
        · exact h
      have hdiv : k / bmpRowLen lcd.width < n := by
        rw [Nat.div_lt_iff_lt_mul hL]; rw [Nat.mul_comm]; exact hk2
      simp only [Function.comp]
      rw [Nat.add_comm (bmpRowLen lcd.width) k,
        show k + bmpRowLen lcd.width = k + bmpRowLen lcd.width * 1 by omega,
        Nat.add_mul_div_left _ _ hL, Nat.add_mul_mod_self_left]
      congr 1
      omega

/-- The encoder of the specification on a byte-list sink appends the
closed-form stream. -/
theorem specBmpEncode_eq (lcd : Lcd) (sink : List Byte) :
    specBmpEncode (fun s d => s ++ d) lcd sink = sink ++ bmpStream lcd := by
  rw [specBmpEncode, foldl_emit_append, specRows_eq, specBmpHeader_eq, bmpStream,
    List.append_assoc]

/-- The calls of the network emitter depend only on the display and on the
calls made before. -/
theorem M5Screen2bmp_client_io_same (stack : Mem) (a b : World) (h : SameCalls a b) :
    SameCalls (M5Screen2bmp_client_io stack a).2 (M5Screen2bmp_client_io stack b).2 := by
  obtain ⟨l, r, wr⟩ := h
  rw [M5Screen2bmp_client_io_unfold, M5Screen2bmp_client_io_unfold, l]
  have key : ∀ (W pad n : Nat) (d : Mem) (wa wb : World), SameCalls wa wb →
      SameCalls (downLoop n (bmpRowStepIo W pad) (d, wa)).2
        (downLoop n (bmpRowStepIo W pad) (d, wb)).2 :=
    fun W pad n d wa wb hs => bmpRowLoopIo_same W pad n (d, wa) (d, wb) rfl hs
  refine key _ _ _ _ _ _ ?_
  exact writeBytes_same _ _ _ ⟨l, r, wr⟩

/-- C20: the two BMP emitters agree. For every display and whatever the
scanline arrays held before, `M5Screen2bmp(client)` appends to the client
exactly the bytes that `M5Screen2bmp(fs, path)` writes to the file when it
opens, both return true, and both are the single encoder of the
specification, generic over the sink, applied to the respective sink. With a
record of the calls, the file emitter is the network emitter on the emptied
file: the same display rows are read and the same writes are issued. -/
theorem bmp_emitters_agree (lcd : Lcd) (stack1 stack2 : Mem) (client : List Byte)
    (w : World) :
    (M5Screen2bmp_client lcd stack1 []).2 = (M5Screen2bmp_fs lcd stack2 true).2 ∧
      (M5Screen2bmp_client lcd stack1 client).2
        = client ++ (M5Screen2bmp_fs lcd stack2 true).2 ∧
      (M5Screen2bmp_client lcd stack1 client).1 = (M5Screen2bmp_fs lcd stack2 true).1 ∧
      (M5Screen2bmp_client lcd stack1 client).2
        = specBmpEncode (fun s d => s ++ d) lcd client ∧
      (M5Screen2bmp_fs lcd stack2 true).2 = specBmpEncode (fun s d => s ++ d) lcd [] ∧
      M5Screen2bmp_fs_io true stack1 w = M5Screen2bmp_client_io stack1 { w with stored := [] } ∧
      (M5Screen2bmp_fs_io true stack1 w).2.writes = (M5Screen2bmp_client_io stack1 w).2.writes ∧
      (M5Screen2bmp_fs_io true stack1 w).2.reads = (M5Screen2bmp_client_io stack1 w).2.reads := by
  rw [M5Screen2bmp_client_eq, M5Screen2bmp_client_eq, M5Screen2bmp_fs_eq, specBmpEncode_eq,
    specBmpEncode_eq]
  have hs := M5Screen2bmp_client_io_same stack1 { w with stored := [] } w ⟨rfl, rfl, rfl⟩
  refine ⟨by simp, rfl, rfl, rfl, by simp, rfl, ?_, ?_⟩
  · rw [M5Screen2bmp_fs_io_unfold]
    exact hs.2.2
  · rw [M5Screen2bmp_fs_io_unfold]
    exact hs.2.1

/-! Carriage returns are ignored. -/

theorem readByte_cr (assets : Assets) (lcd : Lcd) (stack : Mem) (st : Conn) :
    readByte assets lcd stack '\r'.toNat st = st := by
  simp [readByte]

/-- On a connection that has not been answered yet, the client loop and the
lines it completes are the same with the carriage returns removed. -/
theorem clientLoop_withoutCR (assets : Assets) (lcd : Lcd) (stack : Mem) (s : List Byte)
    (st : Conn) (hr : st.responded = false) :
    clientLoop assets lcd stack (withoutCR s) st = clientLoop assets lcd stack s st ∧
      completedLines assets lcd stack (withoutCR s) st
        = completedLines assets lcd stack s st := by
  induction s generalizing st with
  | nil => exact ⟨rfl, rfl⟩
  | cons c cs ih =>
    by_cases hc : c = '\r'.toNat
    · subst hc
      have hf : withoutCR ('\r'.toNat :: cs) = withoutCR cs := by
        simp [withoutCR]
      obtain ⟨i1, i2⟩ := ih st hr
      rw [hf]
      constructor
      · simp only [clientLoop, readByte_cr, hr]
        exact i1
      · simp only [completedLines, readByte_cr, hr]
        rw [i2]
        simp
    · have hc13 : ¬ c = 13 := hc
      have hf : withoutCR (c :: cs) = c :: withoutCR cs := by
        simp [withoutCR, hc13]
      rw [hf]
      cases hresp : (readByte assets lcd stack c st).responded with
      | true =>
        constructor
        · simp only [clientLoop, hresp, if_true]
        · simp only [completedLines, hresp, if_true]
      | false =>
        obtain ⟨i1, i2⟩ := ih (readByte assets lcd stack c st) hresp
        constructor
        · simp only [clientLoop, hresp]
          exact i1
        · simp only [completedLines, hresp]
          rw [i2]

theorem withoutCR_crlf (lines : List (List Byte)) :
    withoutCR (crlfRequest lines) = withoutCR (lfRequest lines) := by
  induction lines with
  | nil => rfl
  | cons l rest ih =>
    simp only [crlfRequest, lfRequest, withoutCR, List.flatMap_cons, List.filter_append] at ih ⊢
    rw [ih]
    simp

/-- C21: carriage returns are ignored. For every byte sequence `s` that a
client delivers, `check_webserver` ends in the same globals (classification
tag and control flags included) and writes the same response for `s` and for
`s` with every carriage return removed; the parser state and the sequence of
completed lines are the same too. In particular a request whose lines end in
CR LF and the same request with bare LF line ends are treated alike. -/
theorem carriage_returns_ignored (assets : Assets) (lcd : Lcd) (stack : Mem) (s : List Byte)
    (g : Globals) (lines : List (List Byte)) :
    check_webserver assets lcd stack (some (withoutCR s)) g
        = check_webserver assets lcd stack (some s) g ∧
      clientLoop assets lcd stack (withoutCR s) (Conn.fresh g)
        = clientLoop assets lcd stack s (Conn.fresh g) ∧
      completedLines assets lcd stack (withoutCR s) (Conn.fresh g)
        = completedLines assets lcd stack s (Conn.fresh g) ∧
      check_webserver assets lcd stack (some (crlfRequest lines)) g
        = check_webserver assets lcd stack (some (lfRequest lines)) g ∧
      completedLines assets lcd stack (crlfRequest lines) (Conn.fresh g)
        = completedLines assets lcd stack (lfRequest lines) (Conn.fresh g) := by
  have key : ∀ t : List Byte,
      check_webserver assets lcd stack (some (withoutCR t)) g
        = check_webserver assets lcd stack (some t) g := by
    intro t
    have h := (clientLoop_withoutCR assets lcd stack t (Conn.fresh g) rfl).1
    simp only [check_webserver]
    rw [show ({ g := g, currentLine := [], client := [], responded := false } : Conn)
      = Conn.fresh g from rfl, h]
  obtain ⟨h1, h2⟩ := clientLoop_withoutCR assets lcd stack s (Conn.fresh g) rfl
  refine ⟨key s, h1, h2, ?_, ?_⟩
  · rw [← key (crlfRequest lines), ← key (lfRequest lines), withoutCR_crlf]
  · rw [← (clientLoop_withoutCR assets lcd stack (crlfRequest lines) (Conn.fresh g) rfl).2,
      ← (clientLoop_withoutCR assets lcd stack (lfRequest lines) (Conn.fresh g) rfl).2,
      withoutCR_crlf]

/-- The request `GET /button-C HTTP/1.0` with CR LF line ends and with bare LF
line ends: the same lines are completed, the same response is written and
flag C is set in both cases. -/
theorem carriage_returns_ignored_witness :
    crlfRequest [ascii "GET /button-C HTTP/1.0", []] = ascii "GET /button-C HTTP/1.0\r\n\r\n" ∧
      lfRequest [ascii "GET /button-C HTTP/1.0", []] = ascii "GET /button-C HTTP/1.0\n\n" ∧
      check_webserver assets0 lcd2x2 stack0 (some (ascii "GET /button-C HTTP/1.0\r\n\r\n"))
          (setup 0)
        = check_webserver assets0 lcd2x2 stack0 (some (ascii "GET /button-C HTTP/1.0\n\n"))
          (setup 0) ∧
      completedLines assets0 lcd2x2 stack0 (ascii "GET /button-C HTTP/1.0\r\n\r\n")
          (Conn.fresh (setup 0)) = [ascii "GET /button-C HTTP/1.0"] ∧
      (check_webserver assets0 lcd2x2 stack0 (some (ascii "GET /button-C HTTP/1.0\r\n\r\n"))
          (setup 0)).1.Control_C_pressed = true :=
  ⟨by decide, by decide,
   (carriage_returns_ignored assets0 lcd2x2 stack0 [] (setup 0)
      [ascii "GET /button-C HTTP/1.0", []]).2.2.2.1,
   by decide, by decide⟩

/-! The flag frame of the request parser. -/

/-- A conditional assignment that keeps the three control flags. -/
theorem step_keep (c : Bool) (g h : Globals)
    (hA : h.Control_A_pressed = g.Control_A_pressed)
    (hB : h.Control_B_pressed = g.Control_B_pressed)
    (hC : h.Control_C_pressed = g.Control_C_pressed) :
    (if c = true then h else g).Control_A_pressed = g.Control_A_pressed ∧
      (if c = true then h else g).Control_B_pressed = g.Control_B_pressed ∧
      (if c = true then h else g).Control_C_pressed = g.Control_C_pressed := by
  cases c
  · exact ⟨rfl, rfl, rfl⟩
  · exact ⟨hA, hB, hC⟩

/-- A conditional assignment that sets flag A and keeps the other two. -/
theorem step_setA (c : Bool) (g h : Globals) (hA : h.Control_A_pressed = true)
    (hB : h.Control_B_pressed = g.Control_B_pressed)
    (hC : h.Control_C_pressed = g.Control_C_pressed) :
    (if c = true then h else g).Control_A_pressed = (g.Control_A_pressed || c) ∧
      (if c = true then h else g).Control_B_pressed = g.Control_B_pressed ∧
      (if c = true then h else g).Control_C_pressed = g.Control_C_pressed := by
  cases c
  · exact ⟨by simp, rfl, rfl⟩
  · exact ⟨by simp [hA], hB, hC⟩

/-- A conditional assignment that sets flag B and keeps the other two. -/
theorem step_setB (c : Bool) (g h : Globals) (hA : h.Control_A_pressed = g.Control_A_pressed)
    (hB : h.Control_B_pressed = true)
    (hC : h.Control_C_pressed = g.Control_C_pressed) :
    (if c = true then h else g).Control_A_pressed = g.Control_A_pressed ∧
      (if c = true then h else g).Control_B_pressed = (g.Control_B_pressed || c) ∧
      (if c = true then h else g).Control_C_pressed = g.Control_C_pressed := by
  cases c
  · exact ⟨rfl, by simp, rfl⟩
  · exact ⟨hA, by simp [hB], hC⟩

/-- A conditional assignment that sets flag C and keeps the other two. -/
theorem step_setC (c : Bool) (g h : Globals) (hA : h.Control_A_pressed = g.Control_A_pressed)
    (hB : h.Control_B_pressed = g.Control_B_pressed)
    (hC : h.Control_C_pressed = true) :
    (if c = true then h else g).Control_A_pressed = g.Control_A_pressed ∧
      (if c = true then h else g).Control_B_pressed = g.Control_B_pressed ∧
      (if c = true then h else g).Control_C_pressed = (g.Control_C_pressed || c) := by
  cases c
  · exact ⟨rfl, rfl, by simp⟩
  · exact ⟨hA, hB, by simp [hC]⟩

theorem startsWith_button_false (l : List Byte) (p : String) (hp : ascii "GET /" <+: ascii p)
    (h : ¬ startsWith l "GET /" = true) : startsWith l p = false := by
  cases hb : startsWith l p with
  | false => rfl
  | true => exact absurd (startsWith_get l p hp ((startsWith_iff l p).mp hb)) h

/-- The control flags after the analysis of a line: each flag is what it was,
or true when the line begins with the prefix of its button. -/
theorem analyzeLine_flags (l : List Byte) (g : Globals) :
    (analyzeLine l g).Control_A_pressed
        = (g.Control_A_pressed || startsWith l "GET /button-A") ∧
      (analyzeLine l g).Control_B_pressed
        = (g.Control_B_pressed || startsWith l "GET /button-B") ∧
      (analyzeLine l g).Control_C_pressed
        = (g.Control_C_pressed || startsWith l "GET /button-C") := by
  unfold analyzeLine
  lift_lets
  intro g0 g1 g2 g3 g4 g5 g6 g7 g8 g9
  have e1 := step_keep (startsWith l "GET / ") g0
    { g0 with html_get_request := GET_index_page } rfl rfl rfl
  have e2 := step_keep (startsWith l "GET /electric-idea_100x100.jpg") g1
    { g1 with html_get_request := GET_logo } rfl rfl rfl
  have e3 := step_keep (startsWith l "GET /favicon.ico") g2
    { g2 with html_get_request := GET_favicon } rfl rfl rfl
  have e4 := step_keep (startsWith l "GET /screenshot.bmp") g3
    { g3 with html_get_request := GET_screenshot } rfl rfl rfl
  have e5 := step_keep (startsWith l "GET /refresh-40x30.png") g4
    { g4 with html_get_request := GET_refresh_img } rfl rfl rfl
  have e6 := step_keep (startsWith l "GET /button.png") g5
    { g5 with html_get_request := GET_button_img } rfl rfl rfl
  have e7 := step_setA (startsWith l "GET /button-A") g6
    { g6 with Control_A_pressed := true, html_get_request := GET_index_page } rfl rfl rfl
  have e8 := step_setB (startsWith l "GET /button-B") g7
    { g7 with Control_B_pressed := true, html_get_request := GET_index_page } rfl rfl rfl
  have e9 := step_setC (startsWith l "GET /button-C") g8
    { g8 with Control_C_pressed := true, html_get_request := GET_index_page } rfl rfl rfl
  have a1 : g1.Control_A_pressed = g0.Control_A_pressed := e1.1
  have a2 : g2.Control_A_pressed = g1.Control_A_pressed := e2.1
  have a3 : g3.Control_A_pressed = g2.Control_A_pressed := e3.1
  have a4 : g4.Control_A_pressed = g3.Control_A_pressed := e4.1
  have a5 : g5.Control_A_pressed = g4.Control_A_pressed := e5.1
  have a6 : g6.Control_A_pressed = g5.Control_A_pressed := e6.1
  have a7 : g7.Control_A_pressed = (g6.Control_A_pressed || startsWith l "GET /button-A") :=
    e7.1
  have a8 : g8.Control_A_pressed = g7.Control_A_pressed := e8.1
  have a9 : g9.Control_A_pressed = g8.Control_A_pressed := e9.1
  have b1 : g1.Control_B_pressed = g0.Control_B_pressed := e1.2.1
  have b2 : g2.Control_B_pressed = g1.Control_B_pressed := e2.2.1
  have b3 : g3.Control_B_pressed = g2.Control_B_pressed := e3.2.1
  have b4 : g4.Control_B_pressed = g3.Control_B_pressed := e4.2.1
  have b5 : g5.Control_B_pressed = g4.Control_B_pressed := e5.2.1
  have b6 : g6.Control_B_pressed = g5.Control_B_pressed := e6.2.1
  have b7 : g7.Control_B_pressed = g6.Control_B_pressed := e7.2.1
  have b8 : g8.Control_B_pressed = (g7.Control_B_pressed || startsWith l "GET /button-B") :=
    e8.2.1
  have b9 : g9.Control_B_pressed = g8.Control_B_pressed := e9.2.1
  have c1 : g1.Control_C_pressed = g0.Control_C_pressed := e1.2.2
  have c2 : g2.Control_C_pressed = g1.Control_C_pressed := e2.2.2
  have c3 : g3.Control_C_pressed = g2.Control_C_pressed := e3.2.2
  have c4 : g4.Control_C_pressed = g3.Control_C_pressed := e4.2.2
  have c5 : g5.Control_C_pressed = g4.Control_C_pressed := e5.2.2
  have c6 : g6.Control_C_pressed = g5.Control_C_pressed := e6.2.2
  have c7 : g7.Control_C_pressed = g6.Control_C_pressed := e7.2.2
  have c8 : g8.Control_C_pressed = g7.Control_C_pressed := e8.2.2
  have c9 : g9.Control_C_pressed = (g8.Control_C_pressed || startsWith l "GET /button-C") :=
    e9.2.2
  have a0 : g0.Control_A_pressed = g.Control_A_pressed := rfl
  have b0 : g0.Control_B_pressed = g.Control_B_pressed := rfl
  have c0 : g0.Control_C_pressed = g.Control_C_pressed := rfl
  split_ifs with hget
  · refine ⟨?_, ?_, ?_⟩
    · rw [a9, a8, a7, a6, a5, a4, a3, a2, a1, a0]
    · rw [b9, b8, b7, b6, b5, b4, b3, b2, b1, b0]
    · rw [c9, c8, c7, c6, c5, c4, c3, c2, c1, c0]
  · rw [startsWith_button_false l "GET /button-A" (by decide) hget,
      startsWith_button_false l "GET /button-B" (by decide) hget,
      startsWith_button_false l "GET /button-C" (by decide) hget]
    simp

/-- Reading a byte never clears a control flag. -/
theorem readByte_flags_kept (assets : Assets) (lcd : Lcd) (stack : Mem) (c : Byte) (st : Conn) :
    (st.g.Control_A_pressed = true →
        (readByte assets lcd stack c st).g.Control_A_pressed = true) ∧
      (st.g.Control_B_pressed = true →
        (readByte assets lcd stack c st).g.Control_B_pressed = true) ∧
      (st.g.Control_C_pressed = true →
        (readByte assets lcd stack c st).g.Control_C_pressed = true) := by
  obtain ⟨fa, fb, fc⟩ := analyzeLine_flags st.currentLine st.g
  unfold readByte
  split_ifs
  · exact ⟨id, id, id⟩
  · refine ⟨fun h => ?_, fun h => ?_, fun h => ?_⟩
    · show (analyzeLine st.currentLine st.g).Control_A_pressed = true
      rw [fa, h]; rfl
    · show (analyzeLine st.currentLine st.g).Control_B_pressed = true
      rw [fb, h]; rfl
    · show (analyzeLine st.currentLine st.g).Control_C_pressed = true
      rw [fc, h]; rfl
  · exact ⟨id, id, id⟩
  · exact ⟨id, id, id⟩

/-- Serving a client never clears a control flag. -/
theorem clientLoop_flags_kept (assets : Assets) (lcd : Lcd) (stack : Mem) (bytes : List Byte)
    (st : Conn) :
    (st.g.Control_A_pressed = true →
        (clientLoop assets lcd stack bytes st).g.Control_A_pressed = true) ∧
      (st.g.Control_B_pressed = true →
        (clientLoop assets lcd stack bytes st).g.Control_B_pressed = true) ∧
      (st.g.Control_C_pressed = true →
        (clientLoop assets lcd stack bytes st).g.Control_C_pressed = true) := by
  induction bytes generalizing st with
  | nil => exact ⟨id, id, id⟩
  | cons c cs ih =>
    obtain ⟨ra, rb, rc⟩ := readByte_flags_kept assets lcd stack c st
    obtain ⟨ia, ib, ic⟩ := ih (readByte assets lcd stack c st)
    simp only [clientLoop]
    split_ifs
    · exact ⟨ra, rb, rc⟩
    · exact ⟨fun h => ia (ra h), fun h => ib (rb h), fun h => ic (rc h)⟩

/-- C22: flag frame of the request parser. The analysis of a request line
changes a control flag only if the line begins with the prefix of that button
(`GET /button-A`, `GET /button-B`, `GET /button-C`), and then from false to
true; a line that begins with none of the three, such as a line for one of
the six other routes, an unmatched line or a line not beginning with `GET /`,
leaves all three flags as they are. No flag is ever reset to false, neither by
a line nor by a whole client served, and `gauge_val` and `next_millis` are
never modified. -/
theorem parser_flag_frame (assets : Assets) (lcd : Lcd) (stack : Mem) (l : List Byte)
    (g : Globals) (incoming : Option (List Byte)) :
    (((analyzeLine l g).Control_A_pressed ≠ g.Control_A_pressed →
        ascii "GET /button-A" <+: l ∧ g.Control_A_pressed = false ∧
          (analyzeLine l g).Control_A_pressed = true) ∧
      ((analyzeLine l g).Control_B_pressed ≠ g.Control_B_pressed →
        ascii "GET /button-B" <+: l ∧ g.Control_B_pressed = false ∧
          (analyzeLine l g).Control_B_pressed = true) ∧
      ((analyzeLine l g).Control_C_pressed ≠ g.Control_C_pressed →
        ascii "GET /button-C" <+: l ∧ g.Control_C_pressed = false ∧
          (analyzeLine l g).Control_C_pressed = true)) ∧
    (¬ ascii "GET /button-A" <+: l → ¬ ascii "GET /button-B" <+: l →
      ¬ ascii "GET /button-C" <+: l →
      (analyzeLine l g).Control_A_pressed = g.Control_A_pressed ∧
        (analyzeLine l g).Control_B_pressed = g.Control_B_pressed ∧
        (analyzeLine l g).Control_C_pressed = g.Control_C_pressed) ∧
    (∀ p ∈ plainRoutePrefixes, ascii p <+: l →
      (analyzeLine l g).Control_A_pressed = g.Control_A_pressed ∧
        (analyzeLine l g).Control_B_pressed = g.Control_B_pressed ∧
        (analyzeLine l g).Control_C_pressed = g.Control_C_pressed) ∧
    (¬ ascii "GET /" <+: l → analyzeLine l g = g) ∧
    ((g.Control_A_pressed = true → (analyzeLine l g).Control_A_pressed = true) ∧
      (g.Control_B_pressed = true → (analyzeLine l g).Control_B_pressed = true) ∧
      (g.Control_C_pressed = true → (analyzeLine l g).Control_C_pressed = true)) ∧
    ((g.Control_A_pressed = true →
        (check_webserver assets lcd stack incoming g).1.Control_A_pressed = true) ∧
      (g.Control_B_pressed = true →
        (check_webserver assets lcd stack incoming g).1.Control_B_pressed = true) ∧
      (g.Control_C_pressed = true →
        (check_webserver assets lcd stack incoming g).1.Control_C_pressed = true)) ∧
    ((analyzeLine l g).gauge_val = g.gauge_val ∧
      (analyzeLine l g).next_millis = g.next_millis ∧
      (check_webserver assets lcd stack incoming g).1.gauge_val = g.gauge_val ∧
      (check_webserver assets lcd stack incoming g).1.next_millis = g.next_millis) := by
  obtain ⟨fa, fb, fc⟩ := analyzeLine_flags l g
  have keep : ¬ ascii "GET /button-A" <+: l → ¬ ascii "GET /button-B" <+: l →
      ¬ ascii "GET /button-C" <+: l →
      (analyzeLine l g).Control_A_pressed = g.Control_A_pressed ∧
        (analyzeLine l g).Control_B_pressed = g.Control_B_pressed ∧
        (analyzeLine l g).Control_C_pressed = g.Control_C_pressed := by
    intro na nb nc
    rw [fa, fb, fc, not_startsWith l _ na, not_startsWith l _ nb, not_startsWith l _ nc]
    simp
  have change : ∀ (old new : Bool) (p : String), new = (old || startsWith l p) →
      new ≠ old → ascii p <+: l ∧ old = false ∧ new = true := by
    intro old new p e hne
    cases hs : startsWith l p with
    | false =>
      rw [hs, Bool.or_false] at e
      exact absurd e hne
    | true =>
      rw [hs, Bool.or_true] at e
      refine ⟨(startsWith_iff l p).mp hs, ?_, e⟩
      cases old with
      | false => rfl
      | true => exact absurd e hne
  refine ⟨⟨change _ _ _ fa, change _ _ _ fb, change _ _ _ fc⟩, keep, ?_, ?_, ⟨?_, ?_, ?_⟩, ?_,
    ⟨(analyzeLine_frame l g).1, (analyzeLine_frame l g).2,
      (check_webserver_frame assets lcd stack incoming g).1,
      (check_webserver_frame assets lcd stack incoming g).2⟩⟩
  · intro p hp hpre
    have hmem : ∀ q ∈ plainRoutePrefixes, q ∈ routePrefixes ∧ q ≠ "GET /button-A" ∧
        q ≠ "GET /button-B" ∧ q ≠ "GET /button-C" := by decide
    obtain ⟨m, qa, qb, qc⟩ := hmem p hp
    have hb := (startsWith_iff l p).mpr hpre
    have ea := startsWith_excl l p "GET /button-A" m (by decide) qa hb
    have eb := startsWith_excl l p "GET /button-B" m (by decide) qb hb
    have ec := startsWith_excl l p "GET /button-C" m (by decide) qc hb
    rw [fa, fb, fc, ea, eb, ec]
    simp
  · intro hn
    have hf := not_startsWith l "GET /" hn
    simp [analyzeLine, hf]
  · intro h
    rw [fa, h]; rfl
  · intro h
    rw [fb, h]; rfl
  · intro h
    rw [fc, h]; rfl
  · cases incoming with
    | none => exact ⟨id, id, id⟩
    | some bytes =>
      exact clientLoop_flags_kept assets lcd stack bytes
        { g := g, currentLine := [], client := [], responded := false }

/-- The line `GET /button-A HTTP/1.1` sets flag A and nothing else; the line
`GET /screenshot.bmp HTTP/1.1` and the line `POST /button-A` change no flag,
and a client that asks for a button after flag C was set leaves C set. -/
theorem parser_flag_frame_witness :
    analyzeLine (ascii "GET /button-A HTTP/1.1") (setup 0)
        = { setup 0 with html_get_request := GET_index_page, Control_A_pressed := true } ∧
      analyzeLine (ascii "GET /screenshot.bmp HTTP/1.1") (setup 0)
        = { setup 0 with html_get_request := GET_screenshot } ∧
      analyzeLine (ascii "POST /button-A") globalsAC = globalsAC ∧
      (check_webserver assets0 lcd2x2 stack0 (some (ascii "GET /button-B HTTP/1.1\r\n\r\n"))
          globalsAC).1.Control_C_pressed = true :=
  ⟨by decide, by decide,
   (parser_flag_frame assets0 lcd2x2 stack0 (ascii "POST /button-A") globalsAC none).2.2.2.1
     (by decide),
   (parser_flag_frame assets0 lcd2x2 stack0 [] globalsAC
     (some (ascii "GET /button-B HTTP/1.1\r\n\r\n"))).2.2.2.2.2.1.2.2 rfl⟩

/-! A button action and the random movement of the same pass. -/

/-- Some button block is the last to fire exactly when one of the three
conditions holds. -/
theorem lastFired_isSome (inp : LoopInput) (g : Globals) :
    (lastFired inp g).isSome = (firesA inp g || firesB inp g || firesC inp g) := by
  unfold lastFired
  cases firesA inp g <;> cases firesB inp g <;> cases firesC inp g <;> rfl

/-- The conditions of the centre and the right button block, evaluated where
the program evaluates them, are those on the globals at the start of the
pass. -/
theorem fires_in_place (inp : LoopInput) (g : Globals) :
    (inp.btnB || (buttonA inp (g, [])).1.Control_B_pressed) = firesB inp g ∧
      (inp.btnC || (buttonB inp (buttonA inp (g, []))).1.Control_C_pressed) = firesC inp g := by
  obtain ⟨t, nm, a, b, c, gv⟩ := g
  cases hA : inp.btnA <;> cases hB : inp.btnB <;> cases hC : inp.btnC <;>
    cases a <;> cases b <;> cases c <;>
    simp [firesB, firesC, buttonA, buttonB, hA, hB, hC]

/-- After the button blocks `gauge_val` and `next_millis` are those of the
last block that fired. -/
theorem buttonPhase_lastFired (inp : LoopInput) (g : Globals) (sp : Int) (m : Nat)
    (hfire : lastFired inp g = some (sp, m)) :
    (buttonPhase inp g).1.gauge_val = sp ∧
      (buttonPhase inp g).1.next_millis = (m + 1000) % 2 ^ 32 ∧
      (sp = 0 ∨ sp = 50 ∨ sp = 100) := by
  rw [buttonPhase_eq]
  unfold lastFired firesA firesB firesC at hfire
  by_cases hC : (inp.btnC || g.Control_C_pressed) = true
  · rw [if_pos hC] at hfire
    cases hfire
    simp [hC]
  · rw [if_neg hC] at hfire
    by_cases hB : (inp.btnB || g.Control_B_pressed) = true
    · rw [if_pos hB] at hfire
      cases hfire
      simp only [hC, hB, if_true, if_false]
      simp
    · rw [if_neg hB] at hfire
      by_cases hA : (inp.btnA || g.Control_A_pressed) = true
      · rw [if_pos hA] at hfire
        cases hfire
        simp only [hC, hB, hA, if_true, if_false]
        simp
      · rw [if_neg hA] at hfire
        cases hfire

/-- The redraws of the button blocks: one per block that fires, at the
set-point of the block. -/
theorem buttonPhase_redraws (inp : LoopInput) (g : Globals) :
    redraws (buttonPhase inp g).2
        = (firesA inp g).toNat + (firesB inp g).toNat + (firesC inp g).toNat ∧
      redrawsAt 0 (buttonPhase inp g).2 = (firesA inp g).toNat ∧
      redrawsAt 50 (buttonPhase inp g).2 = (firesB inp g).toNat ∧
      redrawsAt 100 (buttonPhase inp g).2 = (firesC inp g).toNat := by
  rw [buttonPhase_eq]
  unfold firesA firesB firesC
  cases (inp.btnA || g.Control_A_pressed) <;> cases (inp.btnB || g.Control_B_pressed) <;>
    cases (inp.btnC || g.Control_C_pressed) <;>
    simp [redraws, redrawsAt]

/-- C23: a button action suppresses the random step of the same pass. Let a
pass of `loop` be one in which some button block fires, let the reading of
`millis()` that ends the last fired block be no earlier than the reading at
the top of the pass, and let that reading plus 1000 stay below 2^32. Then the
condition `current_millis > next_millis` of the random movement is false, the
random movement does nothing, `gauge_val` at the end of the pass is the
set-point of the last fired block (0, 50 or 100), `next_millis` is that
reading plus 1000, and the effects of the pass hold exactly one redraw per
fired block, each at the set-point of its block. -/
theorem button_suppresses_random (assets : Assets) (inp : LoopInput) (g : Globals)
    (sp : Int) (m : Nat)
    (hfire : lastFired inp g = some (sp, m))
    (hmono : inp.current_millis ≤ m)
    (hwrap : m + 1000 < 2 ^ 32) :
    (firesA inp g || firesB inp g || firesC inp g) = true ∧
      ¬ (inp.current_millis > (buttonPhase inp g).1.next_millis) ∧
      randomTick inp (buttonPhase inp g) = buttonPhase inp g ∧
      (loop assets inp g).1.gauge_val = sp ∧
      (sp = 0 ∨ sp = 50 ∨ sp = 100) ∧
      (loop assets inp g).1.next_millis = m + 1000 ∧
      (loop assets inp g).2 = (buttonPhase inp g).2 ∧
      redraws (loop assets inp g).2
        = (firesA inp g).toNat + (firesB inp g).toNat + (firesC inp g).toNat ∧
      redrawsAt 0 (loop assets inp g).2 = (firesA inp g).toNat ∧
      redrawsAt 50 (loop assets inp g).2 = (firesB inp g).toNat ∧
      redrawsAt 100 (loop assets inp g).2 = (firesC inp g).toNat := by
  obtain ⟨hg, hn, hsp⟩ := buttonPhase_lastFired inp g sp m hfire
  rw [Nat.mod_eq_of_lt hwrap] at hn
  have hcond : ¬ (inp.current_millis > (buttonPhase inp g).1.next_millis) := by
    rw [hn]
    omega
  have hrt : randomTick inp (buttonPhase inp g) = buttonPhase inp g := by
    rw [randomTick_eq, if_neg hcond]
  have hsome : (firesA inp g || firesB inp g || firesC inp g) = true := by
    rw [← lastFired_isSome, hfire]
    rfl
  have htr : (loop assets inp g).2 = (buttonPhase inp g).2 := by
    rw [(loop_effects assets inp g).1, hrt]
  have hgl : (loop assets inp g).1
      = (check_webserver assets inp.lcd inp.stack inp.incoming (buttonPhase inp g).1).1 := by
    show (check_webserver assets inp.lcd inp.stack inp.incoming
      (randomTick inp (buttonPhase inp g)).1).1 = _
    rw [hrt]
  obtain ⟨r, r0, r50, r100⟩ := buttonPhase_redraws inp g
  refine ⟨hsome, hcond, hrt, ?_, hsp, ?_, htr, ?_, ?_, ?_, ?_⟩
  · rw [hgl, (check_webserver_frame assets inp.lcd inp.stack inp.incoming _).1, hg]
  · rw [hgl, (check_webserver_frame assets inp.lcd inp.stack inp.incoming _).2, hn]
  · rw [htr, r]
  · rw [htr, r0]
  · rw [htr, r50]
  · rw [htr, r100]

/-- With the left and the right button pressed 30 seconds after boot, the
timer having run out long ago, the pass ends with the gauge at 100, two
redraws and the next random movement one second after the right block. -/
theorem button_suppresses_random_witness :
    lastFired pressAC (setup 0) = some (100, 30003) ∧
      pressAC.current_millis > (setup 0).next_millis ∧
      (loop assets0 pressAC (setup 0)).1.gauge_val = 100 ∧
      (loop assets0 pressAC (setup 0)).1.next_millis = 31003 ∧
      redraws (loop assets0 pressAC (setup 0)).2 = 2 :=
  ⟨by decide, by decide,
   (button_suppresses_random assets0 pressAC (setup 0) 100 30003 (by decide) (by decide)
     (by decide)).2.2.2.1,
   (button_suppresses_random assets0 pressAC (setup 0) 100 30003 (by decide) (by decide)
     (by decide)).2.2.2.2.2.1,
   (button_suppresses_random assets0 pressAC (setup 0) 100 30003 (by decide) (by decide)
     (by decide)).2.2.2.2.2.2.2.1⟩

/-! The scanline buffer bounds. -/

/-- A loop over a recorded array whose body acts on the content as `f` does
and records the indices `idx k`. -/
theorem forLoop_buf (n : Nat) (body : Nat → Buf → Buf) (f : Nat → Mem → Mem)
    (idx : Nat → List Int)
    (h : ∀ k d, (body k d).size = d.size ∧ (body k d).mem = f k d.mem ∧
      (body k d).log = d.log ++ idx k) (b : Buf) :
    (forLoop n body b).size = b.size ∧ (forLoop n body b).mem = forLoop n f b.mem ∧
      (forLoop n body b).log = b.log ++ (List.range n).flatMap idx := by
  induction n with
  | zero => simp [forLoop]
  | succ n ih =>
    obtain ⟨h1, h2, h3⟩ := h n (forLoop n body b)
    obtain ⟨i1, i2, i3⟩ := ih
    refine ⟨?_, ?_, ?_⟩
    · show (body n (forLoop n body b)).size = b.size
      rw [h1, i1]
    · show (body n (forLoop n body b)).mem = f n (forLoop n f b.mem)
      rw [h2, i2]
    · show (body n (forLoop n body b)).log = _
      rw [h3, i3, List.range_succ, List.flatMap_append]
      simp

/-- The zero-initialisation loop on a recorded array. -/
theorem zeroLoop_buf (W P : Nat) (hW : 1 ≤ W) (b : Buf) :
    (forLoop (W * 3 + P - (W - 1) * 3)
        (fun k (d : Buf) => d.set (((W : Int) - 1) * 3 + k) 0) b).size = b.size ∧
      (forLoop (W * 3 + P - (W - 1) * 3)
        (fun k (d : Buf) => d.set (((W : Int) - 1) * 3 + k) 0) b).mem
        = forLoop (W * 3 + P - (W - 1) * 3) (fun k (d : Mem) => d.set ((W - 1) * 3 + k) 0) b.mem ∧
      (forLoop (W * 3 + P - (W - 1) * 3)
        (fun k (d : Buf) => d.set (((W : Int) - 1) * 3 + k) 0) b).log
        = b.log ++ zeroLoopIndices W P := by
  have hc : W * 3 + P - (W - 1) * 3 = 3 + P := by omega
  have h := forLoop_buf (W * 3 + P - (W - 1) * 3)
    (fun k (d : Buf) => d.set (((W : Int) - 1) * 3 + k) 0)
    (fun k (d : Mem) => d.set ((W - 1) * 3 + k) 0)
    (fun k => [((W : Int) - 1) * 3 + k])
    (fun k d => by
      refine ⟨rfl, ?_, rfl⟩
      have e : (((W : Int) - 1) * 3 + k).toNat = (W - 1) * 3 + k := by omega
      simp only [Buf.set, e]) b
  refine ⟨h.1, h.2.1, ?_⟩
  rw [h.2.2, hc, zeroLoopIndices]
  congr 1
  induction (List.range (3 + P)) with
  | nil => rfl
  | cons a l ih => simp [List.flatMap_cons, ih]

/-- The line read on a recorded array. -/
theorem readRectRGB_buf (lcd : Lcd) (y W : Nat) (b : Buf) :
    (Buf.readRectRGB lcd 0 y W 1 b).size = b.size ∧
      (Buf.readRectRGB lcd 0 y W 1 b).mem = readRectRGB lcd 0 y W 1 b.mem ∧
      (Buf.readRectRGB lcd 0 y W 1 b).log = b.log ++ lineReadIndices W := by
  have h := forLoop_buf W
    (fun i (d : Buf) =>
      let p := lcd.pixel (0 + i) (y + 0)
      let o : Int := 3 * (((0 : Nat) : Int) * W + i)
      ((d.set o p.r).set (o + 1) p.g).set (o + 2) p.b)
    (fun i (d : Mem) =>
      let p := lcd.pixel (0 + i) (y + 0)
      let o := 3 * (0 * W + i)
      ((d.set o p.r).set (o + 1) p.g).set (o + 2) p.b)
    (fun i => [3 * (i : Int), 3 * (i : Int) + 1, 3 * (i : Int) + 2])
    (fun i d => by
      have e0 : (3 * (((0 : Nat) : Int) * W + i)).toNat = 3 * (0 * W + i) := by omega
      have e1 : (3 * (((0 : Nat) : Int) * W + i) + 1).toNat = 3 * (0 * W + i) + 1 := by omega
      have e2 : (3 * (((0 : Nat) : Int) * W + i) + 2).toNat = 3 * (0 * W + i) + 2 := by omega
      refine ⟨rfl, ?_, ?_⟩
      · simp only [Buf.set, e0, e1, e2]
      · simp [Buf.set]) b
  exact h

/-- The swap of red and blue on a recorded array. -/
theorem swapLoop_buf (W : Nat) (b : Buf) :
    (forLoop W (fun x (d : Buf) =>
        let r_buff := d.get ((x : Int) * 3)
        let b_buff := r_buff.2.get ((x : Int) * 3 + 2)
        let d := b_buff.2.set ((x : Int) * 3) b_buff.1
        d.set ((x : Int) * 3 + 2) r_buff.1) b).size = b.size ∧
      (forLoop W (fun x (d : Buf) =>
        let r_buff := d.get ((x : Int) * 3)
        let b_buff := r_buff.2.get ((x : Int) * 3 + 2)
        let d := b_buff.2.set ((x : Int) * 3) b_buff.1
        d.set ((x : Int) * 3 + 2) r_buff.1) b).mem
        = forLoop W (fun x (d : Mem) =>
            let r_buff := d (x * 3)
            let d := d.set (x * 3) (d (x * 3 + 2))
            d.set (x * 3 + 2) r_buff) b.mem ∧
      (forLoop W (fun x (d : Buf) =>
        let r_buff := d.get ((x : Int) * 3)
        let b_buff := r_buff.2.get ((x : Int) * 3 + 2)
        let d := b_buff.2.set ((x : Int) * 3) b_buff.1
        d.set ((x : Int) * 3 + 2) r_buff.1) b).log = b.log ++ swapIndices W := by
  exact forLoop_buf W _ _
    (fun x => [(x : Int) * 3, (x : Int) * 3 + 2, (x : Int) * 3, (x : Int) * 3 + 2])
    (fun x d => by
      have e0 : ((x : Int) * 3).toNat = x * 3 := by omega
      have e2 : ((x : Int) * 3 + 2).toNat = x * 3 + 2 := by omega
      refine ⟨rfl, ?_, ?_⟩
      · simp only [Buf.set, Buf.get, e0, e2]
      · simp [Buf.set, Buf.get]) b

/-- A downward loop over a recorded array and a sink whose body acts on the
content and the sink as `f` does and records the indices `idx`. -/
theorem downLoop_buf (n : Nat) (body : Nat → Buf × List Byte → Buf × List Byte)
    (f : Nat → Mem × List Byte → Mem × List Byte) (idx : List Int)
    (h : ∀ y st, (body y st).1.size = st.1.size ∧
      ((body y st).1.mem, (body y st).2) = f y (st.1.mem, st.2) ∧
      (body y st).1.log = st.1.log ++ idx) (st : Buf × List Byte) :
    (downLoop n body st).1.size = st.1.size ∧
      ((downLoop n body st).1.mem, (downLoop n body st).2) = downLoop n f (st.1.mem, st.2) ∧
      (downLoop n body st).1.log = st.1.log ++ (List.replicate n idx).flatten := by
  induction n generalizing st with
  | zero => simp [downLoop]
  | succ n ih =>
    obtain ⟨h1, h2, h3⟩ := h (n + 1) st
    obtain ⟨i1, i2, i3⟩ := ih (body (n + 1) st)
    refine ⟨?_, ?_, ?_⟩
    · show (downLoop n body (body (n + 1) st)).1.size = st.1.size
      rw [i1, h1]
    · show ((downLoop n body (body (n + 1) st)).1.mem, (downLoop n body (body (n + 1) st)).2)
        = downLoop n f (f (n + 1) (st.1.mem, st.2))
      rw [i2, h2]
    · show (downLoop n body (body (n + 1) st)).1.log = _
      rw [i3, h3, List.replicate_succ, List.flatten_cons, List.append_assoc]

/-- An upward loop over a recorded array and a sink whose body acts on the
content and the sink as `f` does and records the indices `idx`. -/
theorem forLoop_buf_sink (n : Nat) (body : Nat → Buf × List Byte → Buf × List Byte)
    (f : Nat → Mem × List Byte → Mem × List Byte) (idx : List Int)
    (h : ∀ y st, (body y st).1.size = st.1.size ∧
      ((body y st).1.mem, (body y st).2) = f y (st.1.mem, st.2) ∧
      (body y st).1.log = st.1.log ++ idx) (st : Buf × List Byte) :
    (forLoop n body st).1.size = st.1.size ∧
      ((forLoop n body st).1.mem, (forLoop n body st).2) = forLoop n f (st.1.mem, st.2) ∧
      (forLoop n body st).1.log = st.1.log ++ (List.replicate n idx).flatten := by
  induction n with
  | zero => simp [forLoop]
  | succ n ih =>
    obtain ⟨h1, h2, h3⟩ := h n (forLoop n body st)
    obtain ⟨i1, i2, i3⟩ := ih
    refine ⟨?_, ?_, ?_⟩
    · show (body n (forLoop n body st)).1.size = st.1.size
      rw [h1, i1]
    · show ((body n (forLoop n body st)).1.mem, (body n (forLoop n body st)).2)
        = f n (forLoop n f (st.1.mem, st.2))
      rw [h2, i2]
    · show (body n (forLoop n body st)).1.log = _
      rw [h3, i3, List.append_assoc, List.replicate_succ', List.flatten_append]
      simp

/-- The indices of the zero-initialisation loop are those from `(W-1)*3` to
`3*W+P-1`. -/
theorem mem_zeroLoopIndices (W P : Nat) (i : Int) :
    i ∈ zeroLoopIndices W P ↔ ((W : Int) - 1) * 3 ≤ i ∧ i ≤ 3 * (W : Int) + P - 1 := by
  simp only [zeroLoopIndices, List.mem_map, List.mem_range]
  constructor
  · rintro ⟨k, hk, rfl⟩
    omega
  · rintro ⟨h1, h2⟩
    exact ⟨(i - ((W : Int) - 1) * 3).toNat, by omega, by omega⟩

/-- The indices of the line read are those from 0 to `3*W-1`. -/
theorem mem_lineReadIndices (W : Nat) (i : Int) :
    i ∈ lineReadIndices W ↔ 0 ≤ i ∧ i ≤ 3 * (W : Int) - 1 := by
  simp only [lineReadIndices, List.mem_flatMap, List.mem_range, List.mem_cons,
    List.mem_singleton, List.not_mem_nil, or_false]
  constructor
  · rintro ⟨k, hk, rfl | rfl | rfl⟩ <;> omega
  · rintro ⟨h1, h2⟩
    exact ⟨(i / 3).toNat, by omega, by omega⟩

/-- The indices of the swap are `x*3` and `x*3+2` for the columns `x` of the
display. -/
theorem mem_swapIndices (W : Nat) (i : Int) :
    i ∈ swapIndices W ↔ ∃ x : Nat, x < W ∧ (i = (x : Int) * 3 ∨ i = (x : Int) * 3 + 2) := by
  simp only [swapIndices, List.mem_flatMap, List.mem_range, List.mem_cons,
    List.mem_singleton, List.not_mem_nil, or_false]
  constructor
  · rintro ⟨x, hx, h | h | h | h⟩
    · exact ⟨x, hx, Or.inl h⟩
    · exact ⟨x, hx, Or.inr h⟩
    · exact ⟨x, hx, Or.inl h⟩
    · exact ⟨x, hx, Or.inr h⟩
  · rintro ⟨x, hx, h | h⟩
    · exact ⟨x, hx, Or.inl h⟩
    · exact ⟨x, hx, Or.inr (Or.inl h)⟩

/-- The indices of a write of `n` bytes are those from 0 to `n-1`. -/
theorem mem_writeIndices (n : Nat) (i : Int) :
    i ∈ writeIndices n ↔ 0 ≤ i ∧ i ≤ (n : Int) - 1 := by
  simp only [writeIndices, List.mem_map, List.mem_range]
  constructor
  · rintro ⟨k, hk, rfl⟩
    simp only [Int.ofNat_eq_coe]
    omega
  · rintro ⟨h1, h2⟩
    refine ⟨i.toNat, by omega, ?_⟩
    simp only [Int.ofNat_eq_coe]
    omega

/-- One row of the BMP emitters on a recorded array: the line read, the swap
and the write act on content and sink as in the emitters and record the
indices of one row. -/
theorem bmpRow_buf (lcd : Lcd) (W P : Nat) (y : Nat) (st : Buf × List Byte) :
    (Buf.write st.2 (forLoop W (fun x (d : Buf) =>
        let r_buff := d.get ((x : Int) * 3)
        let b_buff := r_buff.2.get ((x : Int) * 3 + 2)
        let d := b_buff.2.set ((x : Int) * 3) b_buff.1
        d.set ((x : Int) * 3 + 2) r_buff.1) (Buf.readRectRGB lcd 0 (y - 1) W 1 st.1))
        (W * 3 + P)).2.size = st.1.size ∧
      ((Buf.write st.2 (forLoop W (fun x (d : Buf) =>
        let r_buff := d.get ((x : Int) * 3)
        let b_buff := r_buff.2.get ((x : Int) * 3 + 2)
        let d := b_buff.2.set ((x : Int) * 3) b_buff.1
        d.set ((x : Int) * 3 + 2) r_buff.1) (Buf.readRectRGB lcd 0 (y - 1) W 1 st.1))
        (W * 3 + P)).2.mem,
       (Buf.write st.2 (forLoop W (fun x (d : Buf) =>
        let r_buff := d.get ((x : Int) * 3)
        let b_buff := r_buff.2.get ((x : Int) * 3 + 2)
        let d := b_buff.2.set ((x : Int) * 3) b_buff.1
        d.set ((x : Int) * 3 + 2) r_buff.1) (Buf.readRectRGB lcd 0 (y - 1) W 1 st.1))
        (W * 3 + P)).1)
        = (forLoop W (fun x (d : Mem) =>
            let r_buff := d (x * 3)
            let d := d.set (x * 3) (d (x * 3 + 2))
            d.set (x * 3 + 2) r_buff) (readRectRGB lcd 0 (y - 1) W 1 st.1.mem),
           write st.2 (forLoop W (fun x (d : Mem) =>
            let r_buff := d (x * 3)
            let d := d.set (x * 3) (d (x * 3 + 2))
            d.set (x * 3 + 2) r_buff) (readRectRGB lcd 0 (y - 1) W 1 st.1.mem)) (W * 3 + P)) ∧
      (Buf.write st.2 (forLoop W (fun x (d : Buf) =>
        let r_buff := d.get ((x : Int) * 3)
        let b_buff := r_buff.2.get ((x : Int) * 3 + 2)
        let d := b_buff.2.set ((x : Int) * 3) b_buff.1
        d.set ((x : Int) * 3 + 2) r_buff.1) (Buf.readRectRGB lcd 0 (y - 1) W 1 st.1))
        (W * 3 + P)).2.log = st.1.log ++ bmpRowIndices W P := by
  obtain ⟨r1, r2, r3⟩ := readRectRGB_buf lcd (y - 1) W st.1
  obtain ⟨s1, s2, s3⟩ := swapLoop_buf W (Buf.readRectRGB lcd 0 (y - 1) W 1 st.1)
  refine ⟨?_, ?_, ?_⟩
  · show (forLoop W _ (Buf.readRectRGB lcd 0 (y - 1) W 1 st.1)).size = st.1.size
    rw [s1, r1]
  · simp only [Buf.write]
    rw [s2, r2]
  · simp only [Buf.write]
    rw [s3, r3, bmpRowIndices, writeIndices, Nat.mul_comm W 3]
    simp only [List.append_assoc]

/-- One row of the PPM emitter on a recorded array. -/
theorem ppmRow_buf (lcd : Lcd) (W : Nat) (y : Nat) (st : Buf × List Byte) :
    (Buf.write st.2 (Buf.readRectRGB lcd 0 y W 1 st.1) (W * 3)).2.size = st.1.size ∧
      ((Buf.write st.2 (Buf.readRectRGB lcd 0 y W 1 st.1) (W * 3)).2.mem,
       (Buf.write st.2 (Buf.readRectRGB lcd 0 y W 1 st.1) (W * 3)).1)
        = (readRectRGB lcd 0 y W 1 st.1.mem,
           write st.2 (readRectRGB lcd 0 y W 1 st.1.mem) (W * 3)) ∧
      (Buf.write st.2 (Buf.readRectRGB lcd 0 y W 1 st.1) (W * 3)).2.log
        = st.1.log ++ ppmRowIndices W := by
  obtain ⟨r1, r2, r3⟩ := readRectRGB_buf lcd y W st.1
  refine ⟨r1, ?_, ?_⟩
  · simp only [Buf.write]
    rw [r2]
  · simp only [Buf.write]
    rw [r3, ppmRowIndices, writeIndices, Nat.mul_comm W 3, List.append_assoc]

/-- The two loops of the BMP emitters on a recorded array: the size of the
array, the record in closed form, and the same sink as without the record. -/
theorem bmpLoops_buf (lcd : Lcd) (stack : Mem) (sink : List Byte) (hW : 1 ≤ lcd.width) :
    (downLoop lcd.height
      (fun y (st : Buf × List Byte) =>
      ((Buf.write st.2 (forLoop lcd.width (fun x (d : Buf) =>
        let r_buff := d.get ((x : Int) * 3)
        let b_buff := r_buff.2.get ((x : Int) * 3 + 2)
        let d := b_buff.2.set ((x : Int) * 3) b_buff.1
        d.set ((x : Int) * 3 + 2) r_buff.1) (Buf.readRectRGB lcd 0 (y - 1) lcd.width 1 st.1))
        (lcd.width * 3 + bmpPad lcd.width)).2,
       (Buf.write st.2 (forLoop lcd.width (fun x (d : Buf) =>
        let r_buff := d.get ((x : Int) * 3)
        let b_buff := r_buff.2.get ((x : Int) * 3 + 2)
        let d := b_buff.2.set ((x : Int) * 3) b_buff.1
        d.set ((x : Int) * 3 + 2) r_buff.1) (Buf.readRectRGB lcd 0 (y - 1) lcd.width 1 st.1))
        (lcd.width * 3 + bmpPad lcd.width)).1))
      (forLoop (lcd.width * 3 + bmpPad lcd.width - (lcd.width - 1) * 3)
        (fun k (d : Buf) => d.set (((lcd.width : Int) - 1) * 3 + k) 0)
        (Buf.declare (lcd.width * 3 + bmpPad lcd.width) stack), sink)).1.size = 3 * lcd.width + bmpPad lcd.width ∧
    (downLoop lcd.height
      (fun y (st : Buf × List Byte) =>
      ((Buf.write st.2 (forLoop lcd.width (fun x (d : Buf) =>
        let r_buff := d.get ((x : Int) * 3)
        let b_buff := r_buff.2.get ((x : Int) * 3 + 2)
        let d := b_buff.2.set ((x : Int) * 3) b_buff.1
        d.set ((x : Int) * 3 + 2) r_buff.1) (Buf.readRectRGB lcd 0 (y - 1) lcd.width 1 st.1))
        (lcd.width * 3 + bmpPad lcd.width)).2,
       (Buf.write st.2 (forLoop lcd.width (fun x (d : Buf) =>
        let r_buff := d.get ((x : Int) * 3)
        let b_buff := r_buff.2.get ((x : Int) * 3 + 2)
        let d := b_buff.2.set ((x : Int) * 3) b_buff.1
        d.set ((x : Int) * 3 + 2) r_buff.1) (Buf.readRectRGB lcd 0 (y - 1) lcd.width 1 st.1))
        (lcd.width * 3 + bmpPad lcd.width)).1))
      (forLoop (lcd.width * 3 + bmpPad lcd.width - (lcd.width - 1) * 3)
        (fun k (d : Buf) => d.set (((lcd.width : Int) - 1) * 3 + k) 0)
        (Buf.declare (lcd.width * 3 + bmpPad lcd.width) stack), sink)).1.log
      = zeroLoopIndices lcd.width (bmpPad lcd.width) ++
        (List.replicate lcd.height (bmpRowIndices lcd.width (bmpPad lcd.width))).flatten ∧
    (downLoop lcd.height
      (fun y (st : Buf × List Byte) =>
      ((Buf.write st.2 (forLoop lcd.width (fun x (d : Buf) =>
        let r_buff := d.get ((x : Int) * 3)
        let b_buff := r_buff.2.get ((x : Int) * 3 + 2)
        let d := b_buff.2.set ((x : Int) * 3) b_buff.1
        d.set ((x : Int) * 3 + 2) r_buff.1) (Buf.readRectRGB lcd 0 (y - 1) lcd.width 1 st.1))
        (lcd.width * 3 + bmpPad lcd.width)).2,
       (Buf.write st.2 (forLoop lcd.width (fun x (d : Buf) =>
        let r_buff := d.get ((x : Int) * 3)
        let b_buff := r_buff.2.get ((x : Int) * 3 + 2)
        let d := b_buff.2.set ((x : Int) * 3) b_buff.1
        d.set ((x : Int) * 3 + 2) r_buff.1) (Buf.readRectRGB lcd 0 (y - 1) lcd.width 1 st.1))
        (lcd.width * 3 + bmpPad lcd.width)).1))
      (forLoop (lcd.width * 3 + bmpPad lcd.width - (lcd.width - 1) * 3)
        (fun k (d : Buf) => d.set (((lcd.width : Int) - 1) * 3 + k) 0)
        (Buf.declare (lcd.width * 3 + bmpPad lcd.width) stack), sink)).2
      = (downLoop lcd.height
      (fun y (st : Mem × List Byte) =>
      (forLoop lcd.width (fun x (d : Mem) =>
          let r_buff := d (x * 3)
          let d := d.set (x * 3) (d (x * 3 + 2))
          d.set (x * 3 + 2) r_buff) (readRectRGB lcd 0 (y - 1) lcd.width 1 st.1),
       write st.2 (forLoop lcd.width (fun x (d : Mem) =>
          let r_buff := d (x * 3)
          let d := d.set (x * 3) (d (x * 3 + 2))
          d.set (x * 3 + 2) r_buff) (readRectRGB lcd 0 (y - 1) lcd.width 1 st.1))
        (lcd.width * 3 + bmpPad lcd.width)))
      (forLoop (lcd.width * 3 + bmpPad lcd.width - (lcd.width - 1) * 3)
        (fun k (d : Mem) => d.set ((lcd.width - 1) * 3 + k) 0) stack, sink)).2 := by
  obtain ⟨z1, z2, z3⟩ := zeroLoop_buf lcd.width (bmpPad lcd.width) hW
    (Buf.declare (lcd.width * 3 + bmpPad lcd.width) stack)
  obtain ⟨d1, d2, d3⟩ := downLoop_buf lcd.height
    (fun y (st : Buf × List Byte) =>
      ((Buf.write st.2 (forLoop lcd.width (fun x (d : Buf) =>
        let r_buff := d.get ((x : Int) * 3)
        let b_buff := r_buff.2.get ((x : Int) * 3 + 2)
        let d := b_buff.2.set ((x : Int) * 3) b_buff.1
        d.set ((x : Int) * 3 + 2) r_buff.1) (Buf.readRectRGB lcd 0 (y - 1) lcd.width 1 st.1))
        (lcd.width * 3 + bmpPad lcd.width)).2,
       (Buf.write st.2 (forLoop lcd.width (fun x (d : Buf) =>
        let r_buff := d.get ((x : Int) * 3)
        let b_buff := r_buff.2.get ((x : Int) * 3 + 2)
        let d := b_buff.2.set ((x : Int) * 3) b_buff.1
        d.set ((x : Int) * 3 + 2) r_buff.1) (Buf.readRectRGB lcd 0 (y - 1) lcd.width 1 st.1))
        (lcd.width * 3 + bmpPad lcd.width)).1))
    (fun y (st : Mem × List Byte) =>
      (forLoop lcd.width (fun x (d : Mem) =>
          let r_buff := d (x * 3)
          let d := d.set (x * 3) (d (x * 3 + 2))
          d.set (x * 3 + 2) r_buff) (readRectRGB lcd 0 (y - 1) lcd.width 1 st.1),
       write st.2 (forLoop lcd.width (fun x (d : Mem) =>
          let r_buff := d (x * 3)
          let d := d.set (x * 3) (d (x * 3 + 2))
          d.set (x * 3 + 2) r_buff) (readRectRGB lcd 0 (y - 1) lcd.width 1 st.1))
        (lcd.width * 3 + bmpPad lcd.width)))
    (bmpRowIndices lcd.width (bmpPad lcd.width))
    (fun y st => bmpRow_buf lcd lcd.width (bmpPad lcd.width) y st)
    (forLoop (lcd.width * 3 + bmpPad lcd.width - (lcd.width - 1) * 3)
        (fun k (d : Buf) => d.set (((lcd.width : Int) - 1) * 3 + k) 0)
        (Buf.declare (lcd.width * 3 + bmpPad lcd.width) stack), sink)
  refine ⟨?_, ?_, ?_⟩
  · refine d1.trans (z1.trans ?_)
    simp only [Buf.declare, bmpRowLen, bmpPad]
    omega
  · refine d3.trans ?_
    rw [z3]
    rfl
  · have e := congrArg Prod.snd d2
    simp only [z2] at e
    exact e

/-- The loop of the PPM emitter on a recorded array: the size of the array,
the record in closed form, and the same sink as without the record. -/
theorem ppmLoop_buf (lcd : Lcd) (stack : Mem) (sink : List Byte) :
    (forLoop lcd.height (fun y (st : Buf × List Byte) =>
        ((Buf.write st.2 (Buf.readRectRGB lcd 0 y lcd.width 1 st.1) (lcd.width * 3)).2,
         (Buf.write st.2 (Buf.readRectRGB lcd 0 y lcd.width 1 st.1) (lcd.width * 3)).1))
      (Buf.declare (lcd.width * 3) stack, sink)).1.size = 3 * lcd.width ∧
    (forLoop lcd.height (fun y (st : Buf × List Byte) =>
        ((Buf.write st.2 (Buf.readRectRGB lcd 0 y lcd.width 1 st.1) (lcd.width * 3)).2,
         (Buf.write st.2 (Buf.readRectRGB lcd 0 y lcd.width 1 st.1) (lcd.width * 3)).1))
      (Buf.declare (lcd.width * 3) stack, sink)).1.log
      = (List.replicate lcd.height (ppmRowIndices lcd.width)).flatten ∧
    (forLoop lcd.height (fun y (st : Buf × List Byte) =>
        ((Buf.write st.2 (Buf.readRectRGB lcd 0 y lcd.width 1 st.1) (lcd.width * 3)).2,
         (Buf.write st.2 (Buf.readRectRGB lcd 0 y lcd.width 1 st.1) (lcd.width * 3)).1))
      (Buf.declare (lcd.width * 3) stack, sink)).2
      = (forLoop lcd.height (fun y (st : Mem × List Byte) =>
          (readRectRGB lcd 0 y lcd.width 1 st.1,
           write st.2 (readRectRGB lcd 0 y lcd.width 1 st.1) (lcd.width * 3)))
        (stack, sink)).2 := by
  obtain ⟨d1, d2, d3⟩ := forLoop_buf_sink lcd.height
    (fun y (st : Buf × List Byte) =>
        ((Buf.write st.2 (Buf.readRectRGB lcd 0 y lcd.width 1 st.1) (lcd.width * 3)).2,
         (Buf.write st.2 (Buf.readRectRGB lcd 0 y lcd.width 1 st.1) (lcd.width * 3)).1))
    (fun y (st : Mem × List Byte) =>
          (readRectRGB lcd 0 y lcd.width 1 st.1,
           write st.2 (readRectRGB lcd 0 y lcd.width 1 st.1) (lcd.width * 3)))
    (ppmRowIndices lcd.width)
    (fun y st => ppmRow_buf lcd lcd.width y st)
    (Buf.declare (lcd.width * 3) stack, sink)
  refine ⟨?_, ?_, ?_⟩
  · refine d1.trans ?_
    simp only [Buf.declare]
    omega
  · refine d3.trans ?_
    simp [Buf.declare]
  · exact congrArg Prod.snd d2

/-- Every index of the record of a BMP emitter lies in the array. -/
theorem bmpLog_bounds (W P H : Nat) (hW : 1 ≤ W) (i : Int)
    (hi : i ∈ zeroLoopIndices W P ++ (List.replicate H (bmpRowIndices W P)).flatten) :
    0 ≤ i ∧ i < ((3 * W + P : Nat) : Int) := by
  rw [List.mem_append] at hi
  rcases hi with hz | hr
  · rw [mem_zeroLoopIndices] at hz
    omega
  · rw [List.mem_flatten] at hr
    obtain ⟨l, hl, hil⟩ := hr
    rw [List.mem_replicate] at hl
    rw [hl.2, bmpRowIndices, List.mem_append, List.mem_append, mem_lineReadIndices,
      mem_swapIndices, mem_writeIndices] at hil
    rcases hil with (h | ⟨x, hx, h | h⟩) | h <;> omega

/-- Every index of the record of the PPM emitter lies in the array. -/
theorem ppmLog_bounds (W H : Nat) (i : Int)
    (hi : i ∈ (List.replicate H (ppmRowIndices W)).flatten) :
    0 ≤ i ∧ i < ((3 * W : Nat) : Int) := by
  rw [List.mem_flatten] at hi
  obtain ⟨l, hl, hil⟩ := hi
  rw [List.mem_replicate] at hl
  rw [hl.2, ppmRowIndices, List.mem_append, mem_lineReadIndices, mem_writeIndices] at hil
  rcases hil with h | h <;> omega

/-- C24: scanline buffer bounds. For a display at least one pixel wide and of
any height, every index at which a BMP emitter reads or writes `line_data`
lies in `[0, 3*W + P)`, the declared size of the array (`P` being the
padding): the zero-initialisation loop touches the indices `(W-1)*3` to
`3*W+P-1`, and for each of the `H` rows the line read fills `0` to `3*W-1`,
the swap of red and blue touches `x*3` and `x*3+2` for `x < W`, and the
write reads `0` to `3*W+P-1`. Likewise every index used by the PPM emitter
lies in `[0, 3*W)`, the declared size of its array. The emitters with the
record of indices produce the results of the emitters themselves. -/
theorem scanline_buffer_bounds (lcd : Lcd) (stack : Mem) (client : List Byte)
    (hW : 1 ≤ lcd.width) :
    ((M5Screen2bmp_client_idx lcd stack client).2.2.size = 3 * lcd.width + bmpPad lcd.width ∧
      (M5Screen2bmp_client_idx lcd stack client).2.2.log
        = zeroLoopIndices lcd.width (bmpPad lcd.width) ++
          (List.replicate lcd.height (bmpRowIndices lcd.width (bmpPad lcd.width))).flatten ∧
      (M5Screen2bmp_client_idx lcd stack client).2.2.InBounds ∧
      ((M5Screen2bmp_client_idx lcd stack client).1,
        (M5Screen2bmp_client_idx lcd stack client).2.1)
        = M5Screen2bmp_client lcd stack client) ∧
    (∃ b : Buf,
      M5Screen2bmp_fs_idx lcd stack true
        = ((M5Screen2bmp_fs lcd stack true).1, (M5Screen2bmp_fs lcd stack true).2, some b) ∧
      b.size = 3 * lcd.width + bmpPad lcd.width ∧
      b.log = zeroLoopIndices lcd.width (bmpPad lcd.width) ++
          (List.replicate lcd.height (bmpRowIndices lcd.width (bmpPad lcd.width))).flatten ∧
      b.InBounds) ∧
    M5Screen2bmp_fs_idx lcd stack false
      = ((M5Screen2bmp_fs lcd stack false).1, (M5Screen2bmp_fs lcd stack false).2, none) ∧
    (∃ b : Buf,
      M5Screen2ppm_idx lcd stack true
        = ((M5Screen2ppm lcd stack true).1, (M5Screen2ppm lcd stack true).2, some b) ∧
      b.size = 3 * lcd.width ∧
      b.log = (List.replicate lcd.height (ppmRowIndices lcd.width)).flatten ∧
      b.InBounds) ∧
    M5Screen2ppm_idx lcd stack false
      = ((M5Screen2ppm lcd stack false).1, (M5Screen2ppm lcd stack false).2, none) ∧
    (∀ i : Int, i ∈ zeroLoopIndices lcd.width (bmpPad lcd.width) ↔
      ((lcd.width : Int) - 1) * 3 ≤ i ∧ i ≤ 3 * (lcd.width : Int) + bmpPad lcd.width - 1) ∧
    (∀ i : Int, i ∈ lineReadIndices lcd.width ↔ 0 ≤ i ∧ i ≤ 3 * (lcd.width : Int) - 1) ∧
    (∀ i : Int, i ∈ swapIndices lcd.width ↔
      ∃ x : Nat, x < lcd.width ∧ (i = (x : Int) * 3 ∨ i = (x : Int) * 3 + 2)) ∧
    (∀ i : Int, i ∈ writeIndices (3 * lcd.width + bmpPad lcd.width) ↔
      0 ≤ i ∧ i ≤ 3 * (lcd.width : Int) + bmpPad lcd.width - 1) := by
  obtain ⟨c1, c2, c3⟩ := bmpLoops_buf lcd stack
    (write client (forLoop 4 (fun i (h : Mem) =>
        ((h.set (2 + i) ((((54 + (3 * lcd.width + bmpPad lcd.width) * lcd.height) % 2 ^ 32)
            >>> (8 * i)) &&& 255)).set
          (18 + i) ((lcd.width >>> (8 * i)) &&& 255)).set
          (22 + i) ((lcd.height >>> (8 * i)) &&& 255)) (Mem.ofList bmpHeaderInit)) 54) hW
  obtain ⟨f1, f2, f3⟩ := bmpLoops_buf lcd stack
    (write [] (forLoop 4 (fun i (h : Mem) =>
        ((h.set (2 + i) ((((54 + (3 * lcd.width + bmpPad lcd.width) * lcd.height) % 2 ^ 32)
            >>> (8 * i)) &&& 255)).set
          (18 + i) ((lcd.width >>> (8 * i)) &&& 255)).set
          (22 + i) ((lcd.height >>> (8 * i)) &&& 255)) (Mem.ofList bmpHeaderInit)) 54) hW
  obtain ⟨p1, p2, p3⟩ := ppmLoop_buf lcd stack
    ([] ++ (ascii "P6\n" ++ decimal lcd.width ++ ascii " " ++
      decimal lcd.height ++ ascii "\n255\n"))
  refine ⟨⟨c1, c2, ?_, ?_⟩, ⟨_, ?_, f1, f2, ?_⟩, rfl, ⟨_, ?_, p1, p2, ?_⟩, rfl,
    fun i => mem_zeroLoopIndices _ _ i, fun i => mem_lineReadIndices _ i,
    fun i => mem_swapIndices _ i, fun i => ?_⟩
  · intro i hi
    have hs : (M5Screen2bmp_client_idx lcd stack client).2.2.size
        = 3 * lcd.width + bmpPad lcd.width := c1
    have hl : (M5Screen2bmp_client_idx lcd stack client).2.2.log = _ := c2
    rw [hs]
    rw [hl] at hi
    exact bmpLog_bounds _ _ _ hW i hi
  · exact Prod.ext rfl c3
  · exact Prod.ext rfl (Prod.ext f3 rfl)
  · intro i hi
    rw [f1]
    rw [f2] at hi
    exact bmpLog_bounds _ _ _ hW i hi
  · exact Prod.ext rfl (Prod.ext p3 rfl)
  · intro i hi
    rw [p1]
    rw [p2] at hi
    exact ppmLog_bounds _ _ i hi
  · rw [mem_writeIndices]
    omega

/-- On the 2 by 2 display the array has 8 bytes (two of padding); the client
emitter touches the indices 3 to 7 in the first loop and then, for each of the
two rows, 0 to 5 in the line read, 0, 2, 0, 2, 3, 5, 3, 5 in the swap and 0 to
7 in the write. -/
theorem scanline_buffer_bounds_witness :
    1 ≤ lcd2x2.width ∧
      (M5Screen2bmp_client_idx lcd2x2 stack0 []).2.2.size = 8 ∧
      (M5Screen2bmp_client_idx lcd2x2 stack0 []).2.2.log
        = [3, 4, 5, 6, 7,
           0, 1, 2, 3, 4, 5, 0, 2, 0, 2, 3, 5, 3, 5, 0, 1, 2, 3, 4, 5, 6, 7,
           0, 1, 2, 3, 4, 5, 0, 2, 0, 2, 3, 5, 3, 5, 0, 1, 2, 3, 4, 5, 6, 7] ∧
      (M5Screen2bmp_client_idx lcd2x2 stack0 []).2.2.InBounds :=
  ⟨by decide,
   (scanline_buffer_bounds lcd2x2 stack0 [] (by decide)).1.1,
   (scanline_buffer_bounds lcd2x2 stack0 [] (by decide)).1.2.1,
   (scanline_buffer_bounds lcd2x2 stack0 [] (by decide)).1.2.2.1⟩

end M5ScreenCapture
